import Mathlib

/-!
# ESP32 security camera: camera arbitration, recovery and the detection cycle

A shallow embedding of the camera-handling procedures of `src/src/main.cpp`
(`checkCameraIsFree`, `RestartCamera`, `RebootCamera`, `capturePhotoSaveSpiffs`,
`saveJpgFrame`, `sendStream`, `MotionDetected`, `ioDetected`, the stream handlers and the
detection section of `loop`) as state-passing functions, followed by theorems about them.

Conventions of the embedding

* The globals of the sketch are the fields of `State`; they keep their names.
* `clock` is the number of milliseconds since boot as an unbounded natural number.
  `millis()` returns `clock % 2^32`, the 32-bit value the firmware sees.
* Everything the firmware cannot decide itself (whether the camera driver initialises,
  whether a frame is captured, how much time passed, ...) is answered by an `Env`.
  Each question asked is numbered by the field `asked`, so that every sequence of
  answers can be expressed.
* `trace` lists, in order, the externally visible calls the firmware made.
* Procedures that may call `ESP.restart()`, or that contain a loop or a recursion whose
  end depends on the environment, return a `Res`; recursion is bounded by a step budget
  `fuel`, and `Res.unfinished` reports that the budget ran out first.
-/

namespace SecurityCamera

/-! ## Data -/

/-- Pixel formats the camera driver is switched between. -/
inductive pixformat_t where
  | PIXFORMAT_GRAYSCALE
  | PIXFORMAT_JPEG
  deriving DecidableEq, Repr

/-- Texts passed to `log_system_message`, `UpdateBootlogSpiffs` and `Serial.println`. -/
inductive Msg where
  /-- Text "Waiting to capture image as camera is already in use!" -/
  | waitingForCamera
  /-- Text "Waiting for camera to become free timed out" -/
  | waitTimedOut
  /-- Text "Camera mode switched ok" -/
  | modeSwitchedOk
  /-- Text "Camera mode switched ok - 2nd attempt" -/
  | modeSwitchedOk2
  /-- Text "Camera failed to restart so rebooting camera" (boot log) -/
  | cameraFailedRestart
  /-- Text "ERROR: Problem with camera detected so resetting it" -/
  | cameraProblemReset
  /-- Text "Camera failed to reboot so rebooting esp32" (boot log) -/
  | cameraFailedReboot
  /-- Text "Error: Problem detected verifying image stored in Spiffs" -/
  | verifyProblem
  /-- Text "Error: Unable to capture/store image" -/
  | unableToCapture
  /-- Text "Taking a photo... attempt #n" -/
  | takingPhoto (attempt : Nat)
  /-- Text "Camera capture failed - rebooting camera" -/
  | captureFailedRebooting
  /-- Text "Capture of image failed" -/
  | captureOfImageFailed
  /-- Text "error: failed to capture greyscale image" -/
  | greyCaptureFailed
  /-- Text "error: failed to capture image" -/
  | jpgCaptureFailed
  /-- Text "grey to jpg image conversion failed" -/
  | greyConversionFailed
  /-- Text "Remote video stream started" -/
  | remoteStreamStarted
  /-- Text "Remote video stream end:" followed by the last reply -/
  | remoteStreamEnd
  /-- Text "Live stream page requested from: ..." -/
  | liveStreamRequested
  /-- Text "Stream post requested from: ..." -/
  | streamPostRequested
  /-- Text "Video stream stopped" -/
  | videoStreamStopped
  /-- Text "IO input has triggered - status = ..." -/
  | ioTriggered (iostat : Bool)
  /-- Text "Camera detected motion: n" -/
  | cameraDetectedMotion (changes : Nat)
  /-- Text "Motion detected but io input low so ignored" -/
  | ioLowIgnored
  /-- Text "Too soon to re-trigger" -/
  | tooSoon
  /-- Text "Not enough consecutive detections" -/
  | notEnoughConsecutive
  /-- Text "Illuminator LED turned on" -/
  | illuminatorOn
  /-- Text "Illuminator LED turned off" -/
  | illuminatorOff
  /-- Text "Failed to create file in Spiffs" -/
  | failedCreateFile
  /-- Text "The picture has been saved as ..." -/
  | pictureSaved
  /-- Text "Error: writing image to Spiffs...will format and try again" -/
  | writeErrorWillFormat
  /-- Text "Error: Still unable to write image to Spiffs" -/
  | stillUnableToWrite
  /-- Text "Formatting/Wiping Spiffs memory" -/
  | formattingSpiffs
  /-- Text "Error: Unable to format Spiffs" -/
  | unableToFormat
  /-- Text "Spiffs Wiped" (boot log) -/
  | spiffsWiped
  /-- any other text, given as it is written in the sketch (values that the sketch appends
  to it are left out) -/
  | text (line : String)
  deriving DecidableEq, Repr

/-- Externally visible calls, recorded in `State.trace` in the order they are made. -/
inductive Event where
  /-- Call `delay(ms)` -/
  | delay (ms : Nat)
  /-- Call of `log_system_message` or `UpdateBootlogSpiffs`, or a debug line on the serial port -/
  | log (m : Msg)
  /-- Call `esp_camera_deinit()` -/
  | deinit
  /-- Call `setupCameraHardware(format)` together with its result -/
  | setupCameraHardware (format : pixformat_t) (ok : Bool)
  /-- Call `capture_still()` together with its result -/
  | capture_still (ok : Bool)
  /-- Call `esp_camera_fb_get()`; `ok` tells whether a frame buffer was returned -/
  | fb_get (ok : Bool)
  /-- Call `digitalWrite(PWDN_GPIO_NUM, level)`: the camera power-down pin -/
  | powerDown (level : Bool)
  /-- Call `digitalWrite(Illumination_led, level)` -/
  | illuminationLed (level : Bool)
  /-- Call `ESP.restart()` -/
  | espRestart
  /-- entry into `RestartCamera(format)` -/
  | RestartCamera (format : pixformat_t)
  /-- entry into `saveJpgFrame(dostream)` -/
  | saveJpgFrame (dostream : Bool)
  /-- entry into `saveGreyscaleFrame` -/
  | saveGreyscaleFrame
  /-- Function `checkPhoto` opened a stored file of `size` bytes and returned `ok` -/
  | checkPhoto (size : Nat) (ok : Bool)
  /-- Procedure `MotionDetected(changes)` was invoked while the clock showed `time` -/
  | MotionDetected (changes : Nat) (time : Nat)
  /-- Function `postImage` sent one image; `uploaded` tells whether the reply confirmed it -/
  | postImage (uploaded : Bool)
  /-- one frame was written to the web client by `handleStream` or `handleJPG` -/
  | clientFrame
  /-- Call `motion_detect()`: the value it returned and `tCounter` on its return -/
  | motion_detect (returned : Nat) (tCounter : Nat)
  /-- Call `SaveSettingsSpiffs()` -/
  | SaveSettingsSpiffs
  /-- Call `cameraImageSettings(FRAME_SIZE_MOTION)` of motion.h while `cameraImageExposure`
  and `cameraImageGain` have the values given -/
  | cameraImageSettings (exposure gain : ℚ)
  /-- Call `update_frame()` of motion.h: the current frame is copied to the previous one -/
  | update_frame
  /-- Call `WIFIcheck()` -/
  | WIFIcheck
  /-- Call `digitalWrite(onboardLED, ...)` -/
  | onboardLED
  /-- Call `server.send(code, ...)` -/
  | serverSend (code : Nat)
  deriving DecidableEq, Repr

/-- The globals of the sketch that the camera procedures read or write, with the
bookkeeping of the embedding (`clock`, `asked`, `trace`). -/
structure State where
  /-- milliseconds since boot, unbounded -/
  clock : Nat
  /-- number of questions put to the environment so far -/
  asked : Nat
  /-- calls made so far, oldest first -/
  trace : List Event
  /-- Global `byte DetectionEnabled` (0 = stopped, 1 = enabled, 2 = paused) -/
  DetectionEnabled : Nat
  /-- Global `uint32_t TRIGGERtimer` -/
  TRIGGERtimer : Nat
  /-- Global `int16_t SpiffsFileCounter` -/
  SpiffsFileCounter : Int
  /-- Global `tCounter` of motion.h: consecutive detections counted so far -/
  tCounter : Nat
  /-- Global `tCounterTrigger` of motion.h: consecutive detections required -/
  tCounterTrigger : Nat
  /-- Global `Image_thresholdL` of motion.h -/
  Image_thresholdL : Nat
  /-- Global `Image_thresholdH` of motion.h -/
  Image_thresholdH : Nat
  /-- Global `uint16_t TriggerLimitTime` (seconds) -/
  TriggerLimitTime : Nat
  /-- Global `bool ioRequiredHighToTrigger` -/
  ioRequiredHighToTrigger : Bool
  /-- Global `bool SensorStatus` -/
  SensorStatus : Bool
  /-- Global `bool UseFlash` -/
  UseFlash : Bool
  /-- Global `bool PostImages` -/
  PostImages : Bool
  /-- Global `bool ReqLEDStatus` -/
  ReqLEDStatus : Bool
  deriving Repr

/-- Answers of the world outside the firmware. The argument is the number of the
question (`State.asked` at the time it is put). -/
structure Env where
  /-- milliseconds that passed, beyond the explicit delays, when the clock is read -/
  elapsed : Nat → Nat
  /-- value of `DetectionEnabled` found after a wait inside `checkCameraIsFree`
  (2 while the other user of the camera still holds it) -/
  flagAfterWait : Nat → Nat
  /-- whether `setupCameraHardware` succeeds -/
  setupOk : Nat → Bool
  /-- whether `capture_still` succeeds -/
  stillOk : Nat → Bool
  /-- whether `esp_camera_fb_get` returns a frame -/
  fbOk : Nat → Bool
  /-- whether `frame2jpg` succeeds -/
  jpgOk : Nat → Bool
  /-- whether a file could be opened for writing -/
  openOk : Nat → Bool
  /-- whether writing the image to the open file succeeded -/
  writeOk : Nat → Bool
  /-- whether `SPIFFS.format()` succeeded -/
  formatOk : Nat → Bool
  /-- size in bytes of the file that `checkPhoto` opens -/
  fileSize : Nat → Nat
  /-- whether the reply to `postImage` contains "has been uploaded" -/
  uploaded : Nat → Bool
  /-- Answer of `client.connected()` -/
  connected : Nat → Bool
  /-- value returned by `motion_detect()` -/
  changes : Nat → Nat
  /-- value of `tCounter` when `motion_detect()` returns, given its value before -/
  tCounterAfter : Nat → Nat → Nat

/-- How a procedure ends. -/
inductive Res (α : Type) where
  /-- it returned `a` to its caller -/
  | ok (a : α) (s : State)
  /-- it executed `ESP.restart()` -/
  | reboot (s : State)
  /-- it dereferenced a null frame pointer -/
  | fault (s : State)
  /-- it was still running when the step budget ran out -/
  | unfinished (s : State)

/-- The state in which a procedure ended, however it ended. -/
def Res.state {α : Type} : Res α → State
  | .ok _ s => s
  | .reboot s => s
  | .fault s => s
  | .unfinished s => s

/-- The value a procedure returned, if it returned. -/
def Res.value {α : Type} : Res α → Option α
  | .ok a _ => some a
  | _ => none

/-- Whether a procedure returned to its caller. -/
def Res.returned {α : Type} : Res α → Bool
  | .ok _ _ => true
  | _ => false

/-- A procedure: from the state at the call to the way it ends. -/
def M (α : Type) : Type := State → Res α

/-- Sequencing: the second procedure runs only if the first returned. -/
def M.bind {α β : Type} (m : M α) (f : α → M β) : M β := fun s =>
  match m s with
  | .ok a s1 => f a s1
  | .reboot s1 => .reboot s1
  | .fault s1 => .fault s1
  | .unfinished s1 => .unfinished s1

instance : Monad M where
  pure a := fun s => .ok a s
  bind := M.bind

/-! ## Primitive steps -/

/-- Two to the power 32: the modulus of `uint32_t` arithmetic. -/
def U32 : Nat := 4294967296

/-- Read the whole state. -/
def getState : M State := fun s => .ok s s

/-- Update the state. -/
def modifyState (f : State → State) : M Unit := fun s => .ok () (f s)

/-- Append a call to the trace. -/
def emit (e : Event) : M Unit :=
  modifyState fun s => { s with trace := s.trace ++ [e] }

/-- Call `log_system_message(m)`. -/
def log_system_message (m : Msg) : M Unit := emit (.log m)

/-- Call `delay(ms)`: the clock advances by `ms`. -/
def delay (ms : Nat) : M Unit :=
  modifyState fun s => { s with clock := s.clock + ms, trace := s.trace ++ [.delay ms] }

/-- Call `millis()`: the time that passed since the last observation is added to the clock
and the low 32 bits are returned. -/
def millis (env : Env) : M Nat := fun s =>
  let c := s.clock + env.elapsed s.asked
  .ok (c % U32) { s with clock := c, asked := s.asked + 1 }

/-- Statement `TRIGGERtimer = millis();` -/
def resetTRIGGERtimer (env : Env) : M Unit := do
  let now ← millis env
  modifyState fun s => { s with TRIGGERtimer := now }

/-- Call `ESP.restart()`: the device restarts, control does not come back. -/
def ESP_restart {α : Type} : M α := fun s =>
  .reboot { s with trace := s.trace ++ [.espRestart] }

/-- A step budget that ran out. -/
def outOfFuel {α : Type} : M α := fun s => .unfinished s

/-- Call `setupCameraHardware(format)` of motion.h: the driver answers through the
environment. -/
def setupCameraHardware (env : Env) (format : pixformat_t) : M Bool := fun s =>
  let ok := env.setupOk s.asked
  .ok ok { s with asked := s.asked + 1, trace := s.trace ++ [.setupCameraHardware format ok] }

/-- Call `capture_still()` of motion.h. -/
def capture_still (env : Env) : M Bool := fun s =>
  let ok := env.stillOk s.asked
  .ok ok { s with asked := s.asked + 1, trace := s.trace ++ [.capture_still ok] }

/-- Call `esp_camera_fb_get()`: true when a frame buffer is returned. -/
def esp_camera_fb_get (env : Env) : M Bool := fun s =>
  let ok := env.fbOk s.asked
  .ok ok { s with asked := s.asked + 1, trace := s.trace ++ [.fb_get ok] }

/-- One yes/no answer of the environment that leaves no entry in the trace. -/
def ask (answer : Nat → Bool) : M Bool := fun s =>
  .ok (answer s.asked) { s with asked := s.asked + 1 }

/-! ## checkCameraIsFree (main.cpp 186-195) -/

/-- The `for` loop of `checkCameraIsFree`; `remaining` is `waitTimeout - i`.
During each `delay(100)` the other user of the camera may release it: the value of
`DetectionEnabled` after the wait is the one the environment reports. -/
def checkCameraIsFree.loop (env : Env) : (remaining : Nat) → M Bool
  | 0 => do
    log_system_message .waitTimedOut
    return false
  | remaining + 1 => do
    delay 100
    modifyState fun s => { s with DetectionEnabled := env.flagAfterWait s.asked,
                                  asked := s.asked + 1 }
    let s ← getState
    if s.DetectionEnabled ≠ 2 then return true
    checkCameraIsFree.loop env remaining

/-- Function `bool checkCameraIsFree()`. -/
def checkCameraIsFree (env : Env) : M Bool := do
  let waitTimeout := 10
  let s ← getState
  if s.DetectionEnabled ≠ 2 then return true
  log_system_message .waitingForCamera
  checkCameraIsFree.loop env waitTimeout

/-! ## checkPhoto (main.cpp 1357-1364) -/

/-- The test of `checkPhoto` on a file of `size` bytes: `uint16_t pic_sz = f_pic.size();`
followed by `pic_sz > 100`. -/
def checkPhotoSize (size : Nat) : Bool :=
  let pic_sz := size % 65536
  decide (pic_sz > 100)

/-- Function `bool checkPhoto(fs, IFileName)`; the environment tells the size of the file. -/
def checkPhoto (env : Env) : M Bool := do
  let s ← getState
  let size := env.fileSize s.asked
  modifyState fun s => { s with asked := s.asked + 1 }
  let tres := checkPhotoSize size
  emit (.checkPhoto size tres)
  if !tres then log_system_message .verifyProblem
  return tres

/-! ## RestartCamera and RebootCamera (main.cpp 1370-1388, 1425-1442) -/

/-- Body of `RebootCamera(format)`, with the procedure it calls as `RestartCamera`
passed in as `restart`. -/
def RebootCameraWith (env : Env) (restart : pixformat_t → M Unit) (format : pixformat_t) :
    M Unit := do
  log_system_message .cameraProblemReset
  emit (.powerDown true)
  delay 200
  emit (.powerDown false)
  delay 400
  restart .PIXFORMAT_GRAYSCALE
  delay 50
  let still ← capture_still env
  if !still then
    log_system_message .cameraFailedReboot
    delay 500
    ESP_restart
  if format = .PIXFORMAT_JPEG then restart .PIXFORMAT_JPEG

/-- Procedure `void RestartCamera(pixformat_t format)`. Each call spends one unit of
`fuel`, so that the mutual recursion with `RebootCamera` is bounded. -/
def RestartCamera (env : Env) : (fuel : Nat) → pixformat_t → M Unit
  | 0, _ => outOfFuel
  | fuel + 1, format => do
    emit (.RestartCamera format)
    emit .deinit
    let ok ← setupCameraHardware env format
    if ok then
      log_system_message .modeSwitchedOk
    else
      emit .deinit
      delay 50
      let ok ← setupCameraHardware env format
      if ok then
        log_system_message .modeSwitchedOk2
      else
        log_system_message .cameraFailedRestart
        RebootCameraWith env (RestartCamera env fuel) format
    resetTRIGGERtimer env

/-- Procedure `void RebootCamera(pixformat_t format)`. -/
def RebootCamera (env : Env) (fuel : Nat) (format : pixformat_t) : M Unit :=
  RebootCameraWith env (RestartCamera env fuel) format

/-! ## Streaming to the POST server (main.cpp 1444-1472) -/

/-- Constant `maxCamStreamTime` (seconds). -/
def maxCamStreamTime : Nat := 20

/-- Constant `MaxSpiffsImages`. -/
def MaxSpiffsImages : Int := 6

/-- The value stored by
`uint32_t streamStop = (unsigned long)millis() + (maxCamStreamTime * 1000);`
when `millis()` returns `now`. -/
def streamStop (now : Nat) : Nat := (now + maxCamStreamTime * 1000) % U32

/-- The loop condition `millis() < streamStop` when `millis()` returns `now`. -/
def streamContinues (now stop : Nat) : Bool := decide (now < stop)

/-- Function `postImage` of post.h as seen by the camera procedures: it touches none of the
globals; whether the server confirmed the upload is told by the environment. -/
def postImage (env : Env) : M Bool := do
  let up ← ask env.uploaded
  emit (.postImage up)
  return up

/-- The `while (millis() < streamStop)` loop of `sendStream`. -/
def sendStream.loop (env : Env) (stop : Nat) : (fuel : Nat) → M Unit
  | 0 => outOfFuel
  | fuel + 1 => do
    let now ← millis env
    if streamContinues now stop then
      let fb ← esp_camera_fb_get env
      let fb ← (if fb then pure true else do
        log_system_message .captureFailedRebooting
        RebootCamera env fuel .PIXFORMAT_JPEG
        esp_camera_fb_get env)
      if fb then
        let up ← postImage env
        if up then sendStream.loop env stop fuel
      else
        log_system_message .captureOfImageFailed

/-- Procedure `void sendStream(WiFiClient mclient)`. -/
def sendStream (env : Env) (fuel : Nat) : M Unit := do
  log_system_message .remoteStreamStarted
  let now ← millis env
  sendStream.loop env (streamStop now) fuel
  log_system_message .remoteStreamEnd

/-! ## Saving frames (main.cpp 1478-1638) -/

/-- Function `WipeSpiffs()` (main.cpp 408-422). -/
def WipeSpiffs (env : Env) : M Bool := do
  log_system_message .formattingSpiffs
  let formatted ← ask env.formatOk
  if formatted then
    modifyState fun s => { s with SpiffsFileCounter := 0 }
    log_system_message .spiffsWiped
    emit .SaveSettingsSpiffs
    return true
  else
    log_system_message .unableToFormat
    return false

/-- The part of `saveJpgFrame` that stores a captured frame in Spiffs
(main.cpp 1504-1529). -/
def saveJpgFrame.store (env : Env) : M Unit := do
  let opened ← ask env.openOk
  if opened then
    let written ← ask env.writeOk
    if written then
      log_system_message .pictureSaved
    else
      log_system_message .writeErrorWillFormat
      let _ ← WipeSpiffs env
      modifyState fun s => { s with SpiffsFileCounter := 1 }
      let again ← ask env.writeOk
      if !again then log_system_message .stillUnableToWrite
  else
    log_system_message .failedCreateFile

/-- The statements of `saveJpgFrame(dostream)`; `flashMode` is the constant 2 and the
SD card branch touches no global. -/
def saveJpgFrame.body (env : Env) (fuel : Nat) (dostream : Bool) : M Unit := do
  let s ← getState
  if s.UseFlash then emit (.illuminationLed true)
  let fb ← esp_camera_fb_get env
  let fb ← (if fb then pure true else do
    log_system_message .captureFailedRebooting
    RebootCamera env fuel .PIXFORMAT_JPEG
    esp_camera_fb_get env)
  let s ← getState
  if s.UseFlash then emit (.illuminationLed false)
  if fb then
    saveJpgFrame.store env
    let s ← getState
    if s.PostImages then
      let _ ← postImage env
      if dostream then sendStream env fuel
  else
    log_system_message .captureOfImageFailed

/-- Procedure `void saveJpgFrame(bool dostream)`: the call is recorded, then the
statements run. -/
def saveJpgFrame (env : Env) (fuel : Nat) (dostream : Bool) : M Unit := do
  emit (.saveJpgFrame dostream)
  saveJpgFrame.body env fuel dostream

/-- Procedure `void saveGreyscaleFrame(String filesName)`: it captures one frame and
writes files, and touches none of the globals. -/
def saveGreyscaleFrame (env : Env) : M Unit := do
  emit .saveGreyscaleFrame
  let fb ← esp_camera_fb_get env
  if fb then
    let converted ← ask env.jpgOk
    if !converted then log_system_message .greyConversionFailed
  else
    log_system_message .greyCaptureFailed

/-! ## capturePhotoSaveSpiffs (main.cpp 1390-1420) -/

/-- Statement `if (DetectionEnabled == 1) DetectionEnabled = 2;` -/
def pauseDetection : M Unit :=
  modifyState fun s => if s.DetectionEnabled = 1 then { s with DetectionEnabled := 2 } else s

/-- Statement `if (DetectionEnabled == 2) DetectionEnabled = 1;` -/
def resumeDetection : M Unit :=
  modifyState fun s => if s.DetectionEnabled = 2 then { s with DetectionEnabled := 1 } else s

/-- The value of an `int16_t` after an increment. -/
def incrInt16 (x : Int) : Int := (x + 1 + 32768) % 65536 - 32768

/-- The `do { ... } while (!ok && TryCount < 3)` loop of `capturePhotoSaveSpiffs`;
`TryCount` is the value of the attempt counter before the body runs. -/
def capturePhotoSaveSpiffs.loop (env : Env) (dostream : Bool) :
    (fuel : Nat) → (TryCount : Nat) → M Bool
  | 0, _ => outOfFuel
  | fuel + 1, TryCount => do
    let TryCount := (TryCount + 1) % 256
    log_system_message (.takingPhoto TryCount)
    saveJpgFrame env fuel dostream
    let ok ← checkPhoto env
    if !ok ∧ TryCount < 3 then capturePhotoSaveSpiffs.loop env dostream fuel TryCount
    else return ok

/-- Function `bool capturePhotoSaveSpiffs(bool dostream)`. -/
def capturePhotoSaveSpiffs (env : Env) (fuel : Nat) (dostream : Bool) : M Bool := do
  let _ ← checkCameraIsFree env
  pauseDetection
  modifyState fun s => { s with SpiffsFileCounter := incrInt16 s.SpiffsFileCounter }
  modifyState fun s =>
    if s.SpiffsFileCounter > MaxSpiffsImages then { s with SpiffsFileCounter := 1 } else s
  saveGreyscaleFrame env
  RestartCamera env fuel .PIXFORMAT_JPEG
  let ok ← capturePhotoSaveSpiffs.loop env dostream fuel 0
  RestartCamera env fuel .PIXFORMAT_GRAYSCALE
  resetTRIGGERtimer env
  resumeDetection
  if !ok then log_system_message .unableToCapture
  return ok

/-! ## ioDetected and MotionDetected (main.cpp 1643-1687) -/

/-- Procedure `void ioDetected(bool iostat)`. -/
def ioDetected (env : Env) (iostat : Bool) : M Unit := do
  let _ ← checkCameraIsFree env
  pauseDetection
  log_system_message (.ioTriggered iostat)
  resetTRIGGERtimer env
  resumeDetection

/-- The statements of `MotionDetected(changes)`, compiled without `EMAIL_ENABLED` as
main.cpp leaves it. -/
def MotionDetected.body (env : Env) (fuel : Nat) (changes : Nat) : M Unit := do
  let free ← checkCameraIsFree env
  if free then
    log_system_message (.cameraDetectedMotion changes)
    let _ ← capturePhotoSaveSpiffs env fuel true
    resetTRIGGERtimer env
    resumeDetection

/-- Procedure `void MotionDetected(uint16_t changes)`: the call is recorded with the time
the clock shows, then the statements run. -/
def MotionDetected (env : Env) (fuel : Nat) (changes : Nat) : M Unit := do
  let s ← getState
  emit (.MotionDetected changes s.clock)
  MotionDetected.body env fuel changes

/-! ## Stream handlers (main.cpp 1693-1812) -/

/-- The `while (millis() < streamStop)` loop of `handleStream`. A frame pointer that is
null is dereferenced by `s = fb->len`. -/
def handleStream.loop (env : Env) (stop : Nat) : (fuel : Nat) → M Unit
  | 0 => outOfFuel
  | fuel + 1 => do
    let now ← millis env
    if streamContinues now stop then
      let conn ← ask env.connected
      if conn then
        let fb ← esp_camera_fb_get env
        if fb then
          emit .clientFrame
          handleStream.loop env stop fuel
        else
          fun s => .fault s

/-- Procedure `void handleStream()`. -/
def handleStream (env : Env) (fuel : Nat) : M Unit := do
  log_system_message .liveStreamRequested
  let _ ← checkCameraIsFree env
  pauseDetection
  RestartCamera env fuel .PIXFORMAT_JPEG
  let now ← millis env
  handleStream.loop env (streamStop now) fuel
  log_system_message .videoStreamStopped
  delay 3
  RestartCamera env fuel .PIXFORMAT_GRAYSCALE
  resetTRIGGERtimer env
  resumeDetection

/-- Procedure `void handleStrPst()`. -/
def handleStrPst (env : Env) (fuel : Nat) : M Unit := do
  log_system_message .streamPostRequested
  let _ ← checkCameraIsFree env
  pauseDetection
  RestartCamera env fuel .PIXFORMAT_JPEG
  sendStream env fuel
  RestartCamera env fuel .PIXFORMAT_GRAYSCALE
  resetTRIGGERtimer env
  resumeDetection

/-- Procedure `void handleJPG()`. -/
def handleJPG (env : Env) : M Unit := do
  let free ← checkCameraIsFree env
  if free then
    let fb ← esp_camera_fb_get env
    if fb then
      let _ ← ask env.jpgOk
      emit .clientFrame
      delay 3
    else
      log_system_message .jpgCaptureFailed

/-- The branch of `rootButtons` for the button "toggle illuminator LED"
(main.cpp 821-836). -/
def illuminatorButton (env : Env) : M Unit := do
  let _ ← checkCameraIsFree env
  pauseDetection
  let s ← getState
  if !s.ReqLEDStatus then
    modifyState fun s => { s with ReqLEDStatus := true }
    emit (.illuminationLed true)
    log_system_message .illuminatorOn
  else
    modifyState fun s => { s with ReqLEDStatus := false }
    emit (.illuminationLed false)
    log_system_message .illuminatorOff
  resetTRIGGERtimer env
  resumeDetection

/-! ## The detection section of loop (main.cpp 1893-1919) -/

/-- The state in which `motion_detect()` of motion.h, which is not among the sources,
returns when it was called in state `s`: the value it leaves in `tCounter` is told by the
environment, and the call is recorded with the value returned. -/
def afterMotionDetect (env : Env) (s : State) : State :=
  { s with
    asked := s.asked + 1
    tCounter := env.tCounterAfter s.asked s.tCounter
    trace := s.trace ++ [.motion_detect (env.changes s.asked)
      (env.tCounterAfter s.asked s.tCounter)] }

/-- Function `motion_detect()` of motion.h: the value it returns is told by the
environment. -/
def motion_detect (env : Env) : M Nat := fun s =>
  .ok (env.changes s.asked) (afterMotionDetect env s)

/-- The condition `(changes >= Image_thresholdL) && (changes <= Image_thresholdH)`. -/
def isCandidate (s : State) (changes : Nat) : Bool :=
  decide (changes ≥ s.Image_thresholdL) && decide (changes ≤ s.Image_thresholdH)

/-- The value of `(unsigned long)(millis() - TRIGGERtimer)` when `millis()` returns `now`:
a subtraction of 32-bit unsigned numbers. -/
def sinceTrigger (now timer : Nat) : Nat := (now + U32 - timer % U32) % U32

/-- Lines 1897-1918 of `loop`: what is done with the number of changed blocks. -/
def loopDecision (env : Env) (fuel : Nat) (changes : Nat) : M Unit := do
  let s ← getState
  if isCandidate s changes then
    if s.tCounter ≥ s.tCounterTrigger then
      modifyState fun s => { s with tCounter := 0 }
      let now ← millis env
      let s ← getState
      if sinceTrigger now s.TRIGGERtimer ≥ s.TriggerLimitTime * 1000 then
        resetTRIGGERtimer env
        let s ← getState
        if s.ioRequiredHighToTrigger = false ∨ s.SensorStatus = true then
          MotionDetected env fuel changes
        else
          log_system_message .ioLowIgnored
      else
        log_system_message .tooSoon
    else
      log_system_message .notEnoughConsecutive

/-- The state in which the rate limit is consulted: the counter is reset and the clock
has been read once. -/
def atRateCheck (env : Env) (s : State) : State :=
  { s with tCounter := 0, clock := s.clock + env.elapsed s.asked, asked := s.asked + 1 }

/-- The state in which the I/O gate is consulted: `TRIGGERtimer` holds a second reading
of the clock. -/
def atGate (env : Env) (s : State) : State :=
  { s with
    tCounter := 0
    clock := s.clock + env.elapsed s.asked + env.elapsed (s.asked + 1)
    asked := s.asked + 2
    TRIGGERtimer := (s.clock + env.elapsed s.asked + env.elapsed (s.asked + 1)) % U32 }

/-- Whether the rate limit lets a trigger through in state `s`. -/
def ratePermits (env : Env) (s : State) : Prop :=
  sinceTrigger ((s.clock + env.elapsed s.asked) % U32) s.TRIGGERtimer
    ≥ s.TriggerLimitTime * 1000

/-- Whether the I/O gate lets a trigger through in state `s`. -/
def gatePermits (s : State) : Prop :=
  s.ioRequiredHighToTrigger = false ∨ s.SensorStatus = true

/-- Line 1894 of `loop`: `if (!capture_still()) RebootCamera(PIXFORMAT_GRAYSCALE);` -/
def loopCapture (env : Env) (fuel : Nat) : M Unit := do
  let still ← capture_still env
  if !still then RebootCamera env fuel .PIXFORMAT_GRAYSCALE

/-- Lines 1893-1919 of `loop`: one detection cycle. The result of `motion_detect()` is
stored in a `uint16_t`; `update_frame()` touches only the frame buffers. -/
def loopDetection (env : Env) (fuel : Nat) : M Unit := do
  let s ← getState
  if s.DetectionEnabled = 1 then
    loopCapture env fuel
    let returned ← motion_detect env
    let changes := returned % 65536
    loopDecision env fuel changes

/-! ## Runs of the detection cycle -/

/-- What the rest of the firmware (request handlers, `ioDetected`, the settings page) may
do to the globals of the detection cycle between two cycles: store `millis()` in
`TRIGGERtimer`, and change the detection settings. `TriggerLimitTime` is left alone. -/
structure Interleave where
  /-- whether `TRIGGERtimer = millis();` is executed -/
  writesTimer : Bool
  /-- new value of `DetectionEnabled` -/
  DetectionEnabled : Nat
  /-- new value of `tCounterTrigger` -/
  tCounterTrigger : Nat
  /-- new value of `Image_thresholdL` -/
  Image_thresholdL : Nat
  /-- new value of `Image_thresholdH` -/
  Image_thresholdH : Nat
  /-- new value of `ioRequiredHighToTrigger` -/
  ioRequiredHighToTrigger : Bool
  /-- new value of `SensorStatus` -/
  SensorStatus : Bool

/-- The effect of an `Interleave`. -/
def interleave (env : Env) (i : Interleave) : M Unit := do
  if i.writesTimer then resetTRIGGERtimer env
  modifyState fun s => { s with
    DetectionEnabled := i.DetectionEnabled
    tCounterTrigger := i.tCounterTrigger
    Image_thresholdL := i.Image_thresholdL
    Image_thresholdH := i.Image_thresholdH
    ioRequiredHighToTrigger := i.ioRequiredHighToTrigger
    SensorStatus := i.SensorStatus }

/-- A sequence of ticks of `loop`: before each detection cycle the rest of the firmware
acts as the corresponding `Interleave` says. -/
def detectionTicks (env : Env) (fuel : Nat) : List Interleave → M Unit
  | [] => pure ()
  | i :: rest => do
    interleave env i
    loopDetection env fuel
    detectionTicks env fuel rest

/-- The detection cycle run `n` times in a row with nothing in between. -/
def detectionCycles (env : Env) (fuel : Nat) : Nat → M Unit
  | 0 => pure ()
  | n + 1 => do
    loopDetection env fuel
    detectionCycles env fuel n

/-! ## The exclusive camera operations -/

/-- The operations that call `checkCameraIsFree` before using the camera. -/
inductive ExclusiveOp where
  | capturePhotoSaveSpiffs (dostream : Bool)
  | handleStream
  | handleStrPst
  | handleJPG
  | ioDetected (iostat : Bool)
  | MotionDetected (changes : Nat)
  | illuminatorButton
  deriving DecidableEq, Repr

/-- Run an exclusive operation. -/
def runExclusive (env : Env) (fuel : Nat) : ExclusiveOp → M Unit
  | .capturePhotoSaveSpiffs dostream => do
    let _ ← capturePhotoSaveSpiffs env fuel dostream
  | .handleStream => handleStream env fuel
  | .handleStrPst => handleStrPst env fuel
  | .handleJPG => handleJPG env
  | .ioDetected iostat => ioDetected env iostat
  | .MotionDetected changes => MotionDetected env fuel changes
  | .illuminatorButton => illuminatorButton env

/-! ## Reading a trace -/

/-- The entries that record what the detection cycle decided. -/
def isDecisionMark : Event → Bool
  | .motion_detect _ _ => true
  | .MotionDetected _ _ => true
  | .log .tooSoon => true
  | .log .ioLowIgnored => true
  | .log .notEnoughConsecutive => true
  | _ => false

/-- The entries that record the attempts of `capturePhotoSaveSpiffs`. -/
def isPhotoMark : Event → Bool
  | .saveJpgFrame _ => true
  | .checkPhoto _ _ => true
  | _ => false

/-- The decisions of the detection cycle recorded in a trace. -/
def decisionMarks (t : List Event) : List Event := t.filter isDecisionMark

/-- The capture attempts recorded in a trace. -/
def photoMarks (t : List Event) : List Event := t.filter isPhotoMark

/-- The times at which `MotionDetected` was invoked, oldest first. -/
def motionTimes (t : List Event) : List Nat :=
  t.filterMap fun e => match e with
    | .MotionDetected _ time => some time
    | _ => none

/-- Number of calls of `saveJpgFrame` recorded in a list of entries. -/
def saveJpgFrameCalls (t : List Event) : Nat :=
  (t.filter fun e => match e with
    | .saveJpgFrame _ => true
    | _ => false).length

/-- Number of calls of `setupCameraHardware` recorded in a trace. -/
def setupAttempts (t : List Event) : Nat :=
  (t.filter fun e => match e with
    | .setupCameraHardware _ _ => true
    | _ => false).length

/-- The entries of the attempts of `capturePhotoSaveSpiffs` on files of the given sizes:
each attempt is a call of `saveJpgFrame` followed by `checkPhoto`. -/
def attemptMarks (dostream : Bool) (sizes : List Nat) : List Event :=
  sizes.flatMap fun size => [.saveJpgFrame dostream, .checkPhoto size (checkPhotoSize size)]

/-! ## What procedures leave alone -/

/-- What every camera procedure leaves alone: the clock only moves forward, the trace only
grows, `TRIGGERtimer` is only ever assigned a reading of the clock, and the counter, the
settings and the recorded decisions of the detection cycle are untouched. -/
def Weak (s s' : State) : Prop :=
  s.clock ≤ s'.clock ∧
  (s'.TRIGGERtimer = s.TRIGGERtimer ∨
    ∃ τ, s.clock ≤ τ ∧ τ ≤ s'.clock ∧ s'.TRIGGERtimer = τ % U32) ∧
  s.trace.length ≤ s'.trace.length ∧
  s'.tCounter = s.tCounter ∧
  s'.tCounterTrigger = s.tCounterTrigger ∧
  s'.Image_thresholdL = s.Image_thresholdL ∧
  s'.Image_thresholdH = s.Image_thresholdH ∧
  s'.TriggerLimitTime = s.TriggerLimitTime ∧
  s'.ioRequiredHighToTrigger = s.ioRequiredHighToTrigger ∧
  s'.SensorStatus = s.SensorStatus ∧
  decisionMarks s'.trace = decisionMarks s.trace

/-- The procedure leaves `DetectionEnabled` as it found it. -/
def SameDetection (s s' : State) : Prop :=
  s'.DetectionEnabled = s.DetectionEnabled

/-- The procedure records no capture attempt. -/
def SamePhotos (s s' : State) : Prop :=
  photoMarks s'.trace = photoMarks s.trace

/-- As `Weak`, and `DetectionEnabled` is untouched as well. -/
def Quiet (s s' : State) : Prop :=
  Weak s s' ∧ SameDetection s s'

/-- As `Quiet`, and no capture attempt is recorded. -/
def Plumb (s s' : State) : Prop :=
  Weak s s' ∧ SameDetection s s' ∧ SamePhotos s s'

instance : IsPreorder State Weak where
  refl := fun s => by simp [Weak]
  trans := fun a b c h1 h2 => by
    obtain ⟨hc1, ht1, hl1, a1, a2, a3, a4, a5, a6, a7, a8⟩ := h1
    obtain ⟨hc2, ht2, hl2, b1, b2, b3, b4, b5, b6, b7, b8⟩ := h2
    refine ⟨le_trans hc1 hc2, ?_, le_trans hl1 hl2, b1.trans a1, b2.trans a2, b3.trans a3,
      b4.trans a4, b5.trans a5, b6.trans a6, b7.trans a7, b8.trans a8⟩
    rcases ht2 with h | ⟨τ, h1, h2, h3⟩
    · rcases ht1 with h' | ⟨τ, h1, h2, h3⟩
      · exact Or.inl (h.trans h')
      · exact Or.inr ⟨τ, h1, le_trans h2 hc2, h.trans h3⟩
    · exact Or.inr ⟨τ, le_trans hc1 h1, h2, h3⟩

instance : IsPreorder State SameDetection where
  refl := fun _ => rfl
  trans := fun _ _ _ h1 h2 => Eq.trans h2 h1

instance : IsPreorder State SamePhotos where
  refl := fun _ => rfl
  trans := fun _ _ _ h1 h2 => Eq.trans h2 h1

instance : IsPreorder State Quiet where
  refl := fun s => ⟨refl_of Weak s, rfl⟩
  trans := fun _ _ _ h1 h2 => ⟨trans_of Weak h1.1 h2.1, Eq.trans h2.2 h1.2⟩

instance : IsPreorder State Plumb where
  refl := fun s => ⟨refl_of Weak s, rfl, rfl⟩
  trans := fun _ _ _ h1 h2 =>
    ⟨trans_of Weak h1.1 h2.1, Eq.trans h2.2.1 h1.2.1, Eq.trans h2.2.2 h1.2.2⟩

/-- A procedure keeps a relation when, however it ends, the state in which it ends is
related to the state in which it was called. -/
def Keeps {α : Type} (R : State → State → Prop) (m : M α) : Prop :=
  ∀ s, R s (m s).state

/-- Whenever the procedure is called in a state that satisfies `P` and returns, the state
on return satisfies `Q`. -/
def Post {α : Type} (m : M α) (P Q : State → Prop) : Prop :=
  ∀ s, P s → ∀ a s', m s = .ok a s' → Q s'

/-- The value of `DetectionEnabled` is `d`. -/
def DetectionIs (d : Nat) (s : State) : Prop := s.DetectionEnabled = d

/-- The state of the trigger rate limit for the limit `T` (seconds): `TriggerLimitTime`
is `T`, the recorded invocations of `MotionDetected` are pairwise at least `T * 1000` ms
apart, and `TRIGGERtimer` holds a reading of the clock taken no earlier than any of them. -/
def RateInv (T : Nat) (s : State) : Prop :=
  s.TriggerLimitTime = T ∧
  (motionTimes s.trace).Pairwise (fun a b => a + T * 1000 ≤ b) ∧
  ∀ t ∈ motionTimes s.trace, ∃ τ, t ≤ τ ∧ τ ≤ s.clock ∧ s.TRIGGERtimer = τ % U32

/-- A procedure always returns, with a value that satisfies `P`. -/
def ReturnsWith {α : Type} (P : α → Prop) (m : M α) : Prop :=
  ∀ s, ∃ a s', m s = .ok a s' ∧ P a

/-- An environment in which the camera driver always initialises, a frame is always
captured, no upload is confirmed and no stream client is connected. -/
def Healthy (env : Env) : Prop :=
  (∀ k, env.setupOk k = true) ∧ (∀ k, env.fbOk k = true) ∧
  (∀ k, env.uploaded k = false) ∧ (∀ k, env.connected k = false)

/-! ## Consecutive detections as the specification words them -/

/-- Modelled from the spec: the update of the consecutive counter inside `motion_detect`
(motion.h, which is not among the sources). "On a candidate frame, increment
ConsecutiveCounter; on a non-candidate frame, reset it to 0." -/
def specCounter (low high changes tCounter : Nat) : Nat :=
  if low ≤ changes ∧ changes ≤ high then tCounter + 1 else 0

/-- Whether a changed-block count lies in the band `low..high`. -/
def inBand (low high changes : Nat) : Bool :=
  decide (low ≤ changes) && decide (changes ≤ high)

/-- The number of candidate frames in a row at the end of a sequence of frames. -/
def trailingRun (low high : Nat) (frames : List Nat) : Nat :=
  (frames.reverse.takeWhile (inBand low high)).length

/-- The frames on which a motion event is due when `N` consecutive candidate frames are
required, for the frames `frames` that follow the frames `history`: a frame is due when it
is a candidate and completes a group of `N` in the run of candidate frames it ends, that
is, when it is the `N`-th candidate in a row counted from the last frame that was not a
candidate or that fired. -/
def expectedFires (low high N : Nat) : (history frames : List Nat) → List Bool
  | _, [] => []
  | history, v :: rest =>
    (inBand low high v && decide (N ∣ trailingRun low high (history ++ [v])))
      :: expectedFires low high N (history ++ [v]) rest

/-- The values returned by `motion_detect`, frame by frame, as recorded in a trace. -/
def frameValues (t : List Event) : List Nat :=
  t.filterMap fun e => match e with
    | .motion_detect v _ => some v
    | _ => none

/-- For each recorded frame, whether `MotionDetected` was invoked on it: whether the call
of `motion_detect` is directly followed, among the decisions recorded, by an invocation of
`MotionDetected`. -/
def firedFlags : List Event → List Bool
  | [] => []
  | .motion_detect _ _ :: rest =>
    (match rest with
      | .MotionDetected _ _ :: _ => true
      | _ => false) :: firedFlags rest
  | _ :: rest => firedFlags rest

/-- The procedure leaves the detection band and the number of detections required as it
found them. -/
def SameBand (s s' : State) : Prop :=
  s'.Image_thresholdL = s.Image_thresholdL ∧ s'.Image_thresholdH = s.Image_thresholdH ∧
  s'.tCounterTrigger = s.tCounterTrigger

instance : IsPreorder State SameBand where
  refl := fun _ => ⟨rfl, rfl, rfl⟩
  trans := fun _ _ _ h1 h2 =>
    ⟨Eq.trans h2.1 h1.1, Eq.trans h2.2.1 h1.2.1, Eq.trans h2.2.2 h1.2.2⟩

/-! ## Sample environments and states -/

/-- A working camera and server: every call succeeds, stored files have 5000 bytes, each
reading of the clock finds 40 ms gone, frames show 20 changed blocks, and `motion_detect`
counts consecutive detections as the specification says for the band 15..192. -/
def goodEnv : Env where
  elapsed := fun _ => 40
  flagAfterWait := fun _ => 2
  setupOk := fun _ => true
  stillOk := fun _ => true
  fbOk := fun _ => true
  jpgOk := fun _ => true
  openOk := fun _ => true
  writeOk := fun _ => true
  formatOk := fun _ => true
  fileSize := fun _ => 5000
  uploaded := fun _ => false
  connected := fun _ => false
  changes := fun _ => 20
  tCounterAfter := fun _ c => specCounter 15 192 20 c

/-- As `goodEnv`, but each reading of the clock finds 7 seconds gone. -/
def slowEnv : Env := { goodEnv with elapsed := fun _ => 7000 }

/-- An `Interleave` that leaves the default settings in place and does not write the
timer. -/
def quietTick : Interleave where
  writesTimer := false
  DetectionEnabled := 1
  tCounterTrigger := 1
  Image_thresholdL := 15
  Image_thresholdH := 192
  ioRequiredHighToTrigger := false
  SensorStatus := true

/-- The environment `env` with a camera driver that never initialises. -/
def deadCamera (env : Env) : Env := { env with setupOk := fun _ => false }

/-- The state after boot with the default settings of `handleDefault`, detection enabled,
one detection required. -/
def bootState : State where
  clock := 0
  asked := 0
  trace := []
  DetectionEnabled := 1
  TRIGGERtimer := 0
  SpiffsFileCounter := 0
  tCounter := 0
  tCounterTrigger := 1
  Image_thresholdL := 15
  Image_thresholdH := 192
  TriggerLimitTime := 20
  ioRequiredHighToTrigger := false
  SensorStatus := true
  UseFlash := false
  PostImages := false
  ReqLEDStatus := false

/-- The boot state while another user of the camera has paused detection. -/
def pausedState : State := { bootState with DetectionEnabled := 2 }

/-- The boot state 30 seconds after boot, with nothing triggered yet. -/
def readyState : State := { bootState with clock := 30000 }

/-- As `goodEnv`, but the other user of the camera releases it during the third wait. -/
def releasingEnv : Env := { goodEnv with flagAfterWait := fun k => if k < 2 then 2 else 1 }

/-- As `goodEnv`, but the first reading of the clock finds no time gone and every later
one 30 seconds. -/
def lateEnv : Env := { goodEnv with elapsed := fun k => if k = 0 then 0 else 30000 }

/-- The boot state with the clock 30 seconds before the 32-bit millisecond counter
wraps. -/
def nearWrapState : State := { bootState with clock := 4294937296 }

/-- As `slowEnv`, but the frame of the second detection cycle shows only 5 changed
blocks, below the band 15..192. -/
def scenarioEnv : Env :=
  { slowEnv with
    changes := fun k => if k = 3 then 5 else 20
    tCounterAfter := fun k c => specCounter 15 192 (if k = 3 then 5 else 20) c }

/-- The boot state with three consecutive detections required and a limit of 2 seconds
between triggers. -/
def tripleState : State := { bootState with tCounterTrigger := 3, TriggerLimitTime := 2 }

/-! ## Settings, the detection mask and the exposure controller

The procedures of main.cpp that read or write the settings (`LoadSettingsSpiffs`,
`SaveSettingsSpiffs`, `handleDefault`, `rootButtons`, `handleRoot`), the exposure
controller `AutoAdjustImage` and the periodic tasks of `loop`. They always return, so
they are functions from `Device` to `Device`. -/

/-- Type `framesize_t`: the sketch compares `cfsize` with `FRAME_SIZE_MOTION` only. -/
inductive framesize_t where
  | FRAME_SIZE_MOTION
  | otherSize
  deriving DecidableEq, Repr

/-- The constants of motion.h that the settings procedures use. motion.h is not among the
sources, so the procedures take them as a parameter. -/
structure MotionH where
  /-- Constant `mask_rows` -/
  mask_rows : Nat
  /-- Constant `mask_columns` -/
  mask_columns : Nat
  /-- Constant `blocksPerMaskUnit` -/
  blocksPerMaskUnit : Nat

/-- A line of the settings file, by what `toInt()` reads on it. -/
inductive Line where
  /-- a line that does not start with a number, such as the title line -/
  | text (s : String)
  /-- a line that starts with the integer `v`, such as one printed by `String(n)` -/
  | number (v : Int)
  /-- a line printed by `String(x)` for a `float x`, which prints two decimals:
  `hundredths` is the number printed, times 100 -/
  | decimal (hundredths : Int)
  deriving DecidableEq, Repr

/-- Value of `toInt()` on a line: the integer the line starts with, 0 if there is none. -/
def Line.toInt : Line → Int
  | .text _ => 0
  | .number v => v
  | .decimal hundredths => Int.tdiv hundredths 100

/-- File `/settings.txt` on Spiffs, as `LoadSettingsSpiffs` finds it. -/
inductive SettingsFile where
  /-- Call `SPIFFS.exists` answers no -/
  | missing
  /-- the file cannot be opened, or is a directory -/
  | unreadable
  /-- the lines of the file -/
  | lines (content : List Line)

/-- The globals of `State` together with the settings, the detection mask, the readings
of the exposure controller and the settings file. The globals that motion.h declares
(`Block_threshold`, `targetBrightness`, `mask_frame`, `mask_active`, `AveragePix`,
`cfsize`) are taken as unbounded numbers: their declared widths are not in the sources. -/
structure Device extends State where
  /-- Global `Block_threshold` of motion.h -/
  Block_threshold : Nat
  /-- Global `targetBrightness` of motion.h (0 = no automatic adjustment) -/
  targetBrightness : Nat
  /-- Global `bool emailWhenTriggered` -/
  emailWhenTriggered : Bool
  /-- Global `uint16_t EmailLimitTime` -/
  EmailLimitTime : Nat
  /-- Global `uint32_t EMAILtimer` -/
  EMAILtimer : Nat
  /-- Global `float cameraImageExposure`, as an exact rational -/
  cameraImageExposure : ℚ
  /-- Global `float cameraImageGain`, as an exact rational -/
  cameraImageGain : ℚ
  /-- Global `bool ftpImages` -/
  ftpImages : Bool
  /-- Global `bool cameraImageInvert` -/
  cameraImageInvert : Bool
  /-- Global `uint16_t dataRefresh` -/
  dataRefresh : Nat
  /-- Global `mask_frame[x][y]` of motion.h -/
  mask_frame : Nat → Nat → Bool
  /-- Global `mask_active` of motion.h -/
  mask_active : Nat
  /-- Global `AveragePix` of motion.h: the brightness of the last frame captured -/
  AveragePix : ℚ
  /-- Global `cfsize` of motion.h: the frame size the camera is set to -/
  cfsize : framesize_t
  /-- Global `uint32_t MaintTiming` -/
  MaintTiming : Nat
  /-- File `/settings.txt` -/
  settingsFile : SettingsFile

/-- What the camera sees: the value `capture_still()` leaves in `AveragePix`, given the
number of the question and the value before. -/
structure Light where
  /-- value of `AveragePix` after `capture_still()` -/
  reading : Nat → ℚ → ℚ

/-- A procedure of the camera part that always returns (`returns_illuminatorButton` and
the like), run on the globals it shares with the settings. -/
def Device.run {α : Type} (m : M α) (k : Device) : Device :=
  { k with toState := (m k.toState).state }

/-- Call `log_system_message(text)`. -/
def logText (text : String) : Device → Device :=
  Device.run (log_system_message (.text text))

/-- Function `log_state(msg, state)`: logs `msg` followed by "enabled" or "disabled". -/
def log_state (msg : String) (state : Bool) : Device → Device :=
  logText (msg ++ (if state then "en" else "dis") ++ "abled")

/-- Call `capture_still()` of motion.h, which also measures the brightness of the
frame. -/
def captureStill (env : Env) (light : Light) (k : Device) : Device :=
  { Device.run (capture_still env) k with AveragePix := light.reading k.asked k.AveragePix }

/-! ### AutoAdjustImage (main.cpp 1851-1880) -/

/-- The condition `AveragePix > (targetBrightness + hyster)` with `hyster = 20.0`. -/
def AutoAdjustImage.tooBright (k : Device) : Prop :=
  k.AveragePix > (k.targetBrightness : ℚ) + 20

/-- The condition `AveragePix < (targetBrightness - hyster)` with `hyster = 20.0`. -/
def AutoAdjustImage.tooDark (k : Device) : Prop :=
  k.AveragePix < (k.targetBrightness : ℚ) - 20

instance (k : Device) : Decidable (AutoAdjustImage.tooBright k) :=
  inferInstanceAs (Decidable (_ > _))

instance (k : Device) : Decidable (AutoAdjustImage.tooDark k) :=
  inferInstanceAs (Decidable (_ < _))

/-- Lines 1857-1864: the adjustment for a frame that is too bright. -/
def AutoAdjustImage.bright (exposureAdjustmentSteps gainAdjustmentSteps : ℚ)
    (k : Device) : Device :=
  if AutoAdjustImage.tooBright k then
    if k.cameraImageGain > 0 then
      { k with cameraImageGain := k.cameraImageGain - gainAdjustmentSteps }
    else
      { k with cameraImageExposure := k.cameraImageExposure - exposureAdjustmentSteps }
  else k

/-- Lines 1865-1871: the adjustment for a frame that is too dark. -/
def AutoAdjustImage.dark (exposureAdjustmentSteps gainAdjustmentSteps : ℚ)
    (k : Device) : Device :=
  if AutoAdjustImage.tooDark k then
    if k.cameraImageExposure ≥ 1200 then
      { k with cameraImageGain := k.cameraImageGain + gainAdjustmentSteps }
    else
      { k with cameraImageExposure := k.cameraImageExposure + exposureAdjustmentSteps }
  else k

/-- Lines 1873-1874: `if (cameraImageExposure < 0) ...; if (cameraImageExposure > 1200) ...` -/
def AutoAdjustImage.limitExposure (k : Device) : Device :=
  { k with cameraImageExposure :=
      let e := if k.cameraImageExposure < 0 then 0 else k.cameraImageExposure
      if e > 1200 then 1200 else e }

/-- Lines 1875-1876: `if (cameraImageGain < 0) ...; if (cameraImageGain > 30) ...` -/
def AutoAdjustImage.limitGain (k : Device) : Device :=
  { k with cameraImageGain :=
      let g := if k.cameraImageGain < 0 then 0 else k.cameraImageGain
      if g > 30 then 30 else g }

/-- Lines 1854-1876 of `AutoAdjustImage`: the new exposure and gain. The step of the
exposure is computed once, from the exposure on entry; 0.2 and 0.5 are taken as the exact
rationals 1/5 and 1/2. -/
def AutoAdjustImage.adjust (k : Device) : Device :=
  let exposureAdjustmentSteps : ℚ := k.cameraImageExposure / 25 + 1 / 5
  let gainAdjustmentSteps : ℚ := 1 / 2
  AutoAdjustImage.limitGain (AutoAdjustImage.limitExposure
    (AutoAdjustImage.dark exposureAdjustmentSteps gainAdjustmentSteps
      (AutoAdjustImage.bright exposureAdjustmentSteps gainAdjustmentSteps k)))

/-- Lines 1877-1879: the settings are applied to the sensor, a frame is captured and
committed. -/
def AutoAdjustImage.apply (env : Env) (light : Light) (k : Device) : Device :=
  Device.run (emit .update_frame)
    (captureStill env light
      (Device.run (emit (.cameraImageSettings k.cameraImageExposure k.cameraImageGain)) k))

/-- Procedure `static void AutoAdjustImage()`. -/
def AutoAdjustImage (env : Env) (light : Light) (k : Device) : Device :=
  if k.cfsize ≠ .FRAME_SIZE_MOTION then k
  else AutoAdjustImage.apply env light (AutoAdjustImage.adjust k)

/-! ### The periodic system tasks of loop (main.cpp 1933-1946) -/

/-- Constant `MaintCheckRate` (seconds). -/
def MaintCheckRate : Nat := 5

/-- Whether the periodic tasks are due when `millis()` returns `now`:
`(unsigned long)(millis() - MaintTiming) >= (MaintCheckRate * 1000)`. -/
def maintenanceDue (now : Nat) (k : Device) : Prop :=
  sinceTrigger now k.MaintTiming ≥ MaintCheckRate * 1000

instance (now : Nat) (k : Device) : Decidable (maintenanceDue now k) :=
  inferInstanceAs (Decidable (_ ≥ _))

/-- The body of the periodic tasks (lines 1934-1945); `flashIndicatorLED` is 1. -/
def loopMaintenance.body (env : Env) (light : Light) (k : Device) : Device :=
  let k := if k.DetectionEnabled ≠ 0 then Device.run (emit .onboardLED) k else k
  let k := Device.run (emit .WIFIcheck) k
  let k := Device.run (millis env) k
  let k := { k with MaintTiming := k.clock % U32 }
  let k := Device.run (emit (.illuminationLed k.ReqLEDStatus)) k
  let k := if k.DetectionEnabled = 0 then captureStill env light k else k
  if k.targetBrightness > 0 then AutoAdjustImage env light k else k

/-- Lines 1933-1946 of `loop`: the periodic system tasks. -/
def loopMaintenance (env : Env) (light : Light) (k : Device) : Device :=
  let k := Device.run (millis env) k
  if maintenanceDue (k.clock % U32) k then loopMaintenance.body env light k else k

/-- Procedure `handleImagedata()` (main.cpp 1221-1276), without the page it writes. -/
def handleImagedata (env : Env) (light : Light) (k : Device) : Device :=
  let k := logText "Raw date page requested from: " k
  let k := captureStill env light k
  let k := Device.run (delay 3) k
  if k.DetectionEnabled = 0 then Device.run (emit .update_frame) k else k

/-- The calls of `update_frame()` recorded in a trace. -/
def frameCommits (t : List Event) : Nat := t.count .update_frame

/-- The calls of `cameraImageSettings` recorded in a trace. -/
def sensorSettings (t : List Event) : List Event :=
  t.filter fun e => match e with
    | .cameraImageSettings _ _ => true
    | _ => false

/-! ### The detection mask -/

/-- The cells `(x, y)` of the mask in the order in which the loops
`for (y < mask_rows) for (x < mask_columns)` visit them. -/
def maskCells (g : MotionH) : List (Nat × Nat) :=
  (List.range g.mask_rows).flatMap fun y => (List.range g.mask_columns).map fun x => (x, y)

/-- Assignment `mask_frame[x][y] = v`. -/
def setCell (mask_frame : Nat → Nat → Bool) (x y : Nat) (v : Bool) : Nat → Nat → Bool :=
  fun x' y' => if x' = x ∧ y' = y then v else mask_frame x' y'

/-- The number of cells of the mask that are set. -/
def activeCells (g : MotionH) (mask_frame : Nat → Nat → Bool) : Nat :=
  (maskCells g).countP fun c => mask_frame c.1 c.2

/-- The largest number of changed blocks the mask allows:
`mask_active * blocksPerMaskUnit`. -/
def maskCapacity (g : MotionH) (k : Device) : Nat := k.mask_active * g.blocksPerMaskUnit

/-! ### SaveSettingsSpiffs (main.cpp 351-387) -/

/-- The number of hundredths that `String(x)` prints for a `float x`. -/
def roundHundredths (q : ℚ) : Int :=
  if 0 ≤ q then Rat.floor (q * 100 + 1 / 2) else - Rat.floor (- q * 100 + 1 / 2)

/-- Text of `String(b)` for a `bool b`, as a number. -/
def boolInt (b : Bool) : Int := if b then 1 else 0

/-- The lines that `SaveSettingsSpiffs` prints, in the order of its `println` calls. -/
def SaveSettingsSpiffs.lines (g : MotionH) (k : Device) : List Line :=
  [ .text "CameraWifiMotion settings file ",
    .number k.Block_threshold,
    .number k.Image_thresholdL,
    .number k.Image_thresholdH,
    .number k.targetBrightness,
    .number (boolInt k.emailWhenTriggered),
    .number k.TriggerLimitTime,
    .number k.DetectionEnabled,
    .number k.EmailLimitTime,
    .number (boolInt k.UseFlash),
    .number k.SpiffsFileCounter,
    .decimal (roundHundredths k.cameraImageExposure),
    .decimal (roundHundredths k.cameraImageGain),
    .number k.tCounterTrigger,
    .number (boolInt k.ftpImages),
    .number (boolInt k.PostImages),
    .number (boolInt k.cameraImageInvert),
    .number k.dataRefresh ]
  ++ (maskCells g).map fun c => .number (boolInt (k.mask_frame c.1 c.2))

/-- Procedure `SaveSettingsSpiffs()`: the old file is removed, and the new one is written
if it can be opened. -/
def SaveSettingsSpiffs (g : MotionH) (env : Env) (k : Device) : Device :=
  let opened := env.openOk k.asked
  let k := { k with asked := k.asked + 1 }
  if opened then
    { k with
      settingsFile := .lines (SaveSettingsSpiffs.lines g k)
      trace := k.trace ++ [.SaveSettingsSpiffs] }
  else
    logText "Unable to open settings file in Spiffs" { k with settingsFile := .missing }

/-! ### LoadSettingsSpiffs (main.cpp 208-346) -/

/-- Procedure `ReadLineSpiffs(&file, &line, &tnum)`: the next line of the file is read and
`toInt()` of it is stored in the `uint16_t` variable `tnum`. Returns `tnum` and the rest of
the file; past the end of the file the line read is empty. -/
def ReadLineSpiffs (file : List Line) : Nat × List Line :=
  (((file.head?.map Line.toInt).getD 0 % 65536).toNat, file.drop 1)

/-- Line 1 - Block_threshold (main.cpp 239-242). -/
def LoadSettingsSpiffs.line1 (tnum : Nat) (k : Device) : Device :=
  if tnum < 1 ∨ tnum > 255 then logText "invalid Block_threshold in settings" k
  else { k with Block_threshold := tnum }

/-- Line 2 - min Image_thresholdL (main.cpp 244-247); `tnum < 0` never holds. -/
def LoadSettingsSpiffs.line2 (tnum : Nat) (k : Device) : Device :=
  if tnum < 0 ∨ tnum > 255 then logText "invalid min_day_image_threshold in settings" k
  else { k with Image_thresholdL := tnum }

/-- Line 3 - min Image_thresholdH (main.cpp 249-252). -/
def LoadSettingsSpiffs.line3 (tnum : Nat) (k : Device) : Device :=
  if tnum < 0 ∨ tnum > 255 then logText "invalid max_day_image_threshold in settings" k
  else { k with Image_thresholdH := tnum }

/-- Line 4 - target brightness level (main.cpp 254-257). -/
def LoadSettingsSpiffs.line4 (tnum : Nat) (k : Device) : Device :=
  if tnum < 0 ∨ tnum > 255 then
    logText "invalid night/night brightness cuttoff in settings" k
  else { k with targetBrightness := tnum }

/-- Line 5 - emailWhenTriggered (main.cpp 259-263). -/
def LoadSettingsSpiffs.line5 (tnum : Nat) (k : Device) : Device :=
  if tnum = 0 then { k with emailWhenTriggered := false }
  else if tnum = 1 then { k with emailWhenTriggered := true }
  else logText "Invalid emailWhenTriggered in settings: " k

/-- Line 6 - TriggerLimitTime (main.cpp 265-268). -/
def LoadSettingsSpiffs.line6 (tnum : Nat) (k : Device) : Device :=
  if tnum < 1 ∨ tnum > 3600 then logText "invalid TriggerLimitTime in settings" k
  else { k with TriggerLimitTime := tnum }

/-- Line 7 - DetectionEnabled (main.cpp 270-275): a paused detection is restarted. -/
def LoadSettingsSpiffs.line7 (tnum : Nat) (k : Device) : Device :=
  let tnum := if tnum = 2 then 1 else tnum
  if tnum = 0 then { k with DetectionEnabled := 0 }
  else if tnum = 1 then { k with DetectionEnabled := 1 }
  else logText "Invalid DetectionEnabled in settings: " k

/-- Line 8 - EmailLimitTime (main.cpp 277-280). -/
def LoadSettingsSpiffs.line8 (tnum : Nat) (k : Device) : Device :=
  if tnum < 60 ∨ tnum > 10000 then logText "invalid EmailLimitTime in settings" k
  else { k with EmailLimitTime := tnum }

/-- Line 9 - UseFlash (main.cpp 282-285). -/
def LoadSettingsSpiffs.line9 (tnum : Nat) (k : Device) : Device :=
  if tnum = 0 ∨ tnum = 1 then { k with UseFlash := decide (tnum ≠ 0) }
  else logText "Invalid UseFlash in settings: " k

/-- Line 10 - SpiffsFileCounter (main.cpp 287-290). -/
def LoadSettingsSpiffs.line10 (tnum : Nat) (k : Device) : Device :=
  if (tnum : Int) > MaxSpiffsImages then logText "invalid SpiffsFileCounter in settings" k
  else { k with SpiffsFileCounter := tnum }

/-- Line 11 - cameraImageExposure (main.cpp 292-295). -/
def LoadSettingsSpiffs.line11 (tnum : Nat) (k : Device) : Device :=
  if tnum < 0 ∨ tnum > 1200 then logText "invalid exposure in settings" k
  else { k with cameraImageExposure := tnum }

/-- Line 12 - cameraImageGain (main.cpp 297-300). -/
def LoadSettingsSpiffs.line12 (tnum : Nat) (k : Device) : Device :=
  if tnum > 31 then logText "invalid gain in settings" k
  else { k with cameraImageGain := tnum }

/-- Line 13 - tCounterTrigger (main.cpp 302-305). -/
def LoadSettingsSpiffs.line13 (tnum : Nat) (k : Device) : Device :=
  if tnum > 31 then logText "invalid consecutive detections in settings" k
  else { k with tCounterTrigger := tnum }

/-- Line 14 - ftpImages (main.cpp 307-311). -/
def LoadSettingsSpiffs.line14 (tnum : Nat) (k : Device) : Device :=
  if tnum = 0 then { k with ftpImages := false }
  else if tnum = 1 then { k with ftpImages := true }
  else logText "Invalid FTP in settings: " k

/-- Line 15 - PostImages (main.cpp 313-317). -/
def LoadSettingsSpiffs.line15 (tnum : Nat) (k : Device) : Device :=
  if tnum = 0 then { k with PostImages := false }
  else if tnum = 1 then { k with PostImages := true }
  else logText "Invalid Post in settings: " k

/-- Line 16 - cameraImageInvert (main.cpp 319-323). -/
def LoadSettingsSpiffs.line16 (tnum : Nat) (k : Device) : Device :=
  if tnum = 0 then { k with cameraImageInvert := false }
  else if tnum = 1 then { k with cameraImageInvert := true }
  else logText "Invalid cameraImageInvert in settings: " k

/-- Line 17 - dataRefresh (main.cpp 325-328). -/
def LoadSettingsSpiffs.line17 (tnum : Nat) (k : Device) : Device :=
  if tnum < 1 ∨ tnum > 600 then logText "invalid dataRefresh in settings" k
  else { k with dataRefresh := tnum }

/-- The variables of the loop that reads the detection mask. -/
structure LoadSettingsSpiffs.Grid where
  /-- Global `mask_frame` -/
  mask_frame : Nat → Nat → Bool
  /-- Global `mask_active` -/
  mask_active : Nat
  /-- Local `gerr`: an entry was neither 0 nor 1 -/
  gerr : Bool
  /-- the lines not read yet -/
  file : List Line

/-- The body of the loop that reads the detection mask (main.cpp 335-341), at cell
`(x, y) = c`. -/
def LoadSettingsSpiffs.cell (st : LoadSettingsSpiffs.Grid) (c : Nat × Nat) :
    LoadSettingsSpiffs.Grid :=
  let r := ReadLineSpiffs st.file
  if r.1 = 1 then
    { mask_frame := setCell st.mask_frame c.1 c.2 true
      mask_active := st.mask_active + 1
      gerr := st.gerr
      file := r.2 }
  else if r.1 = 0 then
    { mask_frame := setCell st.mask_frame c.1 c.2 false
      mask_active := st.mask_active
      gerr := st.gerr
      file := r.2 }
  else
    { mask_frame := st.mask_frame
      mask_active := st.mask_active
      gerr := true
      file := r.2 }

/-- The detection mask grid (main.cpp 330-345), read from the lines `file`. -/
def LoadSettingsSpiffs.grid (g : MotionH) (file : List Line) (k : Device) : Device :=
  let r := (maskCells g).foldl LoadSettingsSpiffs.cell
    { mask_frame := k.mask_frame, mask_active := 0, gerr := false, file := file }
  let k := { k with mask_frame := r.mask_frame, mask_active := r.mask_active }
  if r.gerr then logText "invalid mask entry in settings" k else k

/-- The part of `LoadSettingsSpiffs` that reads an open file (main.cpp 231-345). Each
`ReadLineSpiffs` takes the next line. -/
def LoadSettingsSpiffs.values (g : MotionH) (file : List Line) (k : Device) : Device :=
  let k := logText "Loading settings from Spiffs" k
  let r0 := ReadLineSpiffs file
  let r1 := ReadLineSpiffs r0.2
  let k := LoadSettingsSpiffs.line1 r1.1 k
  let r2 := ReadLineSpiffs r1.2
  let k := LoadSettingsSpiffs.line2 r2.1 k
  let r3 := ReadLineSpiffs r2.2
  let k := LoadSettingsSpiffs.line3 r3.1 k
  let r4 := ReadLineSpiffs r3.2
  let k := LoadSettingsSpiffs.line4 r4.1 k
  let r5 := ReadLineSpiffs r4.2
  let k := LoadSettingsSpiffs.line5 r5.1 k
  let r6 := ReadLineSpiffs r5.2
  let k := LoadSettingsSpiffs.line6 r6.1 k
  let r7 := ReadLineSpiffs r6.2
  let k := LoadSettingsSpiffs.line7 r7.1 k
  let r8 := ReadLineSpiffs r7.2
  let k := LoadSettingsSpiffs.line8 r8.1 k
  let r9 := ReadLineSpiffs r8.2
  let k := LoadSettingsSpiffs.line9 r9.1 k
  let r10 := ReadLineSpiffs r9.2
  let k := LoadSettingsSpiffs.line10 r10.1 k
  let r11 := ReadLineSpiffs r10.2
  let k := LoadSettingsSpiffs.line11 r11.1 k
  let r12 := ReadLineSpiffs r11.2
  let k := LoadSettingsSpiffs.line12 r12.1 k
  let r13 := ReadLineSpiffs r12.2
  let k := LoadSettingsSpiffs.line13 r13.1 k
  let r14 := ReadLineSpiffs r13.2
  let k := LoadSettingsSpiffs.line14 r14.1 k
  let r15 := ReadLineSpiffs r14.2
  let k := LoadSettingsSpiffs.line15 r15.1 k
  let r16 := ReadLineSpiffs r15.2
  let k := LoadSettingsSpiffs.line16 r16.1 k
  let r17 := ReadLineSpiffs r16.2
  let k := LoadSettingsSpiffs.line17 r17.1 k
  LoadSettingsSpiffs.grid g r17.2 k

/-- Procedure `LoadSettingsSpiffs()`. -/
def LoadSettingsSpiffs (g : MotionH) (k : Device) : Device :=
  match k.settingsFile with
  | .missing => logText "Settings file not found on Spiffs" k
  | .unreadable => logText "Unable to open settings file from Spiffs" k
  | .lines file => LoadSettingsSpiffs.values g file k

/-! ### rootButtons (main.cpp 599-852) -/

/-- An argument of a web request, by what `server.hasArg`, `server.arg` and `toInt()`
tell of it. -/
inductive Arg where
  /-- Call `server.hasArg(name)` answers no -/
  | absent
  /-- the argument is there and its text is empty -/
  | empty
  /-- the argument is there, its text is not empty and `toInt()` reads `toInt` on it -/
  | value (toInt : Int)
  deriving DecidableEq, Repr

/-- Answer of `server.hasArg(name)`. -/
def Arg.present : Arg → Bool
  | .absent => false
  | _ => true

/-- Value of `server.arg(name).toInt()`. -/
def Arg.toInt : Arg → Int
  | .value v => v
  | _ => 0

/-- The test `Tvalue != NULL`: the text is not empty. -/
def Arg.notNull : Arg → Bool
  | .value _ => true
  | _ => false

/-- The arguments of a request for the root page. -/
structure Request where
  /-- button "email" -/
  email : Bool
  /-- button "ftp" -/
  ftp : Bool
  /-- button "post" -/
  post : Bool
  /-- button "wipeS" -/
  wipeS : Bool
  /-- field "daynight": target brightness -/
  daynight : Arg
  /-- field "dblockt": block threshold -/
  dblockt : Arg
  /-- field "dimagetl": low image threshold -/
  dimagetl : Arg
  /-- field "dimageth": high image threshold -/
  dimageth : Arg
  /-- field "exp": exposure -/
  exp : Arg
  /-- field "gain" -/
  gain : Arg
  /-- field "refreshRate" -/
  refreshRate : Arg
  /-- button "submit" -/
  submit : Bool
  /-- check box "invert" -/
  invert : Bool
  /-- check box of the mask cell `(x, y)`: `server.hasArg(String(x) + String(y))` -/
  cell : Nat → Nat → Bool
  /-- field "emailtime" -/
  emailtime : Arg
  /-- field "triggertime" -/
  triggertime : Arg
  /-- field "consec": consecutive detections required -/
  consec : Arg
  /-- button "illuminator" -/
  illuminator : Bool
  /-- button "flash" -/
  flash : Bool
  /-- button "detection" -/
  detection : Bool

/-- Button "email" (main.cpp 601-605). -/
def rootButtons.email (g : MotionH) (env : Env) (req : Request) (k : Device) : Device :=
  if req.email then
    let k := { k with emailWhenTriggered := !k.emailWhenTriggered }
    let k := log_state "Email when motion detected " k.emailWhenTriggered k
    let k := if k.emailWhenTriggered then { k with EMAILtimer := 0 } else k
    SaveSettingsSpiffs g env k
  else k

/-- Button "ftp" (main.cpp 608-611). -/
def rootButtons.ftp (g : MotionH) (env : Env) (req : Request) (k : Device) : Device :=
  if req.ftp then
    let k := { k with ftpImages := !k.ftpImages }
    SaveSettingsSpiffs g env (log_state "FTP when motion detected " k.ftpImages k)
  else k

/-- Button "post" (main.cpp 614-617). -/
def rootButtons.post (g : MotionH) (env : Env) (req : Request) (k : Device) : Device :=
  if req.post then
    let k := { k with PostImages := !k.PostImages }
    SaveSettingsSpiffs g env (log_state "POST when motion detected " k.PostImages k)
  else k

/-- Button "wipeS" (main.cpp 620-622) with the function `WipeSpiffs()` it calls
(main.cpp 408-422): formatting removes the settings file, which is then written again. -/
def rootButtons.wipeS (g : MotionH) (env : Env) (req : Request) (k : Device) : Device :=
  if req.wipeS then
    let k := Device.run (log_system_message .formattingSpiffs) k
    let formatted := env.formatOk k.asked
    let k := { k with asked := k.asked + 1 }
    if formatted then
      let k := { k with SpiffsFileCounter := 0, settingsFile := .missing }
      SaveSettingsSpiffs g env (Device.run (log_system_message .spiffsWiped) k)
    else Device.run (log_system_message .unableToFormat) k
  else k

/-- Field "daynight" (main.cpp 635-643). -/
def rootButtons.daynight (g : MotionH) (env : Env) (req : Request) (k : Device) : Device :=
  let val := req.daynight.toInt
  if req.daynight.present ∧ val ≥ 0 ∧ val < 256 ∧ val ≠ k.targetBrightness then
    let k := logText "Target brightness changed to " k
    SaveSettingsSpiffs g env { k with targetBrightness := val.toNat }
  else k

/-- Field "dblockt" (main.cpp 646-654). -/
def rootButtons.dblockt (g : MotionH) (env : Env) (req : Request) (k : Device) : Device :=
  let val := req.dblockt.toInt
  if req.dblockt.present ∧ val > 0 ∧ val < 256 ∧ val ≠ k.Block_threshold then
    let k := logText "Block_threshold changed to " k
    SaveSettingsSpiffs g env { k with Block_threshold := val.toNat }
  else k

/-- Field "dimagetl" (main.cpp 657-665). -/
def rootButtons.dimagetl (g : MotionH) (env : Env) (req : Request) (k : Device) : Device :=
  let val := req.dimagetl.toInt
  if req.dimagetl.present ∧ val ≥ 0 ∧ val < 192 ∧ val ≠ k.Image_thresholdL then
    let k := logText "Min_day_image_threshold changed to " k
    SaveSettingsSpiffs g env { k with Image_thresholdL := val.toNat }
  else k

/-- Field "dimageth" (main.cpp 668-676). -/
def rootButtons.dimageth (g : MotionH) (env : Env) (req : Request) (k : Device) : Device :=
  let val := req.dimageth.toInt
  if req.dimageth.present ∧ val > 0 ∧ val ≤ 192 ∧ val ≠ k.Image_thresholdH then
    let k := logText "Max_day_image_threshold changed to " k
    SaveSettingsSpiffs g env { k with Image_thresholdH := val.toNat }
  else k

/-- Field "exp" (main.cpp 680-691). -/
def rootButtons.exp (g : MotionH) (env : Env) (req : Request) (k : Device) : Device :=
  let val := req.exp.toInt
  if req.exp.notNull ∧ val ≥ 0 ∧ val ≤ 1200 ∧ (val : ℚ) ≠ k.cameraImageExposure then
    let k := logText "Camera exposure changed to " k
    let k := SaveSettingsSpiffs g env { k with cameraImageExposure := val }
    Device.run (resetTRIGGERtimer env) k
  else k

/-- Field "gain" (main.cpp 694-705). -/
def rootButtons.gain (g : MotionH) (env : Env) (req : Request) (k : Device) : Device :=
  let val := req.gain.toInt
  if req.gain.notNull ∧ val ≥ 0 ∧ val ≤ 31 ∧ (val : ℚ) ≠ k.cameraImageGain then
    let k := logText "Camera gain changed to " k
    let k := SaveSettingsSpiffs g env { k with cameraImageGain := val }
    Device.run (resetTRIGGERtimer env) k
  else k

/-- Field "refreshRate" (main.cpp 709-720). -/
def rootButtons.refreshRate (g : MotionH) (env : Env) (req : Request) (k : Device) :
    Device :=
  let val := req.refreshRate.toInt
  if req.refreshRate.notNull ∧ val > 0 ∧ val ≤ 600 ∧ val ≠ k.dataRefresh then
    let k := logText "Date refresh rate changed to " k
    let k := SaveSettingsSpiffs g env { k with dataRefresh := val.toNat }
    Device.run (resetTRIGGERtimer env) k
  else k

/-- Check box "invert" (main.cpp 751-759). -/
def rootButtons.invert (g : MotionH) (env : Env) (req : Request) (k : Device) : Device :=
  if req.submit then
    let tStore := req.invert
    if tStore ≠ k.cameraImageInvert then
      let k := SaveSettingsSpiffs g env { k with cameraImageInvert := tStore }
      logText "Invert image changed to " k
    else k
  else k

/-- The variables of the loop over the check boxes of the mask. -/
structure rootButtons.Grid where
  /-- Global `mask_frame` -/
  mask_frame : Nat → Nat → Bool
  /-- Global `mask_active` -/
  mask_active : Nat
  /-- Local `maskChanged` -/
  maskChanged : Bool

/-- The body of the loop over the check boxes of the mask (main.cpp 768-778), at cell
`(x, y) = c`. -/
def rootButtons.cell (req : Request) (st : rootButtons.Grid) (c : Nat × Nat) :
    rootButtons.Grid :=
  if req.cell c.1 c.2 then
    { mask_frame := setCell st.mask_frame c.1 c.2 true
      mask_active := st.mask_active + 1
      maskChanged := if st.mask_frame c.1 c.2 = false then true else st.maskChanged }
  else
    { mask_frame := setCell st.mask_frame c.1 c.2 false
      mask_active := st.mask_active
      maskChanged := if st.mask_frame c.1 c.2 = true then true else st.maskChanged }

/-- The loop over the check boxes of the mask (main.cpp 764-779). -/
def rootButtons.scan (g : MotionH) (req : Request) (k : Device) : rootButtons.Grid :=
  (maskCells g).foldl (rootButtons.cell req)
    { mask_frame := k.mask_frame, mask_active := 0, maskChanged := false }

/-- The mask grid of the submit button (main.cpp 762-785). -/
def rootButtons.mask (g : MotionH) (env : Env) (req : Request) (k : Device) : Device :=
  if req.submit then
    let r := rootButtons.scan g req k
    let k := { k with mask_frame := r.mask_frame, mask_active := r.mask_active }
    if r.maskChanged then
      let k := { k with Image_thresholdH := k.mask_active * g.blocksPerMaskUnit }
      logText "Detection mask updated" (SaveSettingsSpiffs g env k)
    else k
  else k

/-- Field "emailtime" (main.cpp 788-796). -/
def rootButtons.emailtime (g : MotionH) (env : Env) (req : Request) (k : Device) : Device :=
  let val := req.emailtime.toInt
  if req.emailtime.present ∧ val > 59 ∧ val < 10000 ∧ val ≠ k.EmailLimitTime then
    let k := logText "EmailLimitTime changed to " k
    SaveSettingsSpiffs g env { k with EmailLimitTime := val.toNat }
  else k

/-- Field "triggertime" (main.cpp 799-807). -/
def rootButtons.triggertime (g : MotionH) (env : Env) (req : Request) (k : Device) :
    Device :=
  let val := req.triggertime.toInt
  if req.triggertime.present ∧ val > 0 ∧ val < 3600 ∧ val ≠ k.TriggerLimitTime then
    let k := logText "Triggertime changed to " k
    SaveSettingsSpiffs g env { k with TriggerLimitTime := val.toNat }
  else k

/-- Field "consec" (main.cpp 810-818). -/
def rootButtons.consec (g : MotionH) (env : Env) (req : Request) (k : Device) : Device :=
  let val := req.consec.toInt
  if req.consec.present ∧ val > 0 ∧ val ≤ 100 ∧ val ≠ k.tCounterTrigger then
    let k := logText "Consecutive detections required changed to " k
    SaveSettingsSpiffs g env { k with tCounterTrigger := val.toNat }
  else k

/-- Button "illuminator" (main.cpp 821-836): the procedure `illuminatorButton`. -/
def rootButtons.illuminator (env : Env) (req : Request) (k : Device) : Device :=
  if req.illuminator then Device.run (illuminatorButton env) k else k

/-- Button "flash" (main.cpp 839-842). -/
def rootButtons.flash (g : MotionH) (env : Env) (req : Request) (k : Device) : Device :=
  if req.flash then
    let k := { k with UseFlash := !k.UseFlash }
    SaveSettingsSpiffs g env (log_state "Flash " k.UseFlash k)
  else k

/-- Button "detection" (main.cpp 845-853): `DetectionEnabled = !DetectionEnabled`. -/
def rootButtons.detection (g : MotionH) (env : Env) (req : Request) (k : Device) : Device :=
  if req.detection then
    let k := { k with DetectionEnabled := if k.DetectionEnabled = 0 then 1 else 0 }
    let k := log_state "Motion detection " (decide (k.DetectionEnabled ≠ 0)) k
    let k :=
      if k.DetectionEnabled ≠ 0 then Device.run (resetTRIGGERtimer env) k
      else Device.run (emit .onboardLED) k
    SaveSettingsSpiffs g env k
  else k

/-- Procedure `rootButtons()`: the arguments of the request are acted on in the order of
the sketch. -/
def rootButtons (g : MotionH) (env : Env) (req : Request) (k : Device) : Device :=
  k |> rootButtons.email g env req
    |> rootButtons.ftp g env req
    |> rootButtons.post g env req
    |> rootButtons.wipeS g env req
    |> rootButtons.daynight g env req
    |> rootButtons.dblockt g env req
    |> rootButtons.dimagetl g env req
    |> rootButtons.dimageth g env req
    |> rootButtons.exp g env req
    |> rootButtons.gain g env req
    |> rootButtons.refreshRate g env req
    |> rootButtons.invert g env req
    |> rootButtons.mask g env req
    |> rootButtons.emailtime g env req
    |> rootButtons.triggertime g env req
    |> rootButtons.consec g env req
    |> rootButtons.illuminator env req
    |> rootButtons.flash g env req
    |> rootButtons.detection g env req

/-- The statement of `handleRoot` that limits the high threshold (main.cpp 967-968). -/
def handleRoot.limit (g : MotionH) (k : Device) : Device :=
  if k.Image_thresholdH > k.mask_active * g.blocksPerMaskUnit then
    { k with Image_thresholdH := k.mask_active * g.blocksPerMaskUnit }
  else k

/-- Procedure `handleRoot()` (main.cpp 858-1017), without the page it writes;
`IMAGE_SETTINGS` is defined. -/
def handleRoot (g : MotionH) (env : Env) (req : Request) (k : Device) : Device :=
  handleRoot.limit g (rootButtons g env req (logText "Home page requested from: " k))

/-- Procedure `handleDefault()` (main.cpp 561-592). -/
def handleDefault (g : MotionH) (env : Env) (k : Device) : Device :=
  let k := logText "Test page requested from: " k
  let k := { k with
    emailWhenTriggered := false
    targetBrightness := 130
    Block_threshold := 7
    Image_thresholdL := 15
    Image_thresholdH := 192
    TriggerLimitTime := 20
    EmailLimitTime := 600
    DetectionEnabled := 1
    UseFlash := false
    cameraImageExposure := 30
    cameraImageGain := 0
    tCounterTrigger := 1
    ftpImages := false
    PostImages := false }
  let k := { k with
    mask_frame := (maskCells g).foldl (fun m c => setCell m c.1 c.2 true) k.mask_frame
    mask_active := 12 }
  let k := SaveSettingsSpiffs g env k
  let k := Device.run (resetTRIGGERtimer env) k
  Device.run (emit (.serverSend 404)) k

/-! ### postImage (post.h 24-102): the request it sends -/

/-- Local `head` of `postImage`: the start of the multipart body. -/
def postImage.head (fName : String) : String :=
  "--1234567890009876564321\r\n"
    ++ "Content-Disposition: form-data; name=\"imageFile\"; filename=\"" ++ fName ++ "\"\r\n"
    ++ "Content-Type: image/jpeg\r\n\r\n"

/-- Local `tail` of `postImage`: the end of the multipart body. -/
def postImage.tail : String := "\r\n--1234567890009876564321--\r\n"

/-- Local `uint16_t totalLen` of `postImage`, the number sent as `Content-Length`:
`imageLen`, `extraLen` and `totalLen` are all `uint16_t`. The texts are ASCII, so their
length in bytes is their number of characters. -/
def postImage.totalLen (fName : String) (fbLen : Nat) : Nat :=
  let imageLen := fbLen % 65536
  let extraLen := ((postImage.head fName).length + postImage.tail.length) % 65536
  (imageLen + extraLen) % 65536

/-- Call `client.write(fbBuf, len)`: the bytes written, for the memory `mem` and the
pointer `fbBuf`. -/
def clientWrite (mem : Nat → Nat) (fbBuf len : Nat) : List Nat :=
  (List.range len).map fun j => mem (fbBuf + j)

/-- The loop `for (size_t n=0; n<fbLen; n=n+1024)` of `postImage` (post.h 52-61): the
bytes it writes to the connection. `iterations` bounds the number of rounds. -/
def postImage.loop (mem : Nat → Nat) (fbLen : Nat) : (iterations n fbBuf : Nat) → List Nat
  | 0, _, _ => []
  | iterations + 1, n, fbBuf =>
    if n < fbLen then
      if n + 1024 < fbLen then
        clientWrite mem fbBuf 1024 ++ postImage.loop mem fbLen iterations (n + 1024) (fbBuf + 1024)
      else if fbLen % 1024 > 0 then
        clientWrite mem fbBuf (fbLen % 1024) ++ postImage.loop mem fbLen iterations (n + 1024) fbBuf
      else postImage.loop mem fbLen iterations (n + 1024) fbBuf
    else []

/-- The image bytes `postImage` writes between `head` and `tail`, for an image of `fbLen`
bytes at address `fbBuf`. The loop makes at most `fbLen / 1024 + 1` rounds. -/
def postImage.sendImage (mem : Nat → Nat) (fbBuf fbLen : Nat) : List Nat :=
  postImage.loop mem fbLen (fbLen / 1024 + 1) 0 fbBuf

/-! ### Sample settings -/

/-- A mask of 4 columns and 3 rows with 16 blocks to a cell: the 12 cells and the 192
blocks of `handleDefault`. -/
def sampleH : MotionH where
  mask_rows := 3
  mask_columns := 4
  blocksPerMaskUnit := 16

/-- The boot state with the settings of `handleDefault`, all 12 cells of the mask set, a
frame of brightness 130 and no settings file. -/
def bootDevice : Device where
  toState := bootState
  Block_threshold := 7
  targetBrightness := 130
  emailWhenTriggered := false
  EmailLimitTime := 600
  EMAILtimer := 0
  cameraImageExposure := 30
  cameraImageGain := 0
  ftpImages := false
  cameraImageInvert := false
  dataRefresh := 5
  mask_frame := fun x y => decide (x < 4 ∧ y < 3)
  mask_active := 12
  AveragePix := 130
  cfsize := .FRAME_SIZE_MOTION
  MaintTiming := 0
  settingsFile := .missing

/-- A scene whose brightness does not change. -/
def steadyLight : Light where
  reading := fun _ q => q

/-- A request without arguments. -/
def noRequest : Request where
  email := false
  ftp := false
  post := false
  wipeS := false
  daynight := .absent
  dblockt := .absent
  dimagetl := .absent
  dimageth := .absent
  exp := .absent
  gain := .absent
  refreshRate := .absent
  submit := false
  invert := false
  cell := fun _ _ => false
  emailtime := .absent
  triggertime := .absent
  consec := .absent
  illuminator := false
  flash := false
  detection := false

/-- The settings file that `SaveSettingsSpiffs` writes for `bootDevice`, with line `i`
replaced by `line`. -/
def fileWith (i : Nat) (line : Line) : SettingsFile :=
  .lines ((SaveSettingsSpiffs.lines sampleH bootDevice).set i line)

/-- A submit of the root page with every check box of the mask ticked except the one of
cell `(0, 0)`. -/
def uncheckFirst : Request :=
  { noRequest with
    submit := true
    cell := fun x y => decide (x < 4 ∧ y < 3 ∧ ¬ (x = 0 ∧ y = 0)) }

/-- A submit of the root page with only the check boxes of row 0 ticked and 150 entered
as the low threshold. -/
def topRowLow150 : Request :=
  { noRequest with
    submit := true
    dimagetl := .value 150
    cell := fun x y => decide (x < 4 ∧ y = 0) }

/-- As `uncheckFirst`, with 192 entered as the high threshold. -/
def uncheckFirstHigh192 : Request := { uncheckFirst with dimageth := .value 192 }

/-- The settings file left by two requests for the root page made from `bootDevice`:
`uncheckFirst`, then `uncheckFirstHigh192`. -/
def fileAfterRequests : SettingsFile :=
  (handleRoot sampleH goodEnv uncheckFirstHigh192
    (handleRoot sampleH goodEnv uncheckFirst bootDevice)).settingsFile

/-- The second device has the mask of the first. -/
def SameMask (k k' : Device) : Prop :=
  k'.mask_frame = k.mask_frame ∧ k'.mask_active = k.mask_active

/-- The second device has the mask and the high threshold of the first. -/
def SameGrid (k k' : Device) : Prop :=
  k'.mask_frame = k.mask_frame ∧ k'.mask_active = k.mask_active ∧
  k'.Image_thresholdH = k.Image_thresholdH

/-- The arguments of a request that `rootButtons` acts on before the mask grid. -/
def rootButtons.beforeMask (g : MotionH) (env : Env) (req : Request) (k : Device) : Device :=
  k |> rootButtons.email g env req
    |> rootButtons.ftp g env req
    |> rootButtons.post g env req
    |> rootButtons.wipeS g env req
    |> rootButtons.daynight g env req
    |> rootButtons.dblockt g env req
    |> rootButtons.dimagetl g env req
    |> rootButtons.dimageth g env req
    |> rootButtons.exp g env req
    |> rootButtons.gain g env req
    |> rootButtons.refreshRate g env req
    |> rootButtons.invert g env req

/-- As `goodEnv`, but every stored file has 65600 bytes. -/
def largeFileEnv : Env := { goodEnv with fileSize := fun _ => 65600 }

/-- The boot state one second after a trigger, with the required detection counted. -/
def justTriggeredState : State :=
  { bootState with clock := 1000, TRIGGERtimer := 1000, tCounter := 1 }

/-- The state 30 seconds after boot with the required detection counted, the I/O input
required high and found low. -/
def inputLowState : State :=
  { readyState with tCounter := 1, ioRequiredHighToTrigger := true, SensorStatus := false }

/-! ## Theorems -/

/-! ### Sequencing -/

@[simp] theorem bind_apply {α β : Type} (m : M α) (f : α → M β) (s : State) :
    (m >>= f) s = M.bind m f s := rfl

@[simp] theorem pure_apply {α : Type} (a : α) (s : State) :
    (pure a : M α) s = .ok a s := rfl

@[simp] theorem getState_apply (s : State) : getState s = .ok s s := rfl

@[simp] theorem modifyState_apply (f : State → State) (s : State) :
    modifyState f s = .ok () (f s) := rfl

@[simp] theorem emit_apply (e : Event) (s : State) :
    emit e s = .ok () { s with trace := s.trace ++ [e] } := rfl

@[simp] theorem log_system_message_apply (m : Msg) (s : State) :
    log_system_message m s = .ok () { s with trace := s.trace ++ [.log m] } := rfl

@[simp] theorem delay_apply (ms : Nat) (s : State) :
    delay ms s
      = .ok () { s with clock := s.clock + ms, trace := s.trace ++ [.delay ms] } := rfl

/-! ### Relations kept by procedures -/

section Keeping

variable {R : State → State → Prop} [IsPreorder State R] {α β : Type}

theorem Keeps.pure (a : α) : Keeps R (pure a : M α) := fun s => refl_of R s

theorem Keeps.bind {m : M α} {f : α → M β} (h1 : Keeps R m) (h2 : ∀ a, Keeps R (f a)) :
    Keeps R (m >>= f) := by
  intro s
  have h := h1 s
  simp only [bind_apply, M.bind]
  cases hm : m s with
  | ok a s1 => rw [hm] at h; exact trans_of R h (h2 a s1)
  | reboot s1 => rw [hm] at h; exact h
  | fault s1 => rw [hm] at h; exact h
  | unfinished s1 => rw [hm] at h; exact h

theorem Keeps.getState : Keeps R getState := fun s => refl_of R s

theorem Keeps.outOfFuel : Keeps R (outOfFuel : M α) := fun s => refl_of R s

theorem Keeps.fault : Keeps R (fun s => .fault s : M α) := fun s => refl_of R s

end Keeping

theorem Keeps.ite {R : State → State → Prop} {α : Type} {c : Prop} [Decidable c]
    {a b : M α} (ha : Keeps R a) (hb : Keeps R b) : Keeps R (if c then a else b) := by
  split <;> assumption

theorem Keeps.weak_of_plumb {α : Type} {m : M α} (h : Keeps Plumb m) : Keeps Weak m :=
  fun s => (h s).1

theorem Keeps.quiet_of_plumb {α : Type} {m : M α} (h : Keeps Plumb m) : Keeps Quiet m :=
  fun s => ⟨(h s).1, (h s).2.1⟩

theorem Keeps.weak_of_quiet {α : Type} {m : M α} (h : Keeps Quiet m) : Keeps Weak m :=
  fun s => (h s).1

theorem Keeps.detection_of_quiet {α : Type} {m : M α} (h : Keeps Quiet m) :
    Keeps SameDetection m :=
  fun s => (h s).2

/-- A step that only advances the clock, asks the environment and appends entries that
are neither decisions nor capture attempts keeps `Plumb`. -/
theorem Plumb.of_step (s : State) (dt dk : Nat) (evs : List Event)
    (h1 : evs.filter isDecisionMark = []) (h2 : evs.filter isPhotoMark = []) :
    Plumb s { s with clock := s.clock + dt, asked := s.asked + dk, trace := s.trace ++ evs } := by
  simp [Plumb, Weak, SameDetection, SamePhotos, decisionMarks, photoMarks, List.filter_append,
    h1, h2]

theorem Keeps.emit_plumb (e : Event) (h1 : isDecisionMark e = false)
    (h2 : isPhotoMark e = false) : Keeps Plumb (emit e) := by
  intro s
  simpa [Res.state] using Plumb.of_step s 0 0 [e] (by simp [h1]) (by simp [h2])

theorem Keeps.log_plumb (m : Msg) (h1 : isDecisionMark (.log m) = false) :
    Keeps Plumb (log_system_message m) :=
  Keeps.emit_plumb _ h1 rfl

theorem Keeps.delay_plumb (ms : Nat) : Keeps Plumb (delay ms) := by
  intro s
  simpa [Res.state] using Plumb.of_step s ms 0 [.delay ms] rfl rfl

theorem Keeps.millis_plumb (env : Env) : Keeps Plumb (millis env) := by
  intro s
  simpa [Res.state, millis] using Plumb.of_step s (env.elapsed s.asked) 1 [] rfl rfl

theorem Keeps.resetTRIGGERtimer_plumb (env : Env) : Keeps Plumb (resetTRIGGERtimer env) := by
  intro s
  simp only [resetTRIGGERtimer, millis, bind_apply, M.bind, modifyState_apply, Res.state]
  refine ⟨⟨Nat.le_add_right _ _, Or.inr ⟨_, Nat.le_add_right _ _, le_refl _, rfl⟩, ?_⟩, rfl, rfl⟩
  simp

theorem Keeps.setupCameraHardware_plumb (env : Env) (f : pixformat_t) :
    Keeps Plumb (setupCameraHardware env f) := by
  intro s
  simpa [Res.state, setupCameraHardware] using
    Plumb.of_step s 0 1 [.setupCameraHardware f (env.setupOk s.asked)] rfl rfl

theorem Keeps.capture_still_plumb (env : Env) : Keeps Plumb (capture_still env) := by
  intro s
  simpa [Res.state, capture_still] using
    Plumb.of_step s 0 1 [.capture_still (env.stillOk s.asked)] rfl rfl

theorem Keeps.esp_camera_fb_get_plumb (env : Env) : Keeps Plumb (esp_camera_fb_get env) := by
  intro s
  simpa [Res.state, esp_camera_fb_get] using
    Plumb.of_step s 0 1 [.fb_get (env.fbOk s.asked)] rfl rfl

theorem Keeps.ask_plumb (answer : Nat → Bool) : Keeps Plumb (ask answer) := by
  intro s
  simpa [Res.state, ask] using Plumb.of_step s 0 1 [] rfl rfl

theorem Keeps.ESP_restart_plumb {α : Type} : Keeps Plumb (ESP_restart : M α) := by
  intro s
  simpa [Res.state, ESP_restart] using Plumb.of_step s 0 0 [.espRestart] rfl rfl

theorem Keeps.setSpiffsFileCounter_plumb (f : State → Int) :
    Keeps Plumb (modifyState fun s => { s with SpiffsFileCounter := f s }) := by
  intro s
  simp [Res.state, Plumb, Weak, SameDetection, SamePhotos]

theorem RebootCameraWith_plumb (env : Env) (restart : pixformat_t → M Unit)
    (h : ∀ f, Keeps Plumb (restart f)) (format : pixformat_t) :
    Keeps Plumb (RebootCameraWith env restart format) := by
  unfold RebootCameraWith
  repeat' (first
    | exact Keeps.pure _
    | exact Keeps.log_plumb _ rfl
    | exact Keeps.delay_plumb _
    | exact Keeps.emit_plumb _ rfl rfl
    | exact Keeps.capture_still_plumb _
    | exact Keeps.ESP_restart_plumb
    | exact h _
    | apply Keeps.bind
    | apply Keeps.ite
    | intro _)

theorem RestartCamera_plumb (env : Env) (fuel : Nat) (format : pixformat_t) :
    Keeps Plumb (RestartCamera env fuel format) := by
  induction fuel generalizing format with
  | zero => exact Keeps.outOfFuel
  | succ n ih =>
    unfold RestartCamera
    repeat' (first
      | exact Keeps.pure _
      | exact Keeps.log_plumb _ rfl
      | exact Keeps.delay_plumb _
      | exact Keeps.emit_plumb _ rfl rfl
      | exact Keeps.setupCameraHardware_plumb _ _
      | exact Keeps.resetTRIGGERtimer_plumb _
      | exact RebootCameraWith_plumb env _ ih _
      | apply Keeps.bind
      | apply Keeps.ite
      | intro _)

theorem RebootCamera_plumb (env : Env) (fuel : Nat) (format : pixformat_t) :
    Keeps Plumb (RebootCamera env fuel format) :=
  RebootCameraWith_plumb env _ (RestartCamera_plumb env fuel) format

theorem postImage_plumb (env : Env) : Keeps Plumb (postImage env) := by
  unfold postImage
  repeat' (first
    | exact Keeps.pure _
    | exact Keeps.emit_plumb _ rfl rfl
    | exact Keeps.ask_plumb _
    | apply Keeps.bind
    | intro _)

theorem sendStream.loop_plumb (env : Env) (stop fuel : Nat) :
    Keeps Plumb (sendStream.loop env stop fuel) := by
  induction fuel with
  | zero => exact Keeps.outOfFuel
  | succ n ih =>
    unfold sendStream.loop
    repeat' (first
      | exact Keeps.pure _
      | exact ih
      | exact Keeps.log_plumb _ rfl
      | exact Keeps.millis_plumb _
      | exact Keeps.esp_camera_fb_get_plumb _
      | exact RebootCamera_plumb _ _ _
      | exact postImage_plumb _
      | apply Keeps.bind
      | apply Keeps.ite
      | intro _)

theorem sendStream_plumb (env : Env) (fuel : Nat) : Keeps Plumb (sendStream env fuel) := by
  unfold sendStream
  repeat' (first
    | exact Keeps.pure _
    | exact Keeps.log_plumb _ rfl
    | exact Keeps.millis_plumb _
    | exact sendStream.loop_plumb _ _ _
    | apply Keeps.bind
    | intro _)

theorem saveGreyscaleFrame_plumb (env : Env) : Keeps Plumb (saveGreyscaleFrame env) := by
  unfold saveGreyscaleFrame
  repeat' (first
    | exact Keeps.pure _
    | exact Keeps.log_plumb _ rfl
    | exact Keeps.emit_plumb _ rfl rfl
    | exact Keeps.esp_camera_fb_get_plumb _
    | exact Keeps.ask_plumb _
    | apply Keeps.bind
    | apply Keeps.ite
    | intro _)

theorem WipeSpiffs_plumb (env : Env) : Keeps Plumb (WipeSpiffs env) := by
  unfold WipeSpiffs
  repeat' (first
    | exact Keeps.pure _
    | exact Keeps.log_plumb _ rfl
    | exact Keeps.emit_plumb _ rfl rfl
    | exact Keeps.ask_plumb _
    | exact Keeps.setSpiffsFileCounter_plumb _
    | apply Keeps.bind
    | apply Keeps.ite
    | intro _)

theorem saveJpgFrame.store_plumb (env : Env) : Keeps Plumb (saveJpgFrame.store env) := by
  unfold saveJpgFrame.store
  repeat' (first
    | exact Keeps.pure _
    | exact Keeps.log_plumb _ rfl
    | exact Keeps.ask_plumb _
    | exact WipeSpiffs_plumb _
    | exact Keeps.setSpiffsFileCounter_plumb _
    | apply Keeps.bind
    | apply Keeps.ite
    | intro _)

/-! ### checkCameraIsFree -/

/-- The polling loop when the camera stays in use for all `n` remaining polls. -/
theorem checkCameraIsFree.loop_timeout (env : Env) (n : Nat) (s : State)
    (h : ∀ j, j < n → env.flagAfterWait (s.asked + j) = 2) :
    checkCameraIsFree.loop env n s
      = .ok false { s with
          clock := s.clock + 100 * n
          asked := s.asked + n
          DetectionEnabled := if n = 0 then s.DetectionEnabled else 2
          trace := s.trace ++ List.replicate n (.delay 100) ++ [.log .waitTimedOut] } := by
  induction n generalizing s with
  | zero => simp [checkCameraIsFree.loop, M.bind]
  | succ n ih =>
    have h0 : env.flagAfterWait s.asked = 2 := by simpa using h 0 (Nat.succ_pos n)
    simp only [checkCameraIsFree.loop, bind_apply, M.bind, delay_apply, modifyState_apply,
      getState_apply, h0, pure_apply, ne_eq, not_true_eq_false, ↓reduceIte]
    rw [ih]
    · simp [List.replicate_succ, Nat.mul_succ, Nat.add_assoc, Nat.add_comm 100,
        Nat.add_comm 1]
    · intro j hj
      have := h (j + 1) (Nat.succ_lt_succ hj)
      simpa [Nat.add_assoc, Nat.add_comm 1 j] using this

/-- The polling loop when poll `k + 1` is the first to find the camera released. -/
theorem checkCameraIsFree.loop_released (env : Env) (n k : Nat) (s : State) (hk : k < n)
    (h : ∀ j, j < k → env.flagAfterWait (s.asked + j) = 2)
    (hrel : env.flagAfterWait (s.asked + k) ≠ 2) :
    checkCameraIsFree.loop env n s
      = .ok true { s with
          clock := s.clock + 100 * (k + 1)
          asked := s.asked + (k + 1)
          DetectionEnabled := env.flagAfterWait (s.asked + k)
          trace := s.trace ++ List.replicate (k + 1) (.delay 100) } := by
  induction n generalizing s k with
  | zero => exact absurd hk (Nat.not_lt_zero k)
  | succ n ih =>
    cases k with
    | zero =>
      have hne : env.flagAfterWait s.asked ≠ 2 := by simpa using hrel
      simp [checkCameraIsFree.loop, M.bind, hne]
    | succ k =>
      have h0 : env.flagAfterWait s.asked = 2 := by simpa using h 0 (Nat.succ_pos k)
      simp only [checkCameraIsFree.loop, bind_apply, M.bind, delay_apply, modifyState_apply,
        getState_apply, h0, pure_apply, ne_eq, not_true_eq_false, ↓reduceIte]
      rw [ih k _ (Nat.lt_of_succ_lt_succ hk)]
      · simp [List.replicate_succ, Nat.mul_succ, Nat.add_assoc, Nat.add_comm 100,
          Nat.add_comm 1]
      · intro j hj
        have := h (j + 1) (Nat.succ_lt_succ hj)
        simpa [Nat.add_assoc, Nat.add_comm 1 j] using this
      · simpa [Nat.add_assoc, Nat.add_comm 1 k] using hrel

/-- C5. `checkCameraIsFree` returns true at once, without any delay and without touching
the state, when `DetectionEnabled != 2` on entry. When `DetectionEnabled == 2` on entry
and after each of the 10 waits, it performs exactly 10 waits of 100 ms, logs the timeout
and returns false. When poll `k` (1 ≤ k ≤ 10) is the first to find `DetectionEnabled != 2`
it returns true after exactly `k` waits of 100 ms. -/
theorem checkCameraIsFree_polls (env : Env) (s : State) :
    (s.DetectionEnabled ≠ 2 → checkCameraIsFree env s = .ok true s) ∧
    (s.DetectionEnabled = 2 → (∀ j, j < 10 → env.flagAfterWait (s.asked + j) = 2) →
      checkCameraIsFree env s
        = .ok false { s with
            clock := s.clock + 1000
            asked := s.asked + 10
            trace := s.trace ++ [.log .waitingForCamera] ++ List.replicate 10 (.delay 100)
                      ++ [.log .waitTimedOut] }) ∧
    (∀ k, s.DetectionEnabled = 2 → 1 ≤ k → k ≤ 10 →
      (∀ j, j < k - 1 → env.flagAfterWait (s.asked + j) = 2) →
      env.flagAfterWait (s.asked + (k - 1)) ≠ 2 →
      checkCameraIsFree env s
        = .ok true { s with
            clock := s.clock + 100 * k
            asked := s.asked + k
            DetectionEnabled := env.flagAfterWait (s.asked + (k - 1))
            trace := s.trace ++ [.log .waitingForCamera] ++ List.replicate k (.delay 100) }) := by
  refine ⟨?_, ?_, ?_⟩
  · intro hne
    simp [checkCameraIsFree, M.bind, hne]
  · intro h2 hall
    simp only [checkCameraIsFree, bind_apply, M.bind, getState_apply, h2, pure_apply,
      log_system_message_apply, ne_eq, not_true_eq_false, ↓reduceIte]
    rw [checkCameraIsFree.loop_timeout]
    · simp
    · simpa using hall
  · intro k h2 hk1 hk10 hall hrel
    obtain ⟨k, rfl⟩ : ∃ k0, k = k0 + 1 := ⟨k - 1, by omega⟩
    simp only [checkCameraIsFree, bind_apply, M.bind, getState_apply, h2, pure_apply,
      log_system_message_apply, ne_eq, not_true_eq_false, ↓reduceIte]
    rw [checkCameraIsFree.loop_released env 10 k _ (by omega)]
    · simp
    · simpa using hall
    · simpa using hrel

/-! ### Procedures that touch DetectionEnabled -/

theorem Keeps.of_plumb {R : State → State → Prop} (hp : ∀ s s', Plumb s s' → R s s')
    {α : Type} {m : M α} (h : Keeps Plumb m) : Keeps R m :=
  fun s => hp _ _ (h s)

theorem Keeps.wrapSpiffsFileCounter_plumb :
    Keeps Plumb (modifyState fun s =>
      if s.SpiffsFileCounter > MaxSpiffsImages then { s with SpiffsFileCounter := 1 }
      else s) := by
  intro s
  simp only [modifyState_apply, Res.state]
  split
  · simp [Plumb, Weak, SameDetection, SamePhotos]
  · exact refl_of Plumb s

theorem pauseDetection_keeps {R : State → State → Prop} [IsPreorder State R]
    (hd : ∀ (s : State) v k, R s { s with DetectionEnabled := v, asked := k }) :
    Keeps R pauseDetection := by
  intro s
  simp only [pauseDetection, modifyState_apply, Res.state]
  split
  · exact hd s 2 s.asked
  · exact refl_of R s

theorem resumeDetection_keeps {R : State → State → Prop} [IsPreorder State R]
    (hd : ∀ (s : State) v k, R s { s with DetectionEnabled := v, asked := k }) :
    Keeps R resumeDetection := by
  intro s
  simp only [resumeDetection, modifyState_apply, Res.state]
  split
  · exact hd s 1 s.asked
  · exact refl_of R s

theorem Keeps.setFlag {R : State → State → Prop}
    (hd : ∀ (s : State) v k, R s { s with DetectionEnabled := v, asked := k })
    (v k : State → Nat) :
    Keeps R (modifyState fun s => { s with DetectionEnabled := v s, asked := k s }) :=
  fun s => hd s _ _

theorem checkCameraIsFree.loop_keeps {R : State → State → Prop} [IsPreorder State R]
    (hp : ∀ s s', Plumb s s' → R s s')
    (hd : ∀ (s : State) v k, R s { s with DetectionEnabled := v, asked := k })
    (env : Env) (n : Nat) : Keeps R (checkCameraIsFree.loop env n) := by
  induction n with
  | zero =>
    unfold checkCameraIsFree.loop
    repeat' (first
      | with_reducible apply Keeps.bind
      | with_reducible exact Keeps.pure _
      | (with_reducible refine Keeps.of_plumb hp (Keeps.log_plumb _ ?_)) <;> rfl
      | intro _)
  | succ n ih =>
    unfold checkCameraIsFree.loop
    repeat' (first
      | with_reducible apply Keeps.bind
      | with_reducible apply Keeps.ite
      | with_reducible exact Keeps.pure _
      | with_reducible exact ih
      | with_reducible exact Keeps.getState
      | with_reducible exact Keeps.of_plumb hp (Keeps.delay_plumb _)
      | with_reducible exact Keeps.setFlag hd _ _
      | intro _)

theorem checkCameraIsFree_keeps {R : State → State → Prop} [IsPreorder State R]
    (hp : ∀ s s', Plumb s s' → R s s')
    (hd : ∀ (s : State) v k, R s { s with DetectionEnabled := v, asked := k })
    (env : Env) : Keeps R (checkCameraIsFree env) := by
  unfold checkCameraIsFree
  repeat' (first
    | with_reducible apply Keeps.bind
    | with_reducible apply Keeps.ite
    | with_reducible exact Keeps.pure _
    | with_reducible exact Keeps.getState
    | with_reducible exact checkCameraIsFree.loop_keeps hp hd _ _
    | (with_reducible refine Keeps.of_plumb hp (Keeps.log_plumb _ ?_)) <;> rfl
    | intro _)

theorem Weak_of_plumb (s s' : State) (h : Plumb s s') : Weak s s' := h.1

theorem Weak.setDetection (s : State) (v k : Nat) :
    Weak s { s with DetectionEnabled := v, asked := k } := by
  simp [Weak]

theorem checkPhoto_quiet (env : Env) : Keeps Quiet (checkPhoto env) := by
  intro s
  simp only [checkPhoto, bind_apply, M.bind, getState_apply, modifyState_apply, emit_apply,
    pure_apply]
  split <;>
    simp [Res.state, Quiet, Weak, SameDetection, decisionMarks, List.filter_append,
      isDecisionMark, M.bind]

theorem saveJpgFrame.body_plumb (env : Env) (fuel : Nat) (dostream : Bool) :
    Keeps Plumb (saveJpgFrame.body env fuel dostream) := by
  unfold saveJpgFrame.body
  repeat' (first
    | with_reducible apply Keeps.bind
    | with_reducible apply Keeps.ite
    | with_reducible exact Keeps.pure _
    | with_reducible exact Keeps.getState
    | (with_reducible refine Keeps.log_plumb _ ?_) <;> rfl
    | (with_reducible refine Keeps.emit_plumb _ ?_ ?_) <;> rfl
    | with_reducible exact Keeps.esp_camera_fb_get_plumb _
    | with_reducible exact RebootCamera_plumb _ _ _
    | with_reducible exact saveJpgFrame.store_plumb _
    | with_reducible exact postImage_plumb _
    | with_reducible exact sendStream_plumb _ _
    | intro _)

theorem saveJpgFrame_quiet (env : Env) (fuel : Nat) (dostream : Bool) :
    Keeps Quiet (saveJpgFrame env fuel dostream) := by
  unfold saveJpgFrame
  refine Keeps.bind ?_ (fun _ => Keeps.quiet_of_plumb (saveJpgFrame.body_plumb _ _ _))
  intro s
  simp [Res.state, Quiet, Weak, SameDetection, decisionMarks, List.filter_append,
    isDecisionMark]

theorem capturePhotoSaveSpiffs.loop_quiet (env : Env) (dostream : Bool) (fuel TryCount : Nat) :
    Keeps Quiet (capturePhotoSaveSpiffs.loop env dostream fuel TryCount) := by
  induction fuel generalizing TryCount with
  | zero => exact Keeps.outOfFuel
  | succ n ih =>
    unfold capturePhotoSaveSpiffs.loop
    repeat' (first
      | with_reducible apply Keeps.bind
      | with_reducible apply Keeps.ite
      | with_reducible exact Keeps.pure _
      | with_reducible exact ih _
      | (with_reducible refine Keeps.quiet_of_plumb (Keeps.log_plumb _ ?_)) <;> rfl
      | with_reducible exact saveJpgFrame_quiet _ _ _
      | with_reducible exact checkPhoto_quiet _
      | intro _)

theorem capturePhotoSaveSpiffs_weak (env : Env) (fuel : Nat) (dostream : Bool) :
    Keeps Weak (capturePhotoSaveSpiffs env fuel dostream) := by
  unfold capturePhotoSaveSpiffs
  repeat' (first
    | with_reducible apply Keeps.bind
    | with_reducible apply Keeps.ite
    | with_reducible exact Keeps.pure _
    | with_reducible exact checkCameraIsFree_keeps Weak_of_plumb Weak.setDetection _
    | with_reducible exact pauseDetection_keeps Weak.setDetection
    | with_reducible exact resumeDetection_keeps Weak.setDetection
    | with_reducible exact Keeps.weak_of_quiet (capturePhotoSaveSpiffs.loop_quiet _ _ _ _)
    | with_reducible exact Keeps.weak_of_plumb (RestartCamera_plumb _ _ _)
    | with_reducible exact Keeps.weak_of_plumb (saveGreyscaleFrame_plumb _)
    | with_reducible exact Keeps.weak_of_plumb (Keeps.resetTRIGGERtimer_plumb _)
    | (with_reducible refine Keeps.weak_of_plumb (Keeps.log_plumb _ ?_)) <;> rfl
    | with_reducible exact Keeps.weak_of_plumb (Keeps.setSpiffsFileCounter_plumb _)
    | with_reducible exact Keeps.weak_of_plumb Keeps.wrapSpiffsFileCounter_plumb
    | intro _)

theorem MotionDetected.body_weak (env : Env) (fuel changes : Nat) :
    Keeps Weak (MotionDetected.body env fuel changes) := by
  unfold MotionDetected.body
  repeat' (first
    | with_reducible apply Keeps.bind
    | with_reducible apply Keeps.ite
    | with_reducible exact Keeps.pure _
    | with_reducible exact checkCameraIsFree_keeps Weak_of_plumb Weak.setDetection _
    | with_reducible exact resumeDetection_keeps Weak.setDetection
    | with_reducible exact capturePhotoSaveSpiffs_weak _ _ _
    | with_reducible exact Keeps.weak_of_plumb (Keeps.resetTRIGGERtimer_plumb _)
    | (with_reducible refine Keeps.weak_of_plumb (Keeps.log_plumb _ ?_)) <;> rfl
    | intro _)

/-! ### The decision of the detection cycle -/

theorem isCandidate_iff (s : State) (changes : Nat) :
    isCandidate s changes = true
      ↔ s.Image_thresholdL ≤ changes ∧ changes ≤ s.Image_thresholdH := by
  simp [isCandidate]

theorem loopDecision_not_candidate (env : Env) (fuel changes : Nat) (s : State)
    (h : isCandidate s changes = false) : loopDecision env fuel changes s = .ok () s := by
  simp [loopDecision, M.bind, h]

theorem loopDecision_not_enough (env : Env) (fuel changes : Nat) (s : State)
    (h : isCandidate s changes = true) (hn : s.tCounter < s.tCounterTrigger) :
    loopDecision env fuel changes s
      = .ok () { s with trace := s.trace ++ [.log .notEnoughConsecutive] } := by
  simp [loopDecision, M.bind, h, Nat.not_le.mpr hn]

theorem loopDecision_too_soon (env : Env) (fuel changes : Nat) (s : State)
    (h : isCandidate s changes = true) (hn : s.tCounterTrigger ≤ s.tCounter)
    (hr : ¬ ratePermits env s) :
    loopDecision env fuel changes s
      = .ok () { atRateCheck env s with
          trace := s.trace ++ [.log .tooSoon] } := by
  simp only [ratePermits] at hr
  simp [loopDecision, M.bind, h, hn, millis, atRateCheck, hr]

theorem loopDecision_io_low (env : Env) (fuel changes : Nat) (s : State)
    (h : isCandidate s changes = true) (hn : s.tCounterTrigger ≤ s.tCounter)
    (hr : ratePermits env s) (hg : ¬ gatePermits s) :
    loopDecision env fuel changes s
      = .ok () { atGate env s with trace := s.trace ++ [.log .ioLowIgnored] } := by
  simp only [ratePermits] at hr
  simp only [gatePermits] at hg
  simp [loopDecision, M.bind, h, hn, millis, atGate, hr, hg, resetTRIGGERtimer]

theorem loopDecision_fires (env : Env) (fuel changes : Nat) (s : State)
    (h : isCandidate s changes = true) (hn : s.tCounterTrigger ≤ s.tCounter)
    (hr : ratePermits env s) (hg : gatePermits s) :
    loopDecision env fuel changes s
      = MotionDetected.body env fuel changes { atGate env s with
          trace := s.trace ++ [.MotionDetected changes (atGate env s).clock] } := by
  simp only [ratePermits] at hr
  simp only [gatePermits] at hg
  simp [loopDecision, M.bind, h, hn, millis, atGate, hr, hg, resetTRIGGERtimer,
    MotionDetected]

theorem loopCapture_plumb (env : Env) (fuel : Nat) : Keeps Plumb (loopCapture env fuel) := by
  unfold loopCapture
  repeat' (first
    | with_reducible apply Keeps.bind
    | with_reducible apply Keeps.ite
    | with_reducible exact Keeps.pure _
    | with_reducible exact Keeps.capture_still_plumb _
    | with_reducible exact RebootCamera_plumb _ _ _
    | intro _)

/-- One detection cycle with detection enabled: either the capture does not come back,
or the decision is taken on the value returned by `motion_detect`, cut to 16 bits, in the
state in which `motion_detect` returned. -/
theorem loopDetection_enabled (env : Env) (fuel : Nat) (s : State)
    (h1 : s.DetectionEnabled = 1) :
    (loopDetection env fuel s = loopCapture env fuel s ∧
      (loopCapture env fuel s).returned = false) ∨
    ∃ s1, loopCapture env fuel s = .ok () s1 ∧
      loopDetection env fuel s
        = loopDecision env fuel (env.changes s1.asked % 65536) (afterMotionDetect env s1) := by
  cases hc : loopCapture env fuel s with
  | ok a s1 =>
    right
    refine ⟨s1, rfl, ?_⟩
    simp [loopDetection, M.bind, h1, hc, motion_detect]
  | reboot s1 => left; simp [loopDetection, M.bind, h1, hc, Res.returned]
  | fault s1 => left; simp [loopDetection, M.bind, h1, hc, Res.returned]
  | unfinished s1 => left; simp [loopDetection, M.bind, h1, hc, Res.returned]

theorem loopDetection_disabled (env : Env) (fuel : Nat) (s : State)
    (h1 : s.DetectionEnabled ≠ 1) : loopDetection env fuel s = .ok () s := by
  simp [loopDetection, M.bind, h1]

theorem decisionMarks_append (a b : List Event) :
    decisionMarks (a ++ b) = decisionMarks a ++ decisionMarks b := by
  simp [decisionMarks]

/-- C3. In the decision of a detection tick a frame is treated as a candidate exactly
when `Image_thresholdL <= changes <= Image_thresholdH`: for a value above
`Image_thresholdH`, as for a value below `Image_thresholdL`, the decision returns at once
and leaves the whole state as it was (`MotionDetected` is not invoked, `tCounter` and
`TRIGGERtimer` are unchanged), whereas for a value inside the band the decision leaves a
new entry in the trace. -/
theorem loopDecision_band (env : Env) (fuel changes : Nat) (s : State) :
    (changes > s.Image_thresholdH → loopDecision env fuel changes s = .ok () s) ∧
    (changes < s.Image_thresholdL → loopDecision env fuel changes s = .ok () s) ∧
    ((s.Image_thresholdL ≤ changes ∧ changes ≤ s.Image_thresholdH)
      ↔ s.trace.length < (loopDecision env fuel changes s).state.trace.length) := by
  refine ⟨?_, ?_, ?_⟩
  · intro h
    apply loopDecision_not_candidate
    simp [isCandidate]; omega
  · intro h
    apply loopDecision_not_candidate
    simp [isCandidate]; omega
  · constructor
    · intro hband
      have hc : isCandidate s changes = true := (isCandidate_iff s changes).mpr hband
      by_cases hn : s.tCounterTrigger ≤ s.tCounter
      · by_cases hr : ratePermits env s
        · by_cases hg : gatePermits s
          · rw [loopDecision_fires env fuel changes s hc hn hr hg]
            have hw := MotionDetected.body_weak env fuel changes
              { atGate env s with
                trace := s.trace ++ [.MotionDetected changes (atGate env s).clock] }
            refine Nat.lt_of_lt_of_le ?_ hw.2.2.1
            simp
          · rw [loopDecision_io_low env fuel changes s hc hn hr hg]
            simp [Res.state]
        · rw [loopDecision_too_soon env fuel changes s hc hn hr]
          simp [Res.state]
      · rw [loopDecision_not_enough env fuel changes s hc (Nat.lt_of_not_le hn)]
        simp [Res.state]
    · intro hlt
      by_contra hband
      have hc : isCandidate s changes = false := by
        rw [← Bool.not_eq_true, isCandidate_iff]; exact hband
      rw [loopDecision_not_candidate env fuel changes s hc] at hlt
      simp [Res.state] at hlt

/-- What the decision records and what it leaves in `tCounter`, in each of its five
outcomes. -/
theorem loopDecision_marks (env : Env) (fuel changes : Nat) (s : State) :
    (isCandidate s changes = false ∧
      decisionMarks (loopDecision env fuel changes s).state.trace = decisionMarks s.trace ∧
      (loopDecision env fuel changes s).state.tCounter = s.tCounter) ∨
    (isCandidate s changes = true ∧ s.tCounter < s.tCounterTrigger ∧
      decisionMarks (loopDecision env fuel changes s).state.trace
        = decisionMarks s.trace ++ [.log .notEnoughConsecutive] ∧
      (loopDecision env fuel changes s).state.tCounter = s.tCounter) ∨
    (isCandidate s changes = true ∧ s.tCounterTrigger ≤ s.tCounter ∧ ¬ ratePermits env s ∧
      decisionMarks (loopDecision env fuel changes s).state.trace
        = decisionMarks s.trace ++ [.log .tooSoon] ∧
      (loopDecision env fuel changes s).state.tCounter = 0) ∨
    (isCandidate s changes = true ∧ s.tCounterTrigger ≤ s.tCounter ∧ ratePermits env s ∧
      ¬ gatePermits s ∧
      decisionMarks (loopDecision env fuel changes s).state.trace
        = decisionMarks s.trace ++ [.log .ioLowIgnored] ∧
      (loopDecision env fuel changes s).state.tCounter = 0) ∨
    (isCandidate s changes = true ∧ s.tCounterTrigger ≤ s.tCounter ∧ ratePermits env s ∧
      gatePermits s ∧
      decisionMarks (loopDecision env fuel changes s).state.trace
        = decisionMarks s.trace ++ [.MotionDetected changes (atGate env s).clock] ∧
      (loopDecision env fuel changes s).state.tCounter = 0) := by
  cases hc : isCandidate s changes with
  | false =>
    left
    rw [loopDecision_not_candidate env fuel changes s hc]
    simp [Res.state]
  | true =>
    right
    by_cases hn : s.tCounterTrigger ≤ s.tCounter
    · right
      by_cases hr : ratePermits env s
      · right
        by_cases hg : gatePermits s
        · right
          rw [loopDecision_fires env fuel changes s hc hn hr hg]
          have hw := MotionDetected.body_weak env fuel changes
            { atGate env s with
              trace := s.trace ++ [.MotionDetected changes (atGate env s).clock] }
          refine ⟨rfl, hn, hr, hg, ?_, ?_⟩
          · refine Eq.trans hw.2.2.2.2.2.2.2.2.2.2 ?_
            simp [decisionMarks_append, decisionMarks, isDecisionMark, atGate]
          · refine Eq.trans hw.2.2.2.1 ?_
            simp [atGate]
        · left
          rw [loopDecision_io_low env fuel changes s hc hn hr hg]
          simp [Res.state, hn, hr, hg, decisionMarks_append, decisionMarks, isDecisionMark,
            atGate]
      · left
        rw [loopDecision_too_soon env fuel changes s hc hn hr]
        simp [Res.state, hn, hr, decisionMarks_append, decisionMarks, isDecisionMark,
          atRateCheck]
    · left
      rw [loopDecision_not_enough env fuel changes s hc (Nat.lt_of_not_le hn)]
      simp [Res.state, Nat.lt_of_not_le hn, decisionMarks_append, decisionMarks,
        isDecisionMark]

theorem decisionMarks_afterMotionDetect (env : Env) (s : State) :
    decisionMarks (afterMotionDetect env s).trace
      = decisionMarks s.trace
        ++ [.motion_detect (env.changes s.asked) (env.tCounterAfter s.asked s.tCounter)] := by
  simp [afterMotionDetect, decisionMarks_append, decisionMarks, isDecisionMark]

/-- C4. In every tick in which the detection cycle invokes `MotionDetected(c)`, the cycle
recorded exactly one call of `motion_detect` followed by that invocation, `tCounter` was at
least `tCounterTrigger` when `motion_detect` had returned (the moment the frame is
evaluated), the argument `c` is the value returned by `motion_detect` as stored in the
`uint16_t` (the returned value itself whenever it is below 65536), and `tCounter` is 0 when
the tick ends. -/
theorem MotionDetected_invocation (env : Env) (fuel : Nat) (s : State) (c t : Nat) :
    Event.MotionDetected c t
        ∈ (decisionMarks (loopDetection env fuel s).state.trace).drop
            (decisionMarks s.trace).length →
    ∃ v counter,
      decisionMarks (loopDetection env fuel s).state.trace
        = decisionMarks s.trace ++ [.motion_detect v counter, .MotionDetected c t] ∧
      s.tCounterTrigger ≤ counter ∧ c = v % 65536 ∧ (v < 65536 → c = v) ∧
      (loopDetection env fuel s).state.tCounter = 0 := by
  intro hmem
  by_cases h1 : s.DetectionEnabled = 1
  · rcases loopDetection_enabled env fuel s h1 with ⟨heq, -⟩ | ⟨s1, hcap, heq⟩
    · exfalso
      rw [heq] at hmem
      have hp := (loopCapture_plumb env fuel s).1.2.2.2.2.2.2.2.2.2.2
      rw [hp] at hmem
      simp at hmem
    · have hp : Plumb s s1 := by
        have := loopCapture_plumb env fuel s
        rw [hcap] at this
        exact this
      have hm1 : decisionMarks s1.trace = decisionMarks s.trace := hp.1.2.2.2.2.2.2.2.2.2.2
      have hn1 : s1.tCounterTrigger = s.tCounterTrigger := hp.1.2.2.2.2.1
      rw [heq] at hmem ⊢
      have hm2 := decisionMarks_afterMotionDetect env s1
      rw [hm1] at hm2
      have hmarks := loopDecision_marks env fuel (env.changes s1.asked % 65536)
        (afterMotionDetect env s1)
      rcases hmarks with ⟨-, hm, -⟩ | ⟨-, -, hm, -⟩ | ⟨-, -, -, hm, -⟩ | ⟨-, -, -, -, hm, -⟩
          | ⟨-, hn, -, -, hm, h0⟩
      · rw [hm, hm2] at hmem
        simp at hmem
      · rw [hm, hm2] at hmem
        simp at hmem
      · rw [hm, hm2] at hmem
        simp at hmem
      · rw [hm, hm2] at hmem
        simp at hmem
      · rw [hm, hm2] at hmem ⊢
        simp at hmem
        obtain ⟨hc, ht⟩ := hmem
        refine ⟨env.changes s1.asked, env.tCounterAfter s1.asked s1.tCounter, ?_, ?_, hc, ?_,
          h0⟩
        · simp [hc, ht]
        · simpa [afterMotionDetect, hn1] using hn
        · intro hlt
          rw [hc]
          exact Nat.mod_eq_of_lt hlt
  · exfalso
    rw [loopDetection_disabled env fuel s h1] at hmem
    simp [Res.state] at hmem

/-! ### The trigger rate limit -/

theorem motionTimes_append (a b : List Event) :
    motionTimes (a ++ b) = motionTimes a ++ motionTimes b := by
  simp [motionTimes]

theorem motionTimes_decisionMarks (t : List Event) :
    motionTimes (decisionMarks t) = motionTimes t := by
  induction t with
  | nil => rfl
  | cons e rest ih =>
    cases e <;>
      simp_all [motionTimes, decisionMarks, List.filter_cons, List.filterMap_cons,
        isDecisionMark]
    case log m =>
      cases m <;> simp_all [isDecisionMark]

/-- The elapsed time computed by the 32-bit subtraction never exceeds the time that really
passed since the reading stored in the timer. -/
theorem sinceTrigger_le (c τ : Nat) (h : τ ≤ c) : sinceTrigger (c % U32) (τ % U32) ≤ c - τ := by
  simp only [sinceTrigger, U32]
  omega

theorem RateInv.of_weak {T : Nat} {s s' : State} (hw : Weak s s') (h : RateInv T s) :
    RateInv T s' := by
  obtain ⟨hT, hpair, htimer⟩ := h
  obtain ⟨hclock, ht, -, -, -, -, -, hlimit, -, -, hmarks⟩ := hw
  have hm : motionTimes s'.trace = motionTimes s.trace := by
    rw [← motionTimes_decisionMarks s'.trace, hmarks, motionTimes_decisionMarks]
  refine ⟨hlimit.trans hT, by rw [hm]; exact hpair, ?_⟩
  intro t hmem
  rw [hm] at hmem
  obtain ⟨τ, h1, h2, h3⟩ := htimer t hmem
  rcases ht with hsame | ⟨τ', h1', h2', h3'⟩
  · exact ⟨τ, h1, le_trans h2 hclock, hsame.trans h3⟩
  · exact ⟨τ', le_trans h1 (le_trans h2 h1'), h2', h3'⟩

/-- The rate invariant survives a step that leaves the clock, the timer, the limit and the
recorded invocations alone. -/
theorem RateInv.of_same {T : Nat} {s s' : State} (h : RateInv T s)
    (hT : s'.TriggerLimitTime = s.TriggerLimitTime) (hc : s.clock ≤ s'.clock)
    (ht : s'.TRIGGERtimer = s.TRIGGERtimer)
    (hm : motionTimes s'.trace = motionTimes s.trace) : RateInv T s' := by
  obtain ⟨hT0, hpair, htimer⟩ := h
  refine ⟨hT.trans hT0, by rw [hm]; exact hpair, ?_⟩
  intro t hmem
  rw [hm] at hmem
  obtain ⟨τ, h1, h2, h3⟩ := htimer t hmem
  exact ⟨τ, h1, le_trans h2 hc, ht.trans h3⟩

theorem RateInv.after_loopDecision (env : Env) (fuel changes T : Nat) (s : State)
    (h : RateInv T s) : RateInv T (loopDecision env fuel changes s).state := by
  cases hc : isCandidate s changes with
  | false =>
    rw [loopDecision_not_candidate env fuel changes s hc]
    exact h
  | true =>
    by_cases hn : s.tCounterTrigger ≤ s.tCounter
    · by_cases hr : ratePermits env s
      · have hgate : RateInv T (atGate env s) ∧
            ∀ t ∈ motionTimes s.trace, t + T * 1000 ≤ (atGate env s).clock := by
          obtain ⟨hT, hpair, htimer⟩ := h
          refine ⟨⟨hT, hpair, ?_⟩, ?_⟩
          · intro t hmem
            obtain ⟨τ, h1, h2, -⟩ := htimer t hmem
            refine ⟨(atGate env s).clock, ?_, le_refl _, rfl⟩
            simp only [atGate]
            omega
          · intro t hmem
            obtain ⟨τ, h1, h2, h3⟩ := htimer t hmem
            have hle := sinceTrigger_le (s.clock + env.elapsed s.asked) τ (by omega)
            simp only [ratePermits, h3, hT] at hr
            simp only [atGate]
            omega
        by_cases hg : gatePermits s
        · rw [loopDecision_fires env fuel changes s hc hn hr hg]
          refine RateInv.of_weak (MotionDetected.body_weak env fuel changes _) ?_
          obtain ⟨⟨hT, hpair, htimer⟩, hfar⟩ := hgate
          refine ⟨hT, ?_, ?_⟩
          · simp only [motionTimes_append]
            rw [List.pairwise_append]
            refine ⟨hpair, by simp [motionTimes], ?_⟩
            intro a ha b hb
            simp [motionTimes] at hb
            rw [hb]
            exact hfar a ha
          · intro t hmem
            refine ⟨(atGate env s).clock, ?_, le_refl _, rfl⟩
            simp only [motionTimes_append, List.mem_append] at hmem
            rcases hmem with hmem | hmem
            · have := hfar t hmem
              omega
            · simp [motionTimes] at hmem
              omega
        · rw [loopDecision_io_low env fuel changes s hc hn hr hg]
          obtain ⟨hT, hpair, htimer⟩ := hgate.1
          refine ⟨hT, ?_, ?_⟩
          · simpa [Res.state, motionTimes_append, motionTimes] using hpair
          · intro t hmem
            have hmem' : t ∈ motionTimes s.trace := by
              simpa [Res.state, motionTimes_append, motionTimes] using hmem
            exact htimer t hmem'
      · rw [loopDecision_too_soon env fuel changes s hc hn hr]
        refine RateInv.of_same h rfl ?_ rfl ?_
        · simp [Res.state, atRateCheck]
        · simp [Res.state, motionTimes_append, motionTimes]
    · rw [loopDecision_not_enough env fuel changes s hc (Nat.lt_of_not_le hn)]
      refine RateInv.of_same h rfl (le_refl _) rfl ?_
      simp [Res.state, motionTimes_append, motionTimes]

theorem RateInv.after_loopDetection (env : Env) (fuel T : Nat) (s : State) (h : RateInv T s) :
    RateInv T (loopDetection env fuel s).state := by
  by_cases h1 : s.DetectionEnabled = 1
  · rcases loopDetection_enabled env fuel s h1 with ⟨heq, -⟩ | ⟨s1, hcap, heq⟩
    · rw [heq]
      exact RateInv.of_weak (loopCapture_plumb env fuel s).1 h
    · have hp : Plumb s s1 := by
        have := loopCapture_plumb env fuel s
        rw [hcap] at this
        exact this
      rw [heq]
      apply RateInv.after_loopDecision
      refine RateInv.of_same (RateInv.of_weak hp.1 h) rfl (le_refl _) rfl ?_
      simp [afterMotionDetect, motionTimes_append, motionTimes]
  · rw [loopDetection_disabled env fuel s h1]
    exact h

theorem RateInv.after_interleave (env : Env) (i : Interleave) (T : Nat) (s : State)
    (h : RateInv T s) : RateInv T (interleave env i s).state := by
  have hreset : RateInv T (resetTRIGGERtimer env s).state :=
    RateInv.of_weak (Keeps.resetTRIGGERtimer_plumb env s).1 h
  cases hw : i.writesTimer with
  | false =>
    simp only [interleave, hw, bind_apply, M.bind, pure_apply, modifyState_apply, Res.state,
      Bool.false_eq_true, ↓reduceIte]
    exact RateInv.of_same h rfl (le_refl _) rfl rfl
  | true =>
    simp only [interleave, hw, bind_apply, M.bind, ↓reduceIte]
    simp only [resetTRIGGERtimer, millis, bind_apply, M.bind, modifyState_apply,
      Res.state] at hreset ⊢
    exact RateInv.of_same hreset rfl (le_refl _) rfl rfl

/-- A property of the state that holds however the first procedure ends, and that the
second keeps, holds however their sequence ends. -/
theorem state_bind_of {α β : Type} {I : State → Prop} (m : M α) (f : α → M β) (s : State)
    (h1 : I (m s).state) (h2 : ∀ a s1, I s1 → I (f a s1).state) :
    I ((m >>= f) s).state := by
  simp only [bind_apply, M.bind]
  cases hm : m s with
  | ok a s1 => rw [hm] at h1; exact h2 a s1 h1
  | reboot s1 => rw [hm] at h1; exact h1
  | fault s1 => rw [hm] at h1; exact h1
  | unfinished s1 => rw [hm] at h1; exact h1

theorem RateInv.after_detectionTicks (env : Env) (fuel T : Nat) (ticks : List Interleave)
    (s : State) (h : RateInv T s) : RateInv T (detectionTicks env fuel ticks s).state := by
  induction ticks generalizing s with
  | nil => exact h
  | cons i rest ih =>
    unfold detectionTicks
    refine state_bind_of _ _ s (RateInv.after_interleave env i T s h) (fun _ s1 h1 => ?_)
    exact state_bind_of _ _ s1 (RateInv.after_loopDetection env fuel T s1 h1)
      (fun _ s2 h2 => ih s2 h2)

/-- C1. Run any sequence of ticks of `loop` (each a detection cycle preceded by whatever
the rest of the firmware does to the timer and the detection settings) with a constant
`TriggerLimitTime = T`, for any answers of the environment: any changed-block counts, any
counter values, any amounts of time passing. Then any two invocations of `MotionDetected`
are at least `T * 1000` ms apart on the real clock. The clock of the embedding only moves
forward; no bound on the time between ticks is needed. -/
theorem trigger_rate_limit (env : Env) (fuel : Nat) (ticks : List Interleave) (s : State)
    (h0 : motionTimes s.trace = []) :
    (motionTimes (detectionTicks env fuel ticks s).state.trace).Pairwise
      (fun a b => a + s.TriggerLimitTime * 1000 ≤ b) := by
  have hinv : RateInv s.TriggerLimitTime s := by
    refine ⟨rfl, by simp [h0], ?_⟩
    intro t ht
    simp [h0] at ht
  exact (RateInv.after_detectionTicks env fuel s.TriggerLimitTime ticks s hinv).2.1

/-! ### Camera recovery -/

theorem setupAttempts_append (a b : List Event) :
    setupAttempts (a ++ b) = setupAttempts a + setupAttempts b := by
  simp [setupAttempts]

/-- When the mode switch it calls never ends, `RebootCamera` never ends either and makes
no initialisation attempt of its own. -/
theorem RebootCameraWith_unfinished (env : Env) (restart : pixformat_t → M Unit)
    (format : pixformat_t) (k : Nat)
    (h : ∀ s0, ∃ s', restart .PIXFORMAT_GRAYSCALE s0 = .unfinished s' ∧
      setupAttempts s'.trace = setupAttempts s0.trace + k) (s : State) :
    ∃ s', RebootCameraWith env restart format s = .unfinished s' ∧
      setupAttempts s'.trace = setupAttempts s.trace + k := by
  obtain ⟨s', h1, h2⟩ := h { s with
    clock := s.clock + 200 + 400
    trace := s.trace ++ [.log .cameraProblemReset] ++ [.powerDown true] ++ [.delay 200]
      ++ [.powerDown false] ++ [.delay 400] }
  refine ⟨s', ?_, ?_⟩
  · simp only [RebootCameraWith, bind_apply, M.bind, log_system_message_apply, emit_apply,
      delay_apply, h1]
  · rw [h2]
    simp [setupAttempts]

/-- C8, at the failing input. With a camera driver that never initialises, whatever else
the environment answers, `RestartCamera` is still running when any step budget `fuel` is
used up: it neither returns nor reaches `ESP.restart()`, and by then it has made
`2 * fuel` initialisation attempts, so their number has no bound. -/
theorem RestartCamera_dead_camera_never_ends (env : Env) (fuel : Nat) (format : pixformat_t)
    (s : State) :
    ∃ s', RestartCamera (deadCamera env) fuel format s = .unfinished s' ∧
      setupAttempts s'.trace = setupAttempts s.trace + 2 * fuel := by
  induction fuel generalizing format s with
  | zero => exact ⟨s, rfl, by simp⟩
  | succ n ih =>
    obtain ⟨s', h1, h2⟩ := RebootCameraWith_unfinished (deadCamera env)
      (RestartCamera (deadCamera env) n) format (2 * n)
      (fun s0 => ih .PIXFORMAT_GRAYSCALE s0)
      { s with
        asked := s.asked + 1 + 1
        clock := s.clock + 50
        trace := s.trace ++ [.RestartCamera format] ++ [.deinit]
          ++ [.setupCameraHardware format false] ++ [.deinit] ++ [.delay 50]
          ++ [.setupCameraHardware format false] ++ [.log .cameraFailedRestart] }
    refine ⟨s', ?_, ?_⟩
    · simp only [RestartCamera, bind_apply, M.bind, log_system_message_apply, emit_apply,
        delay_apply, setupCameraHardware, deadCamera, Bool.false_eq_true, ↓reduceIte]
      simp only [deadCamera] at h1
      rw [h1]
    · rw [h2]
      simp [setupAttempts]
      omega

/-! ### DetectionEnabled across the exclusive operations -/

theorem Post_pure {α : Type} (a : α) (P : State → Prop) : Post (pure a : M α) P P := by
  intro s hs b s' h
  simp only [pure_apply, Res.ok.injEq] at h
  exact h.2 ▸ hs

theorem Post_bind {α β : Type} {m : M α} {f : α → M β} {P Q R : State → Prop}
    (h1 : Post m P Q) (h2 : ∀ a, Post (f a) Q R) : Post (m >>= f) P R := by
  intro s hs b s' h
  simp only [bind_apply, M.bind] at h
  cases hm : m s with
  | ok a s1 =>
    rw [hm] at h
    exact h2 a s1 (h1 s hs a s1 hm) b s' h
  | reboot s1 => rw [hm] at h; cases h
  | fault s1 => rw [hm] at h; cases h
  | unfinished s1 => rw [hm] at h; cases h

theorem Post_ite {α : Type} {c : Prop} [Decidable c] {a b : M α} {P Q : State → Prop}
    (ha : Post a P Q) (hb : Post b P Q) : Post (if c then a else b) P Q := by
  split <;> assumption

theorem Post_getState (P : State → Prop) : Post getState P P := by
  intro s hs b s' h
  simp only [getState_apply, Res.ok.injEq] at h
  exact h.2 ▸ hs

theorem Post_of_plumb {α : Type} {m : M α} (h : Keeps Plumb m) (d : Nat) :
    Post m (DetectionIs d) (DetectionIs d) := by
  intro s hs b s' hm
  have := (h s).2.1
  rw [hm] at this
  exact this.trans hs

theorem Post.of_quiet {α : Type} {m : M α} (h : Keeps Quiet m) (d : Nat) :
    Post m (DetectionIs d) (DetectionIs d) := by
  intro s hs b s' hm
  have := (h s).2
  rw [hm] at this
  exact this.trans hs

theorem checkCameraIsFree_idle (env : Env) (s : State) (hne : s.DetectionEnabled ≠ 2) :
    checkCameraIsFree env s = .ok true s := by
  simp [checkCameraIsFree, M.bind, hne]

theorem Post.checkCameraIsFree (env : Env) (d : Nat) (hd : d ≠ 2) :
    Post (checkCameraIsFree env) (DetectionIs d) (DetectionIs d) := by
  intro s hs b s' hm
  have hne : s.DetectionEnabled ≠ 2 := by rw [hs]; exact hd
  rw [checkCameraIsFree_idle env s hne] at hm
  simp only [Res.ok.injEq] at hm
  exact hm.2 ▸ hs

theorem Post.pauseDetection_enabled :
    Post pauseDetection (DetectionIs 1) (DetectionIs 2) := by
  intro s hs b s' hm
  simp only [DetectionIs] at hs
  simp only [pauseDetection, modifyState_apply, hs, ↓reduceIte, Res.ok.injEq] at hm
  rw [← hm.2]
  rfl

theorem Post.pauseDetection_other (d : Nat) (hd : d ≠ 1) :
    Post pauseDetection (DetectionIs d) (DetectionIs d) := by
  intro s hs b s' hm
  have hne : s.DetectionEnabled ≠ 1 := by rw [hs]; exact hd
  simp only [pauseDetection, modifyState_apply, hne, ↓reduceIte, Res.ok.injEq] at hm
  exact hm.2 ▸ hs

theorem Post.resumeDetection_paused :
    Post resumeDetection (DetectionIs 2) (DetectionIs 1) := by
  intro s hs b s' hm
  simp only [DetectionIs] at hs
  simp only [resumeDetection, modifyState_apply, hs, ↓reduceIte, Res.ok.injEq] at hm
  rw [← hm.2]
  rfl

theorem Post.resumeDetection_other (d : Nat) (hd : d ≠ 2) :
    Post resumeDetection (DetectionIs d) (DetectionIs d) := by
  intro s hs b s' hm
  have hne : s.DetectionEnabled ≠ 2 := by rw [hs]; exact hd
  simp only [resumeDetection, modifyState_apply, hne, ↓reduceIte, Res.ok.injEq] at hm
  exact hm.2 ▸ hs

theorem Keeps.setReqLEDStatus_plumb (b : Bool) :
    Keeps Plumb (modifyState fun s => { s with ReqLEDStatus := b }) := by
  intro s
  simp [Res.state, Plumb, Weak, SameDetection, SamePhotos]

theorem handleStream_loop_plumb (env : Env) (stop fuel : Nat) :
    Keeps Plumb (handleStream.loop env stop fuel) := by
  induction fuel with
  | zero => exact Keeps.outOfFuel
  | succ n ih =>
    unfold handleStream.loop
    repeat' (first
      | with_reducible apply Keeps.bind
      | with_reducible apply Keeps.ite
      | with_reducible exact Keeps.pure _
      | with_reducible exact ih
      | with_reducible exact Keeps.fault
      | with_reducible exact Keeps.millis_plumb _
      | with_reducible exact Keeps.ask_plumb _
      | with_reducible exact Keeps.esp_camera_fb_get_plumb _
      | (with_reducible refine Keeps.emit_plumb _ ?_ ?_) <;> rfl
      | intro _)

theorem Post.capturePhotoSaveSpiffs_disabled (env : Env) (fuel : Nat) (dostream : Bool) :
    Post (capturePhotoSaveSpiffs env fuel dostream) (DetectionIs 0) (DetectionIs 0) := by
  unfold capturePhotoSaveSpiffs
  repeat' (first
    | with_reducible apply Post_bind
    | with_reducible apply Post_ite
    | with_reducible exact Post_pure _ _
    | (with_reducible refine Post.checkCameraIsFree _ _ ?_) <;> decide
    | (with_reducible refine Post.pauseDetection_other _ ?_) <;> decide
    | (with_reducible refine Post.resumeDetection_other _ ?_) <;> decide
    | with_reducible exact Post.of_quiet (capturePhotoSaveSpiffs.loop_quiet _ _ _ _) _
    | with_reducible exact Post_of_plumb (RestartCamera_plumb _ _ _) _
    | with_reducible exact Post_of_plumb (saveGreyscaleFrame_plumb _) _
    | with_reducible exact Post_of_plumb (Keeps.resetTRIGGERtimer_plumb _) _
    | (with_reducible refine Post_of_plumb (Keeps.log_plumb _ ?_) _) <;> rfl
    | with_reducible exact Post_of_plumb (Keeps.setSpiffsFileCounter_plumb _) _
    | with_reducible exact Post_of_plumb Keeps.wrapSpiffsFileCounter_plumb _
    | intro _)

theorem Post.capturePhotoSaveSpiffs_enabled (env : Env) (fuel : Nat) (dostream : Bool) :
    Post (capturePhotoSaveSpiffs env fuel dostream) (DetectionIs 1) (DetectionIs 1) := by
  unfold capturePhotoSaveSpiffs
  repeat' (first
    | with_reducible apply Post_bind
    | with_reducible apply Post_ite
    | with_reducible exact Post_pure _ _
    | (with_reducible refine Post.checkCameraIsFree _ _ ?_) <;> decide
    | with_reducible exact Post.pauseDetection_enabled
    | with_reducible exact Post.resumeDetection_paused
    | with_reducible exact Post.of_quiet (capturePhotoSaveSpiffs.loop_quiet _ _ _ _) _
    | with_reducible exact Post_of_plumb (RestartCamera_plumb _ _ _) _
    | with_reducible exact Post_of_plumb (saveGreyscaleFrame_plumb _) _
    | with_reducible exact Post_of_plumb (Keeps.resetTRIGGERtimer_plumb _) _
    | (with_reducible refine Post_of_plumb (Keeps.log_plumb _ ?_) _) <;> rfl
    | with_reducible exact Post_of_plumb (Keeps.setSpiffsFileCounter_plumb _) _
    | with_reducible exact Post_of_plumb Keeps.wrapSpiffsFileCounter_plumb _
    | intro _)

theorem Post.handleStream_disabled (env : Env) (fuel : Nat) :
    Post (handleStream env fuel) (DetectionIs 0) (DetectionIs 0) := by
  unfold handleStream
  repeat' (first
    | with_reducible apply Post_bind
    | with_reducible apply Post_ite
    | with_reducible exact Post_pure _ _
    | (with_reducible refine Post.checkCameraIsFree _ _ ?_) <;> decide
    | (with_reducible refine Post.pauseDetection_other _ ?_) <;> decide
    | (with_reducible refine Post.resumeDetection_other _ ?_) <;> decide
    | with_reducible exact Post_of_plumb (RestartCamera_plumb _ _ _) _
    | with_reducible exact Post_of_plumb (handleStream_loop_plumb _ _ _) _
    | with_reducible exact Post_of_plumb (Keeps.millis_plumb _) _
    | with_reducible exact Post_of_plumb (Keeps.delay_plumb _) _
    | with_reducible exact Post_of_plumb (Keeps.resetTRIGGERtimer_plumb _) _
    | (with_reducible refine Post_of_plumb (Keeps.log_plumb _ ?_) _) <;> rfl
    | intro _)

theorem Post.handleStream_enabled (env : Env) (fuel : Nat) :
    Post (handleStream env fuel) (DetectionIs 1) (DetectionIs 1) := by
  unfold handleStream
  repeat' (first
    | with_reducible apply Post_bind
    | with_reducible apply Post_ite
    | with_reducible exact Post_pure _ _
    | (with_reducible refine Post.checkCameraIsFree _ _ ?_) <;> decide
    | with_reducible exact Post.pauseDetection_enabled
    | with_reducible exact Post.resumeDetection_paused
    | with_reducible exact Post_of_plumb (RestartCamera_plumb _ _ _) _
    | with_reducible exact Post_of_plumb (handleStream_loop_plumb _ _ _) _
    | with_reducible exact Post_of_plumb (Keeps.millis_plumb _) _
    | with_reducible exact Post_of_plumb (Keeps.delay_plumb _) _
    | with_reducible exact Post_of_plumb (Keeps.resetTRIGGERtimer_plumb _) _
    | (with_reducible refine Post_of_plumb (Keeps.log_plumb _ ?_) _) <;> rfl
    | intro _)

theorem Post.handleStrPst_disabled (env : Env) (fuel : Nat) :
    Post (handleStrPst env fuel) (DetectionIs 0) (DetectionIs 0) := by
  unfold handleStrPst
  repeat' (first
    | with_reducible apply Post_bind
    | with_reducible apply Post_ite
    | with_reducible exact Post_pure _ _
    | (with_reducible refine Post.checkCameraIsFree _ _ ?_) <;> decide
    | (with_reducible refine Post.pauseDetection_other _ ?_) <;> decide
    | (with_reducible refine Post.resumeDetection_other _ ?_) <;> decide
    | with_reducible exact Post_of_plumb (RestartCamera_plumb _ _ _) _
    | with_reducible exact Post_of_plumb (sendStream_plumb _ _) _
    | with_reducible exact Post_of_plumb (Keeps.resetTRIGGERtimer_plumb _) _
    | (with_reducible refine Post_of_plumb (Keeps.log_plumb _ ?_) _) <;> rfl
    | intro _)

theorem Post.handleStrPst_enabled (env : Env) (fuel : Nat) :
    Post (handleStrPst env fuel) (DetectionIs 1) (DetectionIs 1) := by
  unfold handleStrPst
  repeat' (first
    | with_reducible apply Post_bind
    | with_reducible apply Post_ite
    | with_reducible exact Post_pure _ _
    | (with_reducible refine Post.checkCameraIsFree _ _ ?_) <;> decide
    | with_reducible exact Post.pauseDetection_enabled
    | with_reducible exact Post.resumeDetection_paused
    | with_reducible exact Post_of_plumb (RestartCamera_plumb _ _ _) _
    | with_reducible exact Post_of_plumb (sendStream_plumb _ _) _
    | with_reducible exact Post_of_plumb (Keeps.resetTRIGGERtimer_plumb _) _
    | (with_reducible refine Post_of_plumb (Keeps.log_plumb _ ?_) _) <;> rfl
    | intro _)

theorem Post.handleJPG_disabled (env : Env) :
    Post (handleJPG env) (DetectionIs 0) (DetectionIs 0) := by
  unfold handleJPG
  repeat' (first
    | with_reducible apply Post_bind
    | with_reducible apply Post_ite
    | with_reducible exact Post_pure _ _
    | (with_reducible refine Post.checkCameraIsFree _ _ ?_) <;> decide
    | with_reducible exact Post_of_plumb (Keeps.esp_camera_fb_get_plumb _) _
    | with_reducible exact Post_of_plumb (Keeps.ask_plumb _) _
    | with_reducible exact Post_of_plumb (Keeps.delay_plumb _) _
    | (with_reducible refine Post_of_plumb (Keeps.emit_plumb _ ?_ ?_) _) <;> rfl
    | with_reducible exact Post_of_plumb (Keeps.resetTRIGGERtimer_plumb _) _
    | (with_reducible refine Post_of_plumb (Keeps.log_plumb _ ?_) _) <;> rfl
    | intro _)

theorem Post.handleJPG_enabled (env : Env) :
    Post (handleJPG env) (DetectionIs 1) (DetectionIs 1) := by
  unfold handleJPG
  repeat' (first
    | with_reducible apply Post_bind
    | with_reducible apply Post_ite
    | with_reducible exact Post_pure _ _
    | (with_reducible refine Post.checkCameraIsFree _ _ ?_) <;> decide
    | with_reducible exact Post_of_plumb (Keeps.esp_camera_fb_get_plumb _) _
    | with_reducible exact Post_of_plumb (Keeps.ask_plumb _) _
    | with_reducible exact Post_of_plumb (Keeps.delay_plumb _) _
    | (with_reducible refine Post_of_plumb (Keeps.emit_plumb _ ?_ ?_) _) <;> rfl
    | with_reducible exact Post_of_plumb (Keeps.resetTRIGGERtimer_plumb _) _
    | (with_reducible refine Post_of_plumb (Keeps.log_plumb _ ?_) _) <;> rfl
    | intro _)

theorem Post.ioDetected_disabled (env : Env) (iostat : Bool) :
    Post (ioDetected env iostat) (DetectionIs 0) (DetectionIs 0) := by
  unfold ioDetected
  repeat' (first
    | with_reducible apply Post_bind
    | with_reducible apply Post_ite
    | with_reducible exact Post_pure _ _
    | (with_reducible refine Post.checkCameraIsFree _ _ ?_) <;> decide
    | (with_reducible refine Post.pauseDetection_other _ ?_) <;> decide
    | (with_reducible refine Post.resumeDetection_other _ ?_) <;> decide
    | with_reducible exact Post_of_plumb (Keeps.resetTRIGGERtimer_plumb _) _
    | (with_reducible refine Post_of_plumb (Keeps.log_plumb _ ?_) _) <;> rfl
    | intro _)

theorem Post.ioDetected_enabled (env : Env) (iostat : Bool) :
    Post (ioDetected env iostat) (DetectionIs 1) (DetectionIs 1) := by
  unfold ioDetected
  repeat' (first
    | with_reducible apply Post_bind
    | with_reducible apply Post_ite
    | with_reducible exact Post_pure _ _
    | (with_reducible refine Post.checkCameraIsFree _ _ ?_) <;> decide
    | with_reducible exact Post.pauseDetection_enabled
    | with_reducible exact Post.resumeDetection_paused
    | with_reducible exact Post_of_plumb (Keeps.resetTRIGGERtimer_plumb _) _
    | (with_reducible refine Post_of_plumb (Keeps.log_plumb _ ?_) _) <;> rfl
    | intro _)

theorem Post.illuminatorButton_disabled (env : Env) :
    Post (illuminatorButton env) (DetectionIs 0) (DetectionIs 0) := by
  unfold illuminatorButton
  repeat' (first
    | with_reducible apply Post_bind
    | with_reducible apply Post_ite
    | with_reducible exact Post_pure _ _
    | (with_reducible refine Post.checkCameraIsFree _ _ ?_) <;> decide
    | (with_reducible refine Post.pauseDetection_other _ ?_) <;> decide
    | (with_reducible refine Post.resumeDetection_other _ ?_) <;> decide
    | with_reducible exact Post_getState _
    | with_reducible exact Post_of_plumb (Keeps.setReqLEDStatus_plumb _) _
    | (with_reducible refine Post_of_plumb (Keeps.emit_plumb _ ?_ ?_) _) <;> rfl
    | with_reducible exact Post_of_plumb (Keeps.resetTRIGGERtimer_plumb _) _
    | (with_reducible refine Post_of_plumb (Keeps.log_plumb _ ?_) _) <;> rfl
    | intro _)

theorem Post.illuminatorButton_enabled (env : Env) :
    Post (illuminatorButton env) (DetectionIs 1) (DetectionIs 1) := by
  unfold illuminatorButton
  repeat' (first
    | with_reducible apply Post_bind
    | with_reducible apply Post_ite
    | with_reducible exact Post_pure _ _
    | (with_reducible refine Post.checkCameraIsFree _ _ ?_) <;> decide
    | with_reducible exact Post.pauseDetection_enabled
    | with_reducible exact Post.resumeDetection_paused
    | with_reducible exact Post_getState _
    | with_reducible exact Post_of_plumb (Keeps.setReqLEDStatus_plumb _) _
    | (with_reducible refine Post_of_plumb (Keeps.emit_plumb _ ?_ ?_) _) <;> rfl
    | with_reducible exact Post_of_plumb (Keeps.resetTRIGGERtimer_plumb _) _
    | (with_reducible refine Post_of_plumb (Keeps.log_plumb _ ?_) _) <;> rfl
    | intro _)

theorem Post.MotionDetected_body_disabled (env : Env) (fuel changes : Nat) :
    Post (MotionDetected.body env fuel changes) (DetectionIs 0) (DetectionIs 0) := by
  unfold MotionDetected.body
  repeat' (first
    | with_reducible apply Post_bind
    | with_reducible apply Post_ite
    | with_reducible exact Post_pure _ _
    | (with_reducible refine Post.checkCameraIsFree _ _ ?_) <;> decide
    | (with_reducible refine Post.resumeDetection_other _ ?_) <;> decide
    | with_reducible exact Post.capturePhotoSaveSpiffs_disabled _ _ _
    | with_reducible exact Post_of_plumb (Keeps.resetTRIGGERtimer_plumb _) _
    | (with_reducible refine Post_of_plumb (Keeps.log_plumb _ ?_) _) <;> rfl
    | intro _)

theorem Post.MotionDetected_body_enabled (env : Env) (fuel changes : Nat) :
    Post (MotionDetected.body env fuel changes) (DetectionIs 1) (DetectionIs 1) := by
  unfold MotionDetected.body
  repeat' (first
    | with_reducible apply Post_bind
    | with_reducible apply Post_ite
    | with_reducible exact Post_pure _ _
    | (with_reducible refine Post.checkCameraIsFree _ _ ?_) <;> decide
    | (with_reducible refine Post.resumeDetection_other _ ?_) <;> decide
    | with_reducible exact Post.capturePhotoSaveSpiffs_enabled _ _ _
    | with_reducible exact Post_of_plumb (Keeps.resetTRIGGERtimer_plumb _) _
    | (with_reducible refine Post_of_plumb (Keeps.log_plumb _ ?_) _) <;> rfl
    | intro _)

theorem Post.of_MotionDetected_body (env : Env) (fuel changes d : Nat)
    (h : Post (MotionDetected.body env fuel changes) (DetectionIs d) (DetectionIs d)) :
    Post (MotionDetected env fuel changes) (DetectionIs d) (DetectionIs d) := by
  unfold MotionDetected
  refine Post_bind (Post_getState _) (fun _ => Post_bind ?_ (fun _ => h))
  intro s hs b s' hm
  simp only [emit_apply, Res.ok.injEq] at hm
  rw [← hm.2]
  exact hs

/-- Every exclusive operation called with `DetectionEnabled = d`, where `d` is 0 or 1,
has `DetectionEnabled = d` when it returns. -/
theorem Post.exclusive (env : Env) (fuel : Nat) (op : ExclusiveOp) (d : Nat)
    (hd : d = 0 ∨ d = 1) :
    Post (runExclusive env fuel op) (DetectionIs d) (DetectionIs d) := by
  rcases hd with rfl | rfl
  · cases op with
    | capturePhotoSaveSpiffs dostream =>
      exact Post_bind (Post.capturePhotoSaveSpiffs_disabled env fuel dostream)
        (fun _ => Post_pure _ _)
    | handleStream => exact Post.handleStream_disabled env fuel
    | handleStrPst => exact Post.handleStrPst_disabled env fuel
    | handleJPG => exact Post.handleJPG_disabled env
    | ioDetected iostat => exact Post.ioDetected_disabled env iostat
    | MotionDetected changes =>
      exact Post.of_MotionDetected_body env fuel changes 0 (Post.MotionDetected_body_disabled _ _ _)
    | illuminatorButton => exact Post.illuminatorButton_disabled env
  · cases op with
    | capturePhotoSaveSpiffs dostream =>
      exact Post_bind (Post.capturePhotoSaveSpiffs_enabled env fuel dostream)
        (fun _ => Post_pure _ _)
    | handleStream => exact Post.handleStream_enabled env fuel
    | handleStrPst => exact Post.handleStrPst_enabled env fuel
    | handleJPG => exact Post.handleJPG_enabled env
    | ioDetected iostat => exact Post.ioDetected_enabled env iostat
    | MotionDetected changes =>
      exact Post.of_MotionDetected_body env fuel changes 1 (Post.MotionDetected_body_enabled _ _ _)
    | illuminatorButton => exact Post.illuminatorButton_enabled env

/-! ### The capture attempts of capturePhotoSaveSpiffs -/

theorem bind_eq_of_ok {α β : Type} {m : M α} {f : α → M β} {s s1 : State} {a : α}
    (h : m s = .ok a s1) : (m >>= f) s = f a s1 := by
  simp only [bind_apply, M.bind, h]

theorem returned_eq_true {α : Type} {r : Res α} (h : r.returned = true) :
    ∃ a s1, r = .ok a s1 := by
  cases r with
  | ok a s1 => exact ⟨a, s1, rfl⟩
  | reboot s1 => simp [Res.returned] at h
  | fault s1 => simp [Res.returned] at h
  | unfinished s1 => simp [Res.returned] at h

theorem attemptMarks_cons (dostream : Bool) (size : Nat) (sizes : List Nat) :
    attemptMarks dostream (size :: sizes)
      = [.saveJpgFrame dostream, .checkPhoto size (checkPhotoSize size)]
        ++ attemptMarks dostream sizes := by
  simp [attemptMarks]

theorem saveJpgFrameCalls_attemptMarks (dostream : Bool) (sizes : List Nat) :
    saveJpgFrameCalls (attemptMarks dostream sizes) = sizes.length := by
  induction sizes with
  | nil => rfl
  | cons size rest ih =>
    rw [attemptMarks_cons]
    simp only [saveJpgFrameCalls, List.filter_append, List.length_append] at ih ⊢
    rw [ih]
    simp
    omega

theorem returns_pure {α : Type} {P : α → Prop} (a : α) (h : P a) :
    ReturnsWith P (pure a : M α) :=
  fun s => ⟨a, s, rfl, h⟩

theorem returns_bind {α β : Type} {P : α → Prop} {Q : β → Prop} {m : M α}
    {f : α → M β} (h1 : ReturnsWith P m) (h2 : ∀ a, P a → ReturnsWith Q (f a)) :
    ReturnsWith Q (m >>= f) := by
  intro s
  obtain ⟨a, s1, hm, ha⟩ := h1 s
  obtain ⟨b, s2, hf, hb⟩ := h2 a ha s1
  exact ⟨b, s2, by rw [bind_eq_of_ok hm, hf], hb⟩

theorem returns_ite {α : Type} {P : α → Prop} {c : Prop} [Decidable c] {a b : M α}
    (ha : ReturnsWith P a) (hb : ReturnsWith P b) : ReturnsWith P (if c then a else b) := by
  split <;> assumption

theorem returns_getState : ReturnsWith (fun _ => True) getState :=
  fun s => ⟨s, s, rfl, trivial⟩

theorem returns_modifyState (f : State → State) :
    ReturnsWith (fun _ => True) (modifyState f) :=
  fun s => ⟨(), f s, rfl, trivial⟩

theorem returns_emit (e : Event) : ReturnsWith (fun _ => True) (emit e) :=
  fun _ => ⟨(), _, rfl, trivial⟩

theorem returns_log_system_message (m : Msg) :
    ReturnsWith (fun _ => True) (log_system_message m) :=
  fun _ => ⟨(), _, rfl, trivial⟩

theorem returns_delay (ms : Nat) : ReturnsWith (fun _ => True) (delay ms) :=
  fun _ => ⟨(), _, rfl, trivial⟩

theorem returns_millis (env : Env) : ReturnsWith (fun _ => True) (millis env) :=
  fun _ => ⟨_, _, rfl, trivial⟩

theorem returns_resetTRIGGERtimer (env : Env) :
    ReturnsWith (fun _ => True) (resetTRIGGERtimer env) :=
  fun _ => ⟨(), _, rfl, trivial⟩

theorem returns_pauseDetection : ReturnsWith (fun _ => True) pauseDetection :=
  fun _ => ⟨(), _, rfl, trivial⟩

theorem returns_resumeDetection : ReturnsWith (fun _ => True) resumeDetection :=
  fun _ => ⟨(), _, rfl, trivial⟩

theorem returns_ask (answer : Nat → Bool) : ReturnsWith (fun _ => True) (ask answer) :=
  fun _ => ⟨_, _, rfl, trivial⟩

theorem returns_ask_const (answer : Nat → Bool) (v : Bool) (h : ∀ k, answer k = v) :
    ReturnsWith (fun a => a = v) (ask answer) :=
  fun _ => ⟨_, _, rfl, h _⟩

theorem returns_setupCameraHardware (env : Env) (h : Healthy env) (f : pixformat_t) :
    ReturnsWith (fun a => a = true) (setupCameraHardware env f) :=
  fun _ => ⟨_, _, rfl, h.1 _⟩

theorem returns_esp_camera_fb_get (env : Env) (h : Healthy env) :
    ReturnsWith (fun a => a = true) (esp_camera_fb_get env) :=
  fun _ => ⟨_, _, rfl, h.2.1 _⟩

theorem returns_checkCameraIsFree_loop (env : Env) (n : Nat) :
    ReturnsWith (fun _ => True) (checkCameraIsFree.loop env n) := by
  induction n with
  | zero =>
    unfold checkCameraIsFree.loop
    repeat' (first
      | with_reducible apply returns_bind
      | with_reducible exact (returns_pure _ trivial : ReturnsWith (fun _ => True) _)
      | with_reducible exact returns_log_system_message _
      | intro _)
  | succ n ih =>
    unfold checkCameraIsFree.loop
    repeat' (first
      | with_reducible apply returns_bind
      | with_reducible apply returns_ite
      | with_reducible exact (returns_pure _ trivial : ReturnsWith (fun _ => True) _)
      | with_reducible exact ih
      | with_reducible exact returns_getState
      | with_reducible exact returns_delay _
      | with_reducible exact returns_modifyState _
      | intro _)

theorem returns_checkCameraIsFree (env : Env) :
    ReturnsWith (fun _ => True) (checkCameraIsFree env) := by
  unfold checkCameraIsFree
  repeat' (first
    | with_reducible apply returns_bind
    | with_reducible apply returns_ite
    | with_reducible exact (returns_pure true rfl : ReturnsWith (fun a => a = true) _)
    | with_reducible exact (returns_pure _ trivial : ReturnsWith (fun _ => True) _)
    | with_reducible exact returns_getState
    | with_reducible exact returns_log_system_message _
    | with_reducible exact returns_checkCameraIsFree_loop _ _
    | intro _)

theorem returns_checkPhoto (env : Env) : ReturnsWith (fun _ => True) (checkPhoto env) := by
  unfold checkPhoto
  repeat' (first
    | with_reducible apply returns_bind
    | with_reducible apply returns_ite
    | with_reducible exact (returns_pure true rfl : ReturnsWith (fun a => a = true) _)
    | with_reducible exact (returns_pure _ trivial : ReturnsWith (fun _ => True) _)
    | with_reducible exact returns_getState
    | with_reducible exact returns_modifyState _
    | with_reducible exact returns_emit _
    | with_reducible exact returns_log_system_message _
    | intro _)

theorem returns_RestartCamera (env : Env) (h : Healthy env) (fuel : Nat)
    (format : pixformat_t) :
    ReturnsWith (fun _ => True) (RestartCamera env (fuel + 1) format) := by
  unfold RestartCamera
  repeat' (first
    | with_reducible apply returns_bind
    | with_reducible apply returns_ite
    | with_reducible exact (returns_pure true rfl : ReturnsWith (fun a => a = true) _)
    | with_reducible exact (returns_pure _ trivial : ReturnsWith (fun _ => True) _)
    | with_reducible exact returns_emit _
    | with_reducible exact returns_log_system_message _
    | with_reducible exact returns_resetTRIGGERtimer _
    | with_reducible exact returns_setupCameraHardware _ h _
    | (intro a ha; subst ha; simp only [↓reduceIte])
    | intro _)

theorem returns_postImage (env : Env) (h : Healthy env) :
    ReturnsWith (fun a => a = false) (postImage env) := by
  unfold postImage
  refine returns_bind (returns_ask_const _ false h.2.2.1) (fun up hup => ?_)
  exact returns_bind (returns_emit _) (fun _ _ => returns_pure _ hup)

theorem returns_sendStream_loop (env : Env) (h : Healthy env) (stop fuel : Nat) :
    ReturnsWith (fun _ => True) (sendStream.loop env stop (fuel + 1)) := by
  unfold sendStream.loop
  repeat' (first
    | with_reducible apply returns_bind
    | with_reducible apply returns_ite
    | with_reducible exact (returns_pure true rfl : ReturnsWith (fun a => a = true) _)
    | with_reducible exact (returns_pure _ trivial : ReturnsWith (fun _ => True) _)
    | with_reducible exact returns_millis _
    | with_reducible exact returns_esp_camera_fb_get _ h
    | with_reducible exact returns_postImage _ h
    | with_reducible exact returns_log_system_message _
    | (intro a ha; subst ha; simp only [↓reduceIte, Bool.false_eq_true])
    | intro _)

theorem returns_sendStream (env : Env) (h : Healthy env) (fuel : Nat) :
    ReturnsWith (fun _ => True) (sendStream env (fuel + 1)) := by
  unfold sendStream
  repeat' (first
    | with_reducible apply returns_bind
    | with_reducible exact (returns_pure true rfl : ReturnsWith (fun a => a = true) _)
    | with_reducible exact (returns_pure _ trivial : ReturnsWith (fun _ => True) _)
    | with_reducible exact returns_millis _
    | with_reducible exact returns_sendStream_loop _ h _ _
    | with_reducible exact returns_log_system_message _
    | intro _)

theorem returns_handleStream_loop (env : Env) (h : Healthy env) (stop fuel : Nat) :
    ReturnsWith (fun _ => True) (handleStream.loop env stop (fuel + 1)) := by
  have hconn : ∀ k, env.connected k = false := h.2.2.2
  unfold handleStream.loop
  repeat' (first
    | with_reducible apply returns_bind
    | with_reducible apply returns_ite
    | with_reducible exact (returns_pure true rfl : ReturnsWith (fun a => a = true) _)
    | with_reducible exact (returns_pure _ trivial : ReturnsWith (fun _ => True) _)
    | with_reducible exact returns_millis _
    | with_reducible exact returns_ask_const _ false hconn
    | (intro a ha; subst ha; simp only [↓reduceIte, Bool.false_eq_true])
    | intro _)


theorem returns_esp_camera_fb_get_any (env : Env) :
    ReturnsWith (fun _ => True) (esp_camera_fb_get env) :=
  fun _ => ⟨_, _, rfl, trivial⟩

theorem returns_capture_still_any (env : Env) :
    ReturnsWith (fun _ => True) (capture_still env) :=
  fun _ => ⟨_, _, rfl, trivial⟩

theorem returns_WipeSpiffs (env : Env) : ReturnsWith (fun _ => True) (WipeSpiffs env) := by
  unfold WipeSpiffs
  repeat' (first
    | with_reducible apply returns_bind
    | with_reducible apply returns_ite
    | with_reducible exact (returns_pure _ trivial : ReturnsWith (fun _ => True) _)
    | with_reducible exact returns_modifyState _
    | with_reducible exact returns_emit _
    | with_reducible exact returns_log_system_message _
    | with_reducible exact returns_ask _
    | intro _)

theorem returns_saveJpgFrame_store (env : Env) :
    ReturnsWith (fun _ => True) (saveJpgFrame.store env) := by
  unfold saveJpgFrame.store
  repeat' (first
    | with_reducible apply returns_bind
    | with_reducible apply returns_ite
    | with_reducible exact (returns_pure _ trivial : ReturnsWith (fun _ => True) _)
    | with_reducible exact returns_modifyState _
    | with_reducible exact returns_WipeSpiffs _
    | with_reducible exact returns_log_system_message _
    | with_reducible exact returns_ask _
    | intro _)

theorem returns_saveGreyscaleFrame (env : Env) :
    ReturnsWith (fun _ => True) (saveGreyscaleFrame env) := by
  unfold saveGreyscaleFrame
  repeat' (first
    | with_reducible apply returns_bind
    | with_reducible apply returns_ite
    | with_reducible exact (returns_pure _ trivial : ReturnsWith (fun _ => True) _)
    | with_reducible exact returns_emit _
    | with_reducible exact returns_log_system_message _
    | with_reducible exact returns_ask _
    | with_reducible exact returns_esp_camera_fb_get_any _
    | intro _)

theorem returns_saveJpgFrame_body (env : Env) (h : Healthy env) (fuel : Nat)
    (dostream : Bool) :
    ReturnsWith (fun _ => True) (saveJpgFrame.body env (fuel + 1) dostream) := by
  unfold saveJpgFrame.body
  repeat' (first
    | with_reducible apply returns_bind
    | with_reducible apply returns_ite
    | with_reducible exact (returns_pure true rfl : ReturnsWith (fun a => a = true) _)
    | with_reducible exact (returns_pure _ trivial : ReturnsWith (fun _ => True) _)
    | with_reducible exact returns_getState
    | with_reducible exact returns_emit _
    | with_reducible exact returns_log_system_message _
    | with_reducible exact returns_esp_camera_fb_get _ h
    | with_reducible exact returns_saveJpgFrame_store _
    | with_reducible exact returns_postImage _ h
    | with_reducible exact returns_sendStream _ h _
    | (intro a ha; subst ha; simp only [↓reduceIte])
    | intro _)

theorem returns_saveJpgFrame (env : Env) (h : Healthy env) (fuel : Nat) (dostream : Bool) :
    ReturnsWith (fun _ => True) (saveJpgFrame env (fuel + 1) dostream) := by
  unfold saveJpgFrame
  exact returns_bind (returns_emit _) (fun _ _ => returns_saveJpgFrame_body env h fuel dostream)

theorem returns_capturePhotoSaveSpiffs_loop (env : Env) (h : Healthy env) (dostream : Bool)
    (n TryCount : Nat) (h3 : TryCount < 3) (hn : 3 - TryCount ≤ n) :
    ReturnsWith (fun _ => True) (capturePhotoSaveSpiffs.loop env dostream (n + 1) TryCount) := by
  induction n generalizing TryCount with
  | zero => omega
  | succ n ih =>
    have hT : (TryCount + 1) % 256 = TryCount + 1 := by omega
    unfold capturePhotoSaveSpiffs.loop
    simp only [hT]
    refine returns_bind (returns_log_system_message _) (fun _ _ => ?_)
    refine returns_bind (returns_saveJpgFrame env h n dostream) (fun _ _ => ?_)
    refine returns_bind (returns_checkPhoto env) (fun ok _ => ?_)
    by_cases hc : (!ok) = true ∧ TryCount + 1 < 3
    · simp only [hc, and_self, ↓reduceIte]
      exact ih (TryCount + 1) hc.2 (by omega)
    · simp only [hc, ↓reduceIte]
      exact returns_pure _ trivial

theorem returns_capturePhotoSaveSpiffs (env : Env) (h : Healthy env) (fuel : Nat)
    (dostream : Bool) :
    ReturnsWith (fun _ => True) (capturePhotoSaveSpiffs env (fuel + 4) dostream) := by
  unfold capturePhotoSaveSpiffs
  repeat' (first
    | with_reducible apply returns_bind
    | with_reducible apply returns_ite
    | with_reducible exact (returns_pure _ trivial : ReturnsWith (fun _ => True) _)
    | with_reducible exact returns_checkCameraIsFree _
    | with_reducible exact returns_pauseDetection
    | with_reducible exact returns_resumeDetection
    | with_reducible exact returns_modifyState _
    | with_reducible exact returns_saveGreyscaleFrame _
    | with_reducible exact returns_RestartCamera _ h _ _
    | with_reducible exact returns_capturePhotoSaveSpiffs_loop _ h _ _ _ (by decide) (by omega)
    | with_reducible exact returns_resetTRIGGERtimer _
    | with_reducible exact returns_log_system_message _
    | intro _)

theorem returns_MotionDetected (env : Env) (h : Healthy env) (fuel changes : Nat) :
    ReturnsWith (fun _ => True) (MotionDetected env (fuel + 4) changes) := by
  unfold MotionDetected MotionDetected.body
  repeat' (first
    | with_reducible apply returns_bind
    | with_reducible apply returns_ite
    | with_reducible exact (returns_pure _ trivial : ReturnsWith (fun _ => True) _)
    | with_reducible exact returns_getState
    | with_reducible exact returns_emit _
    | with_reducible exact returns_checkCameraIsFree _
    | with_reducible exact returns_resumeDetection
    | with_reducible exact returns_capturePhotoSaveSpiffs _ h _ _
    | with_reducible exact returns_resetTRIGGERtimer _
    | with_reducible exact returns_log_system_message _
    | intro _)

theorem returns_handleStream (env : Env) (h : Healthy env) (fuel : Nat) :
    ReturnsWith (fun _ => True) (handleStream env (fuel + 1)) := by
  unfold handleStream
  repeat' (first
    | with_reducible apply returns_bind
    | with_reducible exact (returns_pure _ trivial : ReturnsWith (fun _ => True) _)
    | with_reducible exact returns_checkCameraIsFree _
    | with_reducible exact returns_pauseDetection
    | with_reducible exact returns_resumeDetection
    | with_reducible exact returns_RestartCamera _ h _ _
    | with_reducible exact returns_handleStream_loop _ h _ _
    | with_reducible exact returns_millis _
    | with_reducible exact returns_delay _
    | with_reducible exact returns_resetTRIGGERtimer _
    | with_reducible exact returns_log_system_message _
    | intro _)

theorem returns_handleStrPst (env : Env) (h : Healthy env) (fuel : Nat) :
    ReturnsWith (fun _ => True) (handleStrPst env (fuel + 1)) := by
  unfold handleStrPst
  repeat' (first
    | with_reducible apply returns_bind
    | with_reducible exact (returns_pure _ trivial : ReturnsWith (fun _ => True) _)
    | with_reducible exact returns_checkCameraIsFree _
    | with_reducible exact returns_pauseDetection
    | with_reducible exact returns_resumeDetection
    | with_reducible exact returns_RestartCamera _ h _ _
    | with_reducible exact returns_sendStream _ h _
    | with_reducible exact returns_resetTRIGGERtimer _
    | with_reducible exact returns_log_system_message _
    | intro _)

theorem returns_handleJPG (env : Env) : ReturnsWith (fun _ => True) (handleJPG env) := by
  unfold handleJPG
  repeat' (first
    | with_reducible apply returns_bind
    | with_reducible apply returns_ite
    | with_reducible exact (returns_pure _ trivial : ReturnsWith (fun _ => True) _)
    | with_reducible exact returns_checkCameraIsFree _
    | with_reducible exact returns_esp_camera_fb_get_any _
    | with_reducible exact returns_ask _
    | with_reducible exact returns_emit _
    | with_reducible exact returns_delay _
    | with_reducible exact returns_log_system_message _
    | intro _)

theorem returns_ioDetected (env : Env) (iostat : Bool) :
    ReturnsWith (fun _ => True) (ioDetected env iostat) := by
  unfold ioDetected
  repeat' (first
    | with_reducible apply returns_bind
    | with_reducible exact (returns_pure _ trivial : ReturnsWith (fun _ => True) _)
    | with_reducible exact returns_checkCameraIsFree _
    | with_reducible exact returns_pauseDetection
    | with_reducible exact returns_resumeDetection
    | with_reducible exact returns_resetTRIGGERtimer _
    | with_reducible exact returns_log_system_message _
    | intro _)

theorem returns_illuminatorButton (env : Env) :
    ReturnsWith (fun _ => True) (illuminatorButton env) := by
  unfold illuminatorButton
  repeat' (first
    | with_reducible apply returns_bind
    | with_reducible apply returns_ite
    | with_reducible exact (returns_pure _ trivial : ReturnsWith (fun _ => True) _)
    | with_reducible exact returns_getState
    | with_reducible exact returns_checkCameraIsFree _
    | with_reducible exact returns_pauseDetection
    | with_reducible exact returns_resumeDetection
    | with_reducible exact returns_modifyState _
    | with_reducible exact returns_emit _
    | with_reducible exact returns_resetTRIGGERtimer _
    | with_reducible exact returns_log_system_message _
    | intro _)

/-- In a healthy environment every exclusive operation returns, given a step budget of at
least 4. -/
theorem returns_runExclusive (env : Env) (h : Healthy env) (fuel : Nat) (h4 : 4 ≤ fuel)
    (op : ExclusiveOp) (s : State) : (runExclusive env fuel op s).returned = true := by
  obtain ⟨n, rfl⟩ : ∃ n, fuel = n + 4 := ⟨fuel - 4, by omega⟩
  have key : ReturnsWith (fun _ => True) (runExclusive env (n + 4) op) := by
    cases op with
    | capturePhotoSaveSpiffs dostream =>
      exact returns_bind (returns_capturePhotoSaveSpiffs env h n dostream)
        (fun _ _ => returns_pure _ trivial)
    | handleStream => exact returns_handleStream env h (n + 3)
    | handleStrPst => exact returns_handleStrPst env h (n + 3)
    | handleJPG => exact returns_handleJPG env
    | ioDetected iostat => exact returns_ioDetected env iostat
    | MotionDetected changes => exact returns_MotionDetected env h n changes
    | illuminatorButton => exact returns_illuminatorButton env
  obtain ⟨a, s', hr, -⟩ := key s
  rw [hr]
  rfl

/-! ### The theorems at sample inputs -/

theorem healthy_goodEnv : Healthy goodEnv :=
  ⟨fun _ => rfl, fun _ => rfl, fun _ => rfl, fun _ => rfl⟩

/-- C5 at sample inputs: free on entry; busy throughout (10 waits, timeout, false);
released during the third wait (3 waits, true). -/
theorem checkCameraIsFree_polls_witness :
    checkCameraIsFree goodEnv bootState = .ok true bootState ∧
    checkCameraIsFree goodEnv pausedState
      = .ok false { pausedState with
          clock := pausedState.clock + 1000
          asked := pausedState.asked + 10
          trace := pausedState.trace ++ [.log .waitingForCamera]
            ++ List.replicate 10 (.delay 100) ++ [.log .waitTimedOut] } ∧
    checkCameraIsFree releasingEnv pausedState
      = .ok true { pausedState with
          clock := pausedState.clock + 100 * 3
          asked := pausedState.asked + 3
          DetectionEnabled := releasingEnv.flagAfterWait (pausedState.asked + (3 - 1))
          trace := pausedState.trace ++ [.log .waitingForCamera]
            ++ List.replicate 3 (.delay 100) } :=
  ⟨(checkCameraIsFree_polls goodEnv bootState).1 (by decide),
   (checkCameraIsFree_polls goodEnv pausedState).2.1 rfl (fun _ _ => rfl),
   (checkCameraIsFree_polls releasingEnv pausedState).2.2 3 rfl (by decide) (by decide)
     (fun j hj => by
       have h2 : j < 2 := hj
       simp [releasingEnv, pausedState, bootState, h2])
     (by decide)⟩

/-- C3 at sample inputs with the band 15..192: 200 and 3 changed blocks leave the state
as it was, 20 changed blocks leave a new entry in the trace. -/
theorem loopDecision_band_witness :
    loopDecision goodEnv 4 200 readyState = .ok () readyState ∧
    loopDecision goodEnv 4 3 readyState = .ok () readyState ∧
    readyState.trace.length < (loopDecision goodEnv 4 20 readyState).state.trace.length :=
  ⟨(loopDecision_band goodEnv 4 200 readyState).1 (by decide),
   (loopDecision_band goodEnv 4 3 readyState).2.1 (by decide),
   (loopDecision_band goodEnv 4 20 readyState).2.2.mp ⟨by decide, by decide⟩⟩

/-- C4 at a sample input: 30 seconds after boot a frame with 20 changed blocks fires. -/
theorem MotionDetected_invocation_witness :
    ∃ v counter,
      decisionMarks (loopDetection goodEnv 4 readyState).state.trace
        = decisionMarks readyState.trace
          ++ [.motion_detect v counter, .MotionDetected 20 30080] ∧
      readyState.tCounterTrigger ≤ counter ∧ 20 = v % 65536 ∧ (v < 65536 → 20 = v) ∧
      (loopDetection goodEnv 4 readyState).state.tCounter = 0 :=
  MotionDetected_invocation goodEnv 4 readyState 20 30080 (by decide!)

/-- C1 at a sample input: eight ticks with 7 seconds between readings of the clock and a
limit of 20 seconds fire twice, 56 seconds apart. -/
theorem trigger_rate_limit_witness :
    motionTimes (detectionTicks slowEnv 4 (List.replicate 8 quietTick) bootState).state.trace
      = [28000, 84000] ∧
    (motionTimes
        (detectionTicks slowEnv 4 (List.replicate 8 quietTick) bootState).state.trace).Pairwise
      (fun a b => a + bootState.TriggerLimitTime * 1000 ≤ b) :=
  ⟨by decide!, trigger_rate_limit slowEnv 4 (List.replicate 8 quietTick) bootState rfl⟩

/-- C7, for the entry values 0 and 1, where the operations behave as intended. For
`DetectionEnabled` equal to 0 or 1 on entry, each exclusive camera
operation (`capturePhotoSaveSpiffs`, `handleStream`, `handleStrPst`, `handleJPG`,
`ioDetected`, `MotionDetected`, the illuminator button) has `DetectionEnabled` equal to its
value on entry whenever it returns; and it does return, with that value, in every healthy
environment given a step budget of at least 4. -/
theorem exclusive_operation_restores_detection (env : Env) (fuel : Nat) (op : ExclusiveOp)
    (s : State) (hd : s.DetectionEnabled = 0 ∨ s.DetectionEnabled = 1) :
    (∀ a s', runExclusive env fuel op s = .ok a s' →
      s'.DetectionEnabled = s.DetectionEnabled) ∧
    (Healthy env → 4 ≤ fuel →
      ∃ a s', runExclusive env fuel op s = .ok a s' ∧
        s'.DetectionEnabled = s.DetectionEnabled) := by
  have hsafe : ∀ a s', runExclusive env fuel op s = .ok a s' →
      s'.DetectionEnabled = s.DetectionEnabled :=
    fun a s' h => Post.exclusive env fuel op s.DetectionEnabled hd s rfl a s' h
  refine ⟨hsafe, fun hh h4 => ?_⟩
  obtain ⟨a, s', hr⟩ := returned_eq_true (returns_runExclusive env hh fuel h4 op s)
  exact ⟨a, s', hr, hsafe a s' hr⟩

/-- C7 (entry values 0 and 1) at a sample input: with detection enabled, a photo capture
in a healthy environment returns with detection enabled. -/
theorem exclusive_operation_restores_detection_witness :
    ∃ a s', runExclusive goodEnv 4 (.capturePhotoSaveSpiffs false) bootState = .ok a s' ∧
      s'.DetectionEnabled = bootState.DetectionEnabled :=
  (exclusive_operation_restores_detection goodEnv 4 (.capturePhotoSaveSpiffs false) bootState
    (Or.inr rfl)).2 healthy_goodEnv (by decide)

/-- C10, at the failing input. A stream starts when `millis()` reads 4294937296, 30
seconds before the 32-bit counter wraps, so `streamStop` is 4294957296. At a check 30
seconds later the counter has wrapped and `millis()` reads 0: 30000 ms have elapsed, more
than the cap of 20000 ms, and the loop condition `millis() < streamStop` is still true.
In `sendStream` run from that start, a frame is captured and posted after that check. -/
theorem stream_runs_past_its_cap :
    streamStop (4294937296 % U32) = 4294957296 ∧
    (4294937296 + 30000) % U32 = 0 ∧
    (4294937296 + 30000 - 4294937296) % U32 ≥ maxCamStreamTime * 1000 ∧
    streamContinues ((4294937296 + 30000) % U32) (streamStop (4294937296 % U32)) = true ∧
    (sendStream lateEnv 4 nearWrapState).state.trace
      = [.log .remoteStreamStarted, .fb_get true, .postImage false, .log .remoteStreamEnd] ∧
    (sendStream lateEnv 4 nearWrapState).state.clock = 4294937296 + 30000 := by
  decide!

theorem isCandidate_eq_inBand (s : State) (changes : Nat) :
    isCandidate s changes = inBand s.Image_thresholdL s.Image_thresholdH changes := rfl

theorem specCounter_eq (low high changes tCounter : Nat) :
    specCounter low high changes tCounter
      = if inBand low high changes = true then tCounter + 1 else 0 := by
  simp [specCounter, inBand]

theorem trailingRun_snoc (low high : Nat) (history : List Nat) (v : Nat) :
    trailingRun low high (history ++ [v])
      = if inBand low high v = true then trailingRun low high history + 1 else 0 := by
  simp only [trailingRun, List.reverse_append, List.reverse_cons, List.reverse_nil,
    List.nil_append, List.singleton_append, List.takeWhile_cons]
  split <;> simp

theorem SameBand_of_plumb (s s' : State) (h : Plumb s s') : SameBand s s' :=
  ⟨h.1.2.2.2.2.2.1, h.1.2.2.2.2.2.2.1, h.1.2.2.2.2.1⟩

theorem SameBand_of_weak (s s' : State) (h : Weak s s') : SameBand s s' :=
  ⟨h.2.2.2.2.2.1, h.2.2.2.2.2.2.1, h.2.2.2.2.1⟩

theorem MotionDetected_sameBand (env : Env) (fuel changes : Nat) :
    Keeps SameBand (MotionDetected env fuel changes) := by
  unfold MotionDetected
  refine Keeps.bind Keeps.getState (fun _ => Keeps.bind ?_ (fun _ => ?_))
  · intro s; exact ⟨rfl, rfl, rfl⟩
  · intro s; exact SameBand_of_weak _ _ (MotionDetected.body_weak env fuel changes s)

theorem loopDecision_sameBand (env : Env) (fuel changes : Nat) :
    Keeps SameBand (loopDecision env fuel changes) := by
  have hzero : Keeps SameBand (modifyState fun s => { s with tCounter := 0 }) :=
    fun s => ⟨rfl, rfl, rfl⟩
  have hlog : ∀ m, Keeps SameBand (log_system_message m) := fun m s => ⟨rfl, rfl, rfl⟩
  unfold loopDecision
  repeat' (first
    | with_reducible apply Keeps.bind
    | with_reducible apply Keeps.ite
    | with_reducible exact Keeps.pure _
    | with_reducible exact Keeps.getState
    | with_reducible exact hzero
    | with_reducible exact MotionDetected_sameBand _ _ _
    | with_reducible exact Keeps.of_plumb SameBand_of_plumb (Keeps.millis_plumb _)
    | with_reducible exact Keeps.of_plumb SameBand_of_plumb (Keeps.resetTRIGGERtimer_plumb _)
    | with_reducible exact hlog _
    | intro _)

theorem loopDetection_sameBand (env : Env) (fuel : Nat) :
    Keeps SameBand (loopDetection env fuel) := by
  have hmd : Keeps SameBand (motion_detect env) := fun s => ⟨rfl, rfl, rfl⟩
  unfold loopDetection
  repeat' (first
    | with_reducible apply Keeps.bind
    | with_reducible apply Keeps.ite
    | with_reducible exact Keeps.pure _
    | with_reducible exact Keeps.getState
    | with_reducible exact hmd
    | with_reducible exact loopDecision_sameBand _ _ _
    | with_reducible exact Keeps.of_plumb SameBand_of_plumb (loopCapture_plumb _ _)
    | intro _)

theorem Post.loopDecision_enabled (env : Env) (fuel changes : Nat) :
    Post (loopDecision env fuel changes) (DetectionIs 1) (DetectionIs 1) := by
  have hzero : Post (modifyState fun s => { s with tCounter := 0 })
      (DetectionIs 1) (DetectionIs 1) := by
    intro s hs a s' h
    simp only [modifyState_apply, Res.ok.injEq] at h
    rw [← h.2]; exact hs
  have hlog : ∀ m, Post (log_system_message m) (DetectionIs 1) (DetectionIs 1) := by
    intro m s hs a s' h
    simp only [log_system_message_apply, Res.ok.injEq] at h
    rw [← h.2]; exact hs
  have hmd : ∀ c, Post (MotionDetected env fuel c) (DetectionIs 1) (DetectionIs 1) :=
    fun c => Post.of_MotionDetected_body _ _ _ 1 (Post.MotionDetected_body_enabled _ _ _)
  unfold loopDecision
  repeat' (first
    | with_reducible apply Post_bind
    | with_reducible apply Post_ite
    | with_reducible exact Post_pure _ _
    | with_reducible exact Post_getState _
    | with_reducible exact hzero
    | with_reducible exact hmd _
    | with_reducible exact hlog _
    | with_reducible exact Post_of_plumb (Keeps.millis_plumb _) _
    | with_reducible exact Post_of_plumb (Keeps.resetTRIGGERtimer_plumb _) _
    | intro _)

theorem Post_loopDetection_enabled (env : Env) (fuel : Nat) :
    Post (loopDetection env fuel) (DetectionIs 1) (DetectionIs 1) := by
  have hmd : Post (motion_detect env) (DetectionIs 1) (DetectionIs 1) := by
    intro s hs a s' h
    simp only [motion_detect, Res.ok.injEq] at h
    rw [← h.2]; exact hs
  unfold loopDetection
  repeat' (first
    | with_reducible apply Post_bind
    | with_reducible apply Post_ite
    | with_reducible exact Post_pure _ _
    | with_reducible exact Post_getState _
    | with_reducible exact hmd
    | with_reducible exact Post.loopDecision_enabled _ _ _
    | with_reducible exact Post_of_plumb (loopCapture_plumb _ _) _
    | intro _)

/-- One detection cycle that returns, when `motion_detect` counts consecutive detections
as the specification says: what it records and what it leaves in `tCounter`. -/
theorem loopDetection_tick (env : Env) (fuel low high N : Nat)
    (hspec : ∀ k c, env.tCounterAfter k c = specCounter low high (env.changes k) c)
    (hfit : ∀ k, env.changes k < 65536) (s s1 : State)
    (hDE : s.DetectionEnabled = 1) (hL : s.Image_thresholdL = low)
    (hH : s.Image_thresholdH = high) (hN : s.tCounterTrigger = N)
    (hret : loopDetection env fuel s = .ok () s1) :
    ∃ v block,
      decisionMarks s1.trace
        = decisionMarks s.trace
          ++ .motion_detect v (specCounter low high v s.tCounter) :: block ∧
      ((block = [] ∧ inBand low high v = false ∧ s1.tCounter = 0) ∨
       (block = [.log .notEnoughConsecutive] ∧ inBand low high v = true ∧
          s.tCounter + 1 < N ∧ s1.tCounter = s.tCounter + 1) ∨
       (block = [.log .tooSoon] ∧ s1.tCounter = 0) ∨
       (block = [.log .ioLowIgnored] ∧ s1.tCounter = 0) ∨
       (∃ t, block = [.MotionDetected v t] ∧ inBand low high v = true ∧
          N ≤ s.tCounter + 1 ∧ s1.tCounter = 0)) := by
  rcases loopDetection_enabled env fuel s hDE with ⟨heq, hnr⟩ | ⟨s', hcap, heq⟩
  · rw [← heq, hret] at hnr
    simp [Res.returned] at hnr
  · have hp : Plumb s s' := by
      have := loopCapture_plumb env fuel s
      rw [hcap] at this
      exact this
    have hm1 : decisionMarks s'.trace = decisionMarks s.trace := hp.1.2.2.2.2.2.2.2.2.2.2
    have hc1 : s'.tCounter = s.tCounter := hp.1.2.2.2.1
    have hb := SameBand_of_plumb s s' hp
    have hv : env.changes s'.asked % 65536 = env.changes s'.asked :=
      Nat.mod_eq_of_lt (hfit _)
    rw [hv] at heq
    have hcand : isCandidate (afterMotionDetect env s') (env.changes s'.asked)
        = inBand low high (env.changes s'.asked) := by
      rw [isCandidate_eq_inBand]
      simp only [afterMotionDetect, hb.1, hb.2.1, hL, hH]
    have hcount : (afterMotionDetect env s').tCounter
        = specCounter low high (env.changes s'.asked) s.tCounter := by
      simp only [afterMotionDetect, hspec, hc1]
    have htrig : (afterMotionDetect env s').tCounterTrigger = N := by
      simp only [afterMotionDetect, hb.2.2, hN]
    have hm2 := decisionMarks_afterMotionDetect env s'
    rw [hm1, hspec, hc1] at hm2
    have hs1 : (loopDecision env fuel (env.changes s'.asked) (afterMotionDetect env s')).state
        = s1 := by
      rw [← heq, hret]; rfl
    have hmarks := loopDecision_marks env fuel (env.changes s'.asked) (afterMotionDetect env s')
    rw [hs1, hcand, hcount, htrig, hm2] at hmarks
    refine ⟨env.changes s'.asked, ?_⟩
    rcases hmarks with ⟨hc, hm, h0⟩ | ⟨hc, hn, hm, h0⟩ | ⟨-, -, -, hm, hz⟩
        | ⟨-, -, -, -, hm, hz⟩ | ⟨hc, hn, -, -, hm, h0⟩
    · refine ⟨[], by simpa using hm, Or.inl ⟨rfl, hc, ?_⟩⟩
      rw [h0, specCounter_eq, hc]; simp
    · rw [specCounter_eq, hc] at hn h0
      simp only [↓reduceIte] at hn h0
      exact ⟨[.log .notEnoughConsecutive], by simpa using hm, Or.inr (Or.inl ⟨rfl, hc, hn, h0⟩)⟩
    · exact ⟨[.log .tooSoon], by simpa using hm, Or.inr (Or.inr (Or.inl ⟨rfl, hz⟩))⟩
    · exact ⟨[.log .ioLowIgnored], by simpa using hm,
        Or.inr (Or.inr (Or.inr (Or.inl ⟨rfl, hz⟩)))⟩
    · rw [specCounter_eq, hc] at hn
      simp only [↓reduceIte] at hn
      exact ⟨[.MotionDetected (env.changes s'.asked) (atGate env (afterMotionDetect env s')).clock],
        by simpa using hm, Or.inr (Or.inr (Or.inr (Or.inr ⟨_, rfl, hc, hn, h0⟩)))⟩

theorem bind_eq_ok {α β : Type} {m : M α} {f : α → M β} {s s' : State} {b : β}
    (h : (m >>= f) s = .ok b s') : ∃ a s1, m s = .ok a s1 ∧ f a s1 = .ok b s' := by
  simp only [bind_apply, M.bind] at h
  cases hm : m s with
  | ok a s1 => rw [hm] at h; exact ⟨a, s1, rfl, h⟩
  | reboot s1 => rw [hm] at h; cases h
  | fault s1 => rw [hm] at h; cases h
  | unfinished s1 => rw [hm] at h; cases h

theorem mod_succ_of_lt (run N : Nat) (h : run % N + 1 < N) :
    (run + 1) % N = run % N + 1 := by
  rw [Nat.add_mod, Nat.mod_eq_of_lt (show 1 < N by omega)]
  exact Nat.mod_eq_of_lt h

theorem mod_succ_of_ge (run N : Nat) (hN : 1 ≤ N) (h : N ≤ run % N + 1) :
    (run + 1) % N = 0 := by
  have hlt : run % N < N := Nat.mod_lt _ hN
  have hp : run % N + 1 = N := by omega
  rcases Nat.eq_or_lt_of_le hN with h1 | h1
  · rw [← h1]; exact Nat.mod_one _
  · rw [Nat.add_mod, Nat.mod_eq_of_lt h1, hp]
    exact Nat.mod_self N

theorem frameValues_append (a b : List Event) :
    frameValues (a ++ b) = frameValues a ++ frameValues b := by
  simp [frameValues]

theorem firedFlags_frame_alone (v c : Nat) (rest : List Event)
    (h : rest = [] ∨ ∃ v' c' rest', rest = .motion_detect v' c' :: rest') :
    firedFlags (.motion_detect v c :: rest) = false :: firedFlags rest := by
  rcases h with rfl | ⟨v', c', rest', rfl⟩ <;> simp [firedFlags]

theorem firedFlags_frame_log (v c : Nat) (m : Msg) (rest : List Event) :
    firedFlags (.motion_detect v c :: .log m :: rest) = false :: firedFlags rest := by
  simp [firedFlags]

theorem firedFlags_frame_fired (v c v' t : Nat) (rest : List Event) :
    firedFlags (.motion_detect v c :: .MotionDetected v' t :: rest)
      = true :: firedFlags rest := by
  simp [firedFlags]

/-- Detection cycles in a row, when `motion_detect` counts consecutive detections as the
specification says and `tCounter` holds the length of the current run of candidate
frames modulo `N`. -/
theorem detectionCycles_consecutive (env : Env) (fuel low high N : Nat) (hN1 : 1 ≤ N)
    (hspec : ∀ k c, env.tCounterAfter k c = specCounter low high (env.changes k) c)
    (hfit : ∀ k, env.changes k < 65536) (n : Nat) :
    ∀ (s s' : State) (history : List Nat),
      s.DetectionEnabled = 1 → s.Image_thresholdL = low → s.Image_thresholdH = high →
      s.tCounterTrigger = N → s.tCounter = trailingRun low high history % N →
      detectionCycles env fuel n s = .ok () s' →
      ∃ new, decisionMarks s'.trace = decisionMarks s.trace ++ new ∧
        (new = [] ∨ ∃ v c rest, new = .motion_detect v c :: rest) ∧
        (frameValues new).length = n ∧
        (Event.log .tooSoon ∉ new → Event.log .ioLowIgnored ∉ new →
          firedFlags new = expectedFires low high N history (frameValues new) ∧
          s'.tCounter = trailingRun low high (history ++ frameValues new) % N) := by
  induction n with
  | zero =>
    intro s s' history _ _ _ _ hc hret
    simp only [detectionCycles, pure_apply, Res.ok.injEq, true_and] at hret
    subst hret
    exact ⟨[], by simp, Or.inl rfl, rfl, fun _ _ => ⟨rfl, by simpa [frameValues] using hc⟩⟩
  | succ n ih =>
    intro s s' history hDE hL hH hN hc hret
    unfold detectionCycles at hret
    obtain ⟨_, s1, htick, hrest⟩ := bind_eq_ok hret
    have hDE1 : s1.DetectionEnabled = 1 :=
      Post_loopDetection_enabled env fuel s hDE () s1 htick
    have hband : SameBand s s1 := by
      have := loopDetection_sameBand env fuel s
      rw [htick] at this
      exact this
    have hL1 : s1.Image_thresholdL = low := hband.1.trans hL
    have hH1 : s1.Image_thresholdH = high := hband.2.1.trans hH
    have hN1' : s1.tCounterTrigger = N := hband.2.2.trans hN
    obtain ⟨v, block, hmarks, hcases⟩ :=
      loopDetection_tick env fuel low high N hspec hfit s s1 hDE hL hH hN htick
    have hrun := trailingRun_snoc low high history v
    rcases hcases with ⟨hb, hband0, hz⟩ | ⟨hb, hband1, hlt, hz⟩ | ⟨hb, hz⟩ | ⟨hb, hz⟩
        | ⟨t, hb, hband1, hge, hz⟩
    · -- the frame is not a candidate
      have hc1 : s1.tCounter = trailingRun low high (history ++ [v]) % N := by
        rw [hrun, hband0, hz]; simp
      obtain ⟨new1, hm1, hhead, hlen, hfires⟩ :=
        ih s1 s' (history ++ [v]) hDE1 hL1 hH1 hN1' hc1 hrest
      refine ⟨.motion_detect v (specCounter low high v s.tCounter) :: new1, ?_, ?_, ?_, ?_⟩
      · rw [hm1, hmarks, hb]; simp
      · exact Or.inr ⟨_, _, _, rfl⟩
      · simp [frameValues] at hlen ⊢; exact hlen
      · intro hs hg
        have hs1 : Event.log .tooSoon ∉ new1 := fun h => hs (List.mem_cons_of_mem _ h)
        have hg1 : Event.log .ioLowIgnored ∉ new1 := fun h => hg (List.mem_cons_of_mem _ h)
        obtain ⟨hf, hcnt⟩ := hfires hs1 hg1
        have hfv : frameValues (.motion_detect v (specCounter low high v s.tCounter) :: new1)
            = v :: frameValues new1 := by simp [frameValues]
        rw [hfv, firedFlags_frame_alone _ _ _ hhead]
        refine ⟨?_, by simpa using hcnt⟩
        simp only [expectedFires, hband0, Bool.false_and]
        rw [hf]
    · -- a candidate that does not complete a group of N
      have hmod : (trailingRun low high history + 1) % N
          = trailingRun low high history % N + 1 :=
        mod_succ_of_lt _ _ (by rw [← hc]; exact hlt)
      have hc1 : s1.tCounter = trailingRun low high (history ++ [v]) % N := by
        rw [hrun, hband1, hz]; simp only [↓reduceIte]; rw [hmod, hc]
      obtain ⟨new1, hm1, hhead, hlen, hfires⟩ :=
        ih s1 s' (history ++ [v]) hDE1 hL1 hH1 hN1' hc1 hrest
      refine ⟨.motion_detect v (specCounter low high v s.tCounter)
        :: .log .notEnoughConsecutive :: new1, ?_, ?_, ?_, ?_⟩
      · rw [hm1, hmarks, hb]; simp
      · exact Or.inr ⟨_, _, _, rfl⟩
      · simp [frameValues] at hlen ⊢; exact hlen
      · intro hs hg
        have hs1 : Event.log .tooSoon ∉ new1 :=
          fun h => hs (List.mem_cons_of_mem _ (List.mem_cons_of_mem _ h))
        have hg1 : Event.log .ioLowIgnored ∉ new1 :=
          fun h => hg (List.mem_cons_of_mem _ (List.mem_cons_of_mem _ h))
        obtain ⟨hf, hcnt⟩ := hfires hs1 hg1
        have hfv : frameValues (.motion_detect v (specCounter low high v s.tCounter)
            :: .log .notEnoughConsecutive :: new1) = v :: frameValues new1 := by
          simp [frameValues]
        rw [hfv, firedFlags_frame_log]
        refine ⟨?_, by simpa using hcnt⟩
        have hnd : ¬ N ∣ trailingRun low high (history ++ [v]) := by
          intro hdvd
          have := Nat.mod_eq_zero_of_dvd hdvd
          rw [hrun, hband1] at this
          simp only [↓reduceIte] at this
          rw [hmod] at this
          omega
        simp only [expectedFires, hband1, Bool.true_and, hnd, decide_False]
        rw [hf]
    · -- the rate limit refused
      have hc1 : s1.tCounter = trailingRun low high [] % N := by
        rw [hz]; simp [trailingRun]
      obtain ⟨new1, hm1, hhead, hlen, -⟩ := ih s1 s' [] hDE1 hL1 hH1 hN1' hc1 hrest
      refine ⟨.motion_detect v (specCounter low high v s.tCounter) :: .log .tooSoon :: new1,
        ?_, ?_, ?_, ?_⟩
      · rw [hm1, hmarks, hb]; simp
      · exact Or.inr ⟨_, _, _, rfl⟩
      · simp [frameValues] at hlen ⊢; exact hlen
      · intro hs
        exact absurd (List.mem_cons_of_mem _ (List.mem_cons_self _ _)) hs
    · -- the I/O gate refused
      have hc1 : s1.tCounter = trailingRun low high [] % N := by
        rw [hz]; simp [trailingRun]
      obtain ⟨new1, hm1, hhead, hlen, -⟩ := ih s1 s' [] hDE1 hL1 hH1 hN1' hc1 hrest
      refine ⟨.motion_detect v (specCounter low high v s.tCounter) :: .log .ioLowIgnored
        :: new1, ?_, ?_, ?_, ?_⟩
      · rw [hm1, hmarks, hb]; simp
      · exact Or.inr ⟨_, _, _, rfl⟩
      · simp [frameValues] at hlen ⊢; exact hlen
      · intro _ hg
        exact absurd (List.mem_cons_of_mem _ (List.mem_cons_self _ _)) hg
    · -- the frame completes a group of N: MotionDetected is invoked
      have hmod : (trailingRun low high history + 1) % N = 0 :=
        mod_succ_of_ge _ _ hN1 (by rw [← hc]; exact hge)
      have hc1 : s1.tCounter = trailingRun low high (history ++ [v]) % N := by
        rw [hrun, hband1, hz]; simp only [↓reduceIte]; rw [hmod]
      obtain ⟨new1, hm1, hhead, hlen, hfires⟩ :=
        ih s1 s' (history ++ [v]) hDE1 hL1 hH1 hN1' hc1 hrest
      refine ⟨.motion_detect v (specCounter low high v s.tCounter)
        :: .MotionDetected v t :: new1, ?_, ?_, ?_, ?_⟩
      · rw [hm1, hmarks, hb]; simp
      · exact Or.inr ⟨_, _, _, rfl⟩
      · simp [frameValues] at hlen ⊢; exact hlen
      · intro hs hg
        have hs1 : Event.log .tooSoon ∉ new1 :=
          fun h => hs (List.mem_cons_of_mem _ (List.mem_cons_of_mem _ h))
        have hg1 : Event.log .ioLowIgnored ∉ new1 :=
          fun h => hg (List.mem_cons_of_mem _ (List.mem_cons_of_mem _ h))
        obtain ⟨hf, hcnt⟩ := hfires hs1 hg1
        have hfv : frameValues (.motion_detect v (specCounter low high v s.tCounter)
            :: .MotionDetected v t :: new1) = v :: frameValues new1 := by
          simp [frameValues]
        rw [hfv, firedFlags_frame_fired]
        refine ⟨?_, by simpa using hcnt⟩
        have hd : N ∣ trailingRun low high (history ++ [v]) := by
          apply Nat.dvd_of_mod_eq_zero
          rw [hrun, hband1]
          simp only [↓reduceIte]
          exact hmod
        simp only [expectedFires, hband1, Bool.true_and, hd, decide_True]
        rw [hf]

theorem returns_capture_still (env : Env) (hstill : ∀ k, env.stillOk k = true) :
    ReturnsWith (fun a => a = true) (capture_still env) :=
  fun _ => ⟨_, _, rfl, hstill _⟩

theorem returns_motion_detect (env : Env) :
    ReturnsWith (fun _ => True) (motion_detect env) :=
  fun _ => ⟨_, _, rfl, trivial⟩

theorem returns_loopCapture (env : Env) (hstill : ∀ k, env.stillOk k = true) (fuel : Nat) :
    ReturnsWith (fun _ => True) (loopCapture env fuel) := by
  unfold loopCapture
  refine returns_bind (returns_capture_still env hstill) (fun a ha => ?_)
  subst ha
  simp only [Bool.not_true, Bool.false_eq_true, ↓reduceIte]
  exact returns_pure _ trivial

theorem returns_loopDecision (env : Env) (h : Healthy env) (fuel changes : Nat) :
    ReturnsWith (fun _ => True) (loopDecision env (fuel + 4) changes) := by
  unfold loopDecision
  repeat' (first
    | with_reducible apply returns_bind
    | with_reducible apply returns_ite
    | with_reducible exact (returns_pure _ trivial : ReturnsWith (fun _ => True) _)
    | with_reducible exact returns_getState
    | with_reducible exact returns_modifyState _
    | with_reducible exact returns_millis _
    | with_reducible exact returns_resetTRIGGERtimer _
    | with_reducible exact returns_log_system_message _
    | with_reducible exact returns_MotionDetected _ h _ _
    | intro _)

theorem returns_loopDetection (env : Env) (h : Healthy env)
    (hstill : ∀ k, env.stillOk k = true) (fuel : Nat) :
    ReturnsWith (fun _ => True) (loopDetection env (fuel + 4)) := by
  unfold loopDetection
  repeat' (first
    | with_reducible apply returns_bind
    | with_reducible apply returns_ite
    | with_reducible exact (returns_pure _ trivial : ReturnsWith (fun _ => True) _)
    | with_reducible exact returns_getState
    | with_reducible exact returns_loopCapture _ hstill _
    | with_reducible exact returns_motion_detect _
    | with_reducible exact returns_loopDecision _ h _ _
    | intro _)

theorem returns_detectionCycles (env : Env) (h : Healthy env)
    (hstill : ∀ k, env.stillOk k = true) (fuel n : Nat) :
    ReturnsWith (fun _ => True) (detectionCycles env (fuel + 4) n) := by
  induction n with
  | zero => exact returns_pure _ trivial
  | succ n ih =>
    unfold detectionCycles
    exact returns_bind (returns_loopDetection env h hstill fuel) (fun _ _ => ih)

/-- C2. Detection cycles of `loop` run in a row from a fresh start (counter 0, detection
enabled, band `Image_thresholdL..Image_thresholdH`, `tCounterTrigger = N ≥ 1`), with
`motion_detect` counting consecutive detections as the specification says. With a working
camera the cycles all return. When they return and neither the rate limit nor the I/O
gate refused a trigger, one frame is evaluated per cycle, and `MotionDetected` is invoked
on a frame exactly when that frame is a candidate and completes a group of `N` in the
run of consecutive candidate frames it ends (it is the `N`-th candidate in a row since
the last frame that was not a candidate or that fired); `tCounter` ends as the length of
the current run of candidates modulo `N`, so it is 0 after a frame that is not a
candidate. -/
theorem consecutive_detections_required (env : Env) (fuel n : Nat) (s : State)
    (hspec : ∀ k c, env.tCounterAfter k c
      = specCounter s.Image_thresholdL s.Image_thresholdH (env.changes k) c)
    (hfit : ∀ k, env.changes k < 65536)
    (hDE : s.DetectionEnabled = 1) (hN : 1 ≤ s.tCounterTrigger) (h0 : s.tCounter = 0)
    (hfresh : decisionMarks s.trace = []) :
    (Healthy env → (∀ k, env.stillOk k = true) → 4 ≤ fuel →
      (detectionCycles env fuel n s).returned = true) ∧
    ((detectionCycles env fuel n s).returned = true →
      Event.log .tooSoon ∉ (detectionCycles env fuel n s).state.trace →
      Event.log .ioLowIgnored ∉ (detectionCycles env fuel n s).state.trace →
      (frameValues (decisionMarks (detectionCycles env fuel n s).state.trace)).length = n ∧
      firedFlags (decisionMarks (detectionCycles env fuel n s).state.trace)
        = expectedFires s.Image_thresholdL s.Image_thresholdH s.tCounterTrigger []
            (frameValues (decisionMarks (detectionCycles env fuel n s).state.trace)) ∧
      (detectionCycles env fuel n s).state.tCounter
        = trailingRun s.Image_thresholdL s.Image_thresholdH
            (frameValues (decisionMarks (detectionCycles env fuel n s).state.trace))
          % s.tCounterTrigger) := by
  refine ⟨fun hh hstill h4 => ?_, fun hret hrate hgate => ?_⟩
  · obtain ⟨m, rfl⟩ : ∃ m, fuel = m + 4 := ⟨fuel - 4, by omega⟩
    obtain ⟨a, s', hr, -⟩ := returns_detectionCycles env hh hstill m n s
    rw [hr]
    rfl
  · obtain ⟨a, s', hr⟩ := returned_eq_true hret
    rw [hr] at hrate hgate ⊢
    simp only [Res.state] at hrate hgate ⊢
    obtain ⟨new, hm, -, hlen, hfires⟩ :=
      detectionCycles_consecutive env fuel s.Image_thresholdL s.Image_thresholdH
        s.tCounterTrigger hN hspec hfit n s s' [] hDE rfl rfl rfl
        (by rw [h0]; simp [trailingRun]) hr
    rw [hfresh, List.nil_append] at hm
    have hs : Event.log .tooSoon ∉ new := by
      rw [← hm]
      exact fun hmem => hrate (List.mem_of_mem_filter hmem)
    have hg : Event.log .ioLowIgnored ∉ new := by
      rw [← hm]
      exact fun hmem => hgate (List.mem_of_mem_filter hmem)
    obtain ⟨hf, hc⟩ := hfires hs hg
    rw [hm]
    exact ⟨hlen, hf, by simpa using hc⟩

/-- C2 at a sample input: three detections required, six frames of which the second is
below the band. The run of three starts again after the second frame and the fifth frame
fires. -/
theorem consecutive_detections_required_witness :
    (detectionCycles scenarioEnv 4 6 tripleState).returned = true ∧
    frameValues (decisionMarks (detectionCycles scenarioEnv 4 6 tripleState).state.trace)
      = [20, 5, 20, 20, 20, 20] ∧
    firedFlags (decisionMarks (detectionCycles scenarioEnv 4 6 tripleState).state.trace)
      = [false, false, false, false, true, false] ∧
    (frameValues
        (decisionMarks (detectionCycles scenarioEnv 4 6 tripleState).state.trace)).length = 6 ∧
    firedFlags (decisionMarks (detectionCycles scenarioEnv 4 6 tripleState).state.trace)
      = expectedFires tripleState.Image_thresholdL tripleState.Image_thresholdH
          tripleState.tCounterTrigger []
          (frameValues
            (decisionMarks (detectionCycles scenarioEnv 4 6 tripleState).state.trace)) ∧
    (detectionCycles scenarioEnv 4 6 tripleState).state.tCounter
      = trailingRun tripleState.Image_thresholdL tripleState.Image_thresholdH
          (frameValues
            (decisionMarks (detectionCycles scenarioEnv 4 6 tripleState).state.trace))
        % tripleState.tCounterTrigger :=
  ⟨by decide!, by decide!, by decide!,
   (consecutive_detections_required scenarioEnv 4 6 tripleState (fun _ _ => rfl)
      (fun k => by show (if k = 3 then 5 else 20) < 65536; split <;> decide)
      rfl (by decide) rfl rfl).2 (by decide!) (by decide!) (by decide!)⟩

/-! ### The exposure controller -/

theorem AutoAdjustImage_exposure (env : Env) (light : Light) (k : Device)
    (h : k.cfsize = .FRAME_SIZE_MOTION) :
    (AutoAdjustImage env light k).cameraImageExposure
      = (AutoAdjustImage.adjust k).cameraImageExposure := by
  simp [AutoAdjustImage, h, AutoAdjustImage.apply, captureStill, Device.run]

theorem AutoAdjustImage_gain (env : Env) (light : Light) (k : Device)
    (h : k.cfsize = .FRAME_SIZE_MOTION) :
    (AutoAdjustImage env light k).cameraImageGain
      = (AutoAdjustImage.adjust k).cameraImageGain := by
  simp [AutoAdjustImage, h, AutoAdjustImage.apply, captureStill, Device.run]

theorem AutoAdjustImage_otherSize (env : Env) (light : Light) (k : Device)
    (h : k.cfsize ≠ .FRAME_SIZE_MOTION) : AutoAdjustImage env light k = k := by
  simp [AutoAdjustImage, h]

theorem limitExposure_range (k : Device) :
    0 ≤ (AutoAdjustImage.limitExposure k).cameraImageExposure ∧
    (AutoAdjustImage.limitExposure k).cameraImageExposure ≤ 1200 := by
  simp only [AutoAdjustImage.limitExposure]
  split_ifs <;> constructor <;> linarith

theorem limitGain_range (k : Device) :
    0 ≤ (AutoAdjustImage.limitGain k).cameraImageGain ∧
    (AutoAdjustImage.limitGain k).cameraImageGain ≤ 30 := by
  simp only [AutoAdjustImage.limitGain]
  split_ifs <;> constructor <;> linarith

theorem limitGain_exposure (k : Device) :
    (AutoAdjustImage.limitGain k).cameraImageExposure = k.cameraImageExposure := rfl

theorem limitExposure_gain (k : Device) :
    (AutoAdjustImage.limitExposure k).cameraImageGain = k.cameraImageGain := rfl

/-- C11. After `AutoAdjustImage` has made its adjustment (the frame size is the one of
motion detection), `0 <= cameraImageExposure <= 1200` and `0 <= cameraImageGain <= 30`,
whatever the exposure, the gain, the brightness measured and the target brightness were,
with the values taken as exact rationals. -/
theorem AutoAdjustImage_limits (env : Env) (light : Light) (k : Device)
    (h : k.cfsize = .FRAME_SIZE_MOTION) :
    0 ≤ (AutoAdjustImage env light k).cameraImageExposure ∧
    (AutoAdjustImage env light k).cameraImageExposure ≤ 1200 ∧
    0 ≤ (AutoAdjustImage env light k).cameraImageGain ∧
    (AutoAdjustImage env light k).cameraImageGain ≤ 30 := by
  rw [AutoAdjustImage_exposure env light k h, AutoAdjustImage_gain env light k h]
  unfold AutoAdjustImage.adjust
  simp only [limitGain_exposure]
  exact ⟨(limitExposure_range _).1, (limitExposure_range _).2, (limitGain_range _).1,
    (limitGain_range _).2⟩

/-- C11 at a sample input: an exposure of 5000 and a gain of -3 with a dark frame end
as 1200 and 0. -/
theorem AutoAdjustImage_limits_witness :
    (AutoAdjustImage goodEnv steadyLight
      { bootDevice with cameraImageExposure := 5000, cameraImageGain := -3,
                        AveragePix := 10 }).cameraImageExposure = 1200 ∧
    0 ≤ (AutoAdjustImage goodEnv steadyLight
      { bootDevice with cameraImageExposure := 5000, cameraImageGain := -3,
                        AveragePix := 10 }).cameraImageGain ∧
    (AutoAdjustImage goodEnv steadyLight
      { bootDevice with cameraImageExposure := 5000, cameraImageGain := -3,
                        AveragePix := 10 }).cameraImageGain ≤ 30 :=
  ⟨by decide!,
   (AutoAdjustImage_limits goodEnv steadyLight
      { bootDevice with cameraImageExposure := 5000, cameraImageGain := -3,
                        AveragePix := 10 } rfl).2.2.1,
   (AutoAdjustImage_limits goodEnv steadyLight
      { bootDevice with cameraImageExposure := 5000, cameraImageGain := -3,
                        AveragePix := 10 } rfl).2.2.2⟩
/-- C12, counterexample. With target brightness 130, measured brightness 160, gain 0 and
exposure 0, `AutoAdjustImage` leaves the exposure at 0: the value
`exposure - (exposure/25 + 0.2) = -0.2` is raised to 0 by the check for over scale. -/
theorem AutoAdjustImage_exposure_stops_at_zero :
    ({ bootDevice with AveragePix := 160, cameraImageExposure := 0 } : Device).AveragePix
      > (130 : ℚ) + 20 ∧
    (AutoAdjustImage goodEnv steadyLight
      { bootDevice with AveragePix := 160, cameraImageExposure := 0 }).cameraImageExposure = 0 ∧
    (0 : ℚ) - (0 / 25 + 1 / 5) ≠ 0 := by
  decide!

/-- C12, amended. When the frame size is the one of motion detection, the brightness
measured is above `targetBrightness + 20`, the gain is 0 and the exposure `e` is at most
1200, `AutoAdjustImage` sets the exposure to `e - (e/25 + 0.2)`, but not below 0,
and leaves the gain at 0; the exposure is exactly `e - (e/25 + 0.2)` when `e >= 5/24`. -/
theorem AutoAdjustImage_too_bright_no_gain (env : Env) (light : Light) (k : Device)
    (hsize : k.cfsize = .FRAME_SIZE_MOTION)
    (hb : k.AveragePix > (k.targetBrightness : ℚ) + 20) (hg : k.cameraImageGain = 0)
    (he1 : k.cameraImageExposure ≤ 1200) :
    (AutoAdjustImage env light k).cameraImageExposure
      = max 0 (k.cameraImageExposure - (k.cameraImageExposure / 25 + 1 / 5)) ∧
    (AutoAdjustImage env light k).cameraImageGain = 0 ∧
    (5 / 24 ≤ k.cameraImageExposure →
      (AutoAdjustImage env light k).cameraImageExposure
        = k.cameraImageExposure - (k.cameraImageExposure / 25 + 1 / 5)) := by
  rw [AutoAdjustImage_exposure env light k hsize, AutoAdjustImage_gain env light k hsize]
  have hd : ¬ k.AveragePix < (k.targetBrightness : ℚ) - 20 := by linarith
  simp only [AutoAdjustImage.adjust, AutoAdjustImage.bright, AutoAdjustImage.dark,
    AutoAdjustImage.limitExposure, AutoAdjustImage.limitGain, AutoAdjustImage.tooBright,
    AutoAdjustImage.tooDark, hb, hg, hd, lt_self_iff_false, gt_iff_lt, ↓reduceIte]
  refine ⟨?_, ?_, ?_⟩
  · rcases le_total 0 (k.cameraImageExposure - (k.cameraImageExposure / 25 + 1 / 5))
      with h | h
    · rw [max_eq_right h]
      split_ifs <;> linarith
    · rw [max_eq_left h]
      split_ifs <;> linarith
  · norm_num
  · intro h5
    split_ifs <;> linarith

/-- C12 (amended) at a sample input: target 130, brightness 160, gain 0, exposure 30. -/
theorem AutoAdjustImage_too_bright_no_gain_witness :
    (AutoAdjustImage goodEnv steadyLight
      { bootDevice with AveragePix := 160 }).cameraImageExposure = 30 - (30 / 25 + 1 / 5) ∧
    (AutoAdjustImage goodEnv steadyLight { bootDevice with AveragePix := 160 }).cameraImageGain
      = 0 :=
  ⟨(AutoAdjustImage_too_bright_no_gain goodEnv steadyLight
      { bootDevice with AveragePix := 160 } rfl (by decide!) rfl (by decide!)).2.2
      (by decide!),
   (AutoAdjustImage_too_bright_no_gain goodEnv steadyLight
      { bootDevice with AveragePix := 160 } rfl (by decide!) rfl (by decide!)).2.1⟩

/-- C13, counterexample. With target brightness 130, measured brightness 160 and a gain
of 31, a value that `rootButtons` and `LoadSettingsSpiffs` accept, `AutoAdjustImage` sets
the gain to 30 and not to `31 - 0.5`. -/
theorem AutoAdjustImage_gain_31_too_bright :
    ({ bootDevice with AveragePix := 160, cameraImageGain := 31 } : Device).AveragePix
      > (130 : ℚ) + 20 ∧
    (AutoAdjustImage goodEnv steadyLight
      { bootDevice with AveragePix := 160, cameraImageGain := 31 }).cameraImageGain = 30 ∧
    max (0 : ℚ) (31 - 1 / 2) ≠ 30 := by
  decide!

/-- C13, amended. When the frame size is the one of motion detection, the brightness
measured is above `targetBrightness + 20`, and the exposure lies in `[0, 1200]`: if
`0 < gain <= 30`, `AutoAdjustImage` decreases the gain by 0.5, but not below 0, and leaves
the exposure unchanged; and if the exposure comes out smaller than it was, the gain was
not greater than 0. -/
theorem AutoAdjustImage_too_bright_gain (env : Env) (light : Light) (k : Device)
    (hsize : k.cfsize = .FRAME_SIZE_MOTION)
    (hb : k.AveragePix > (k.targetBrightness : ℚ) + 20)
    (he0 : 0 ≤ k.cameraImageExposure) (he1 : k.cameraImageExposure ≤ 1200) :
    (0 < k.cameraImageGain → k.cameraImageGain ≤ 30 →
      (AutoAdjustImage env light k).cameraImageGain = max 0 (k.cameraImageGain - 1 / 2) ∧
      (AutoAdjustImage env light k).cameraImageGain < k.cameraImageGain ∧
      (AutoAdjustImage env light k).cameraImageExposure = k.cameraImageExposure) ∧
    ((AutoAdjustImage env light k).cameraImageExposure < k.cameraImageExposure →
      ¬ k.cameraImageGain > 0) := by
  rw [AutoAdjustImage_exposure env light k hsize, AutoAdjustImage_gain env light k hsize]
  have hd : ¬ k.AveragePix < (k.targetBrightness : ℚ) - 20 := by linarith
  simp only [AutoAdjustImage.adjust, AutoAdjustImage.bright, AutoAdjustImage.dark,
    AutoAdjustImage.limitExposure, AutoAdjustImage.limitGain, AutoAdjustImage.tooBright,
    AutoAdjustImage.tooDark, hb, hd, gt_iff_lt, ↓reduceIte]
  constructor
  · intro hg0 hg1
    simp only [hg0, ↓reduceIte]
    refine ⟨?_, ?_, ?_⟩
    · rcases le_total 0 (k.cameraImageGain - 1 / 2) with h | h
      · rw [max_eq_right h]
        split_ifs <;> linarith
      · rw [max_eq_left h]
        split_ifs <;> linarith
    · split_ifs <;> linarith
    · split_ifs <;> linarith
  · intro hlt hg0
    simp only [hg0, ↓reduceIte] at hlt
    split_ifs at hlt <;> linarith

/-- C13 (amended) at a sample input: target 130, brightness 160, gain 10, exposure 30. -/
theorem AutoAdjustImage_too_bright_gain_witness :
    (AutoAdjustImage goodEnv steadyLight
      { bootDevice with AveragePix := 160, cameraImageGain := 10 }).cameraImageGain
        = max 0 (10 - 1 / 2) ∧
    (AutoAdjustImage goodEnv steadyLight
      { bootDevice with AveragePix := 160, cameraImageGain := 10 }).cameraImageGain < 10 ∧
    (AutoAdjustImage goodEnv steadyLight
      { bootDevice with AveragePix := 160, cameraImageGain := 10 }).cameraImageExposure = 30 :=
  (AutoAdjustImage_too_bright_gain goodEnv steadyLight
    { bootDevice with AveragePix := 160, cameraImageGain := 10 } rfl (by decide!)
    (by decide!) (by decide!)).1 (by decide!) (by decide!)
/-- C14, counterexample. With target brightness 130, measured brightness 100, exposure 30
and a gain of 31, a value that `rootButtons` and `LoadSettingsSpiffs` accept,
`AutoAdjustImage` increases the exposure and changes the gain to 30. -/
theorem AutoAdjustImage_gain_31_too_dark :
    ({ bootDevice with AveragePix := 100, cameraImageGain := 31 } : Device).AveragePix
      < (130 : ℚ) - 20 ∧
    ({ bootDevice with AveragePix := 100, cameraImageGain := 31 } : Device).cameraImageExposure
      < 1200 ∧
    (AutoAdjustImage goodEnv steadyLight
      { bootDevice with AveragePix := 100, cameraImageGain := 31 }).cameraImageExposure
        = 30 + (30 / 25 + 1 / 5) ∧
    (AutoAdjustImage goodEnv steadyLight
      { bootDevice with AveragePix := 100, cameraImageGain := 31 }).cameraImageGain = 30 ∧
    (30 : ℚ) ≠ 31 := by
  decide!

/-- C14, amended. When the frame size is the one of motion detection, the brightness
measured is below `targetBrightness - 20`, the exposure lies in `[0, 1200]` and the gain in
`[0, 30]`: if the exposure is 1200, `AutoAdjustImage` increases the gain by 0.5, but not
above 30, and leaves the exposure at 1200; if the exposure `e` is below 1200, it sets the
exposure to `e + (e/25 + 0.2)`, but not above 1200, which is more than `e`, and leaves the
gain unchanged. -/
theorem AutoAdjustImage_too_dark (env : Env) (light : Light) (k : Device)
    (hsize : k.cfsize = .FRAME_SIZE_MOTION)
    (hd : k.AveragePix < (k.targetBrightness : ℚ) - 20)
    (he0 : 0 ≤ k.cameraImageExposure) (he1 : k.cameraImageExposure ≤ 1200)
    (hg0 : 0 ≤ k.cameraImageGain) (hg1 : k.cameraImageGain ≤ 30) :
    (k.cameraImageExposure ≥ 1200 →
      (AutoAdjustImage env light k).cameraImageGain = min 30 (k.cameraImageGain + 1 / 2) ∧
      (AutoAdjustImage env light k).cameraImageExposure = 1200) ∧
    (k.cameraImageExposure < 1200 →
      (AutoAdjustImage env light k).cameraImageExposure
        = min 1200 (k.cameraImageExposure + (k.cameraImageExposure / 25 + 1 / 5)) ∧
      k.cameraImageExposure < (AutoAdjustImage env light k).cameraImageExposure ∧
      (AutoAdjustImage env light k).cameraImageGain = k.cameraImageGain) := by
  rw [AutoAdjustImage_exposure env light k hsize, AutoAdjustImage_gain env light k hsize]
  have hb : ¬ k.AveragePix > (k.targetBrightness : ℚ) + 20 := by
    have := Nat.cast_nonneg (α := ℚ) k.targetBrightness
    intro h
    linarith
  simp only [AutoAdjustImage.adjust, AutoAdjustImage.bright, AutoAdjustImage.dark,
    AutoAdjustImage.limitExposure, AutoAdjustImage.limitGain, AutoAdjustImage.tooBright,
    AutoAdjustImage.tooDark, hb, hd, ge_iff_le, ↓reduceIte]
  constructor
  · intro h12
    simp only [h12, ↓reduceIte]
    constructor
    · rcases le_total 30 (k.cameraImageGain + 1 / 2) with h | h
      · rw [min_eq_left h]
        split_ifs <;> linarith
      · rw [min_eq_right h]
        split_ifs <;> linarith
    · split_ifs <;> linarith
  · intro hlt
    have hn : ¬ 1200 ≤ k.cameraImageExposure := not_le.mpr hlt
    simp only [hn, ↓reduceIte]
    refine ⟨?_, ?_, ?_⟩
    · rcases le_total 1200 (k.cameraImageExposure + (k.cameraImageExposure / 25 + 1 / 5))
        with h | h
      · rw [min_eq_left h]
        split_ifs <;> linarith
      · rw [min_eq_right h]
        split_ifs <;> linarith
    · split_ifs <;> linarith
    · split_ifs <;> linarith

/-- C14 (amended) at sample inputs: target 130, brightness 100; with exposure 30 and gain
0 the exposure becomes 31.4, with exposure 1200 and gain 10 the gain becomes 10.5. -/
theorem AutoAdjustImage_too_dark_witness :
    ((AutoAdjustImage goodEnv steadyLight
        { bootDevice with AveragePix := 100 }).cameraImageExposure
        = min 1200 (30 + (30 / 25 + 1 / 5)) ∧
      (30 : ℚ) < (AutoAdjustImage goodEnv steadyLight
        { bootDevice with AveragePix := 100 }).cameraImageExposure ∧
      (AutoAdjustImage goodEnv steadyLight
        { bootDevice with AveragePix := 100 }).cameraImageGain = 0) ∧
    (AutoAdjustImage goodEnv steadyLight
        { bootDevice with AveragePix := 100, cameraImageExposure := 1200,
                          cameraImageGain := 10 }).cameraImageGain = 21 / 2 :=
  ⟨(AutoAdjustImage_too_dark goodEnv steadyLight { bootDevice with AveragePix := 100 } rfl
      (by decide!) (by decide!) (by decide!) (by decide!) (by decide!)).2 (by decide!),
   by decide!⟩

/-- C15. When the brightness measured lies within 20 of `targetBrightness`, the exposure
in `[0, 1200]` and the gain in `[0, 30]`, `AutoAdjustImage` leaves exposure and gain
unchanged; and whatever the brightness, the conditions of the adjustment for a frame that
is too bright and of the one for a frame that is too dark do not hold together, so that
a call applies at most one of the two. -/
theorem AutoAdjustImage_within_band (env : Env) (light : Light) (k : Device) :
    ((k.targetBrightness : ℚ) - 20 ≤ k.AveragePix → k.AveragePix ≤ (k.targetBrightness : ℚ) + 20 →
      0 ≤ k.cameraImageExposure → k.cameraImageExposure ≤ 1200 →
      0 ≤ k.cameraImageGain → k.cameraImageGain ≤ 30 →
      (AutoAdjustImage env light k).cameraImageExposure = k.cameraImageExposure ∧
      (AutoAdjustImage env light k).cameraImageGain = k.cameraImageGain) ∧
    ¬ (AutoAdjustImage.tooBright k ∧ AutoAdjustImage.tooDark k) ∧
    (∀ a b : ℚ, AutoAdjustImage.tooBright k →
      AutoAdjustImage.dark a b (AutoAdjustImage.bright a b k) = AutoAdjustImage.bright a b k) ∧
    (∀ a b : ℚ, AutoAdjustImage.tooDark k → AutoAdjustImage.bright a b k = k) := by
  refine ⟨?_, ?_, ?_, ?_⟩
  · intro h1 h2 he0 he1 hg0 hg1
    by_cases hsize : k.cfsize = .FRAME_SIZE_MOTION
    · rw [AutoAdjustImage_exposure env light k hsize, AutoAdjustImage_gain env light k hsize]
      have hb : ¬ k.AveragePix > (k.targetBrightness : ℚ) + 20 := not_lt.mpr h2
      have hd : ¬ k.AveragePix < (k.targetBrightness : ℚ) - 20 := not_lt.mpr h1
      simp only [AutoAdjustImage.adjust, AutoAdjustImage.bright, AutoAdjustImage.dark,
        AutoAdjustImage.limitExposure, AutoAdjustImage.limitGain, AutoAdjustImage.tooBright,
        AutoAdjustImage.tooDark, hb, hd, ↓reduceIte]
      constructor <;> split_ifs <;> linarith
    · rw [AutoAdjustImage_otherSize env light k hsize]
      exact ⟨rfl, rfl⟩
  · rintro ⟨hb, hd⟩
    simp only [AutoAdjustImage.tooBright, AutoAdjustImage.tooDark] at hb hd
    linarith
  · intro a b hb
    have hd : ¬ AutoAdjustImage.tooDark (AutoAdjustImage.bright a b k) := by
      simp only [AutoAdjustImage.tooBright] at hb
      simp only [AutoAdjustImage.tooDark, AutoAdjustImage.bright, AutoAdjustImage.tooBright, hb,
        ↓reduceIte]
      split_ifs <;> simp only [not_lt] <;> linarith
    simp only [AutoAdjustImage.dark, hd, ↓reduceIte]
  · intro a b hd
    have hb : ¬ AutoAdjustImage.tooBright k := by
      simp only [AutoAdjustImage.tooBright, AutoAdjustImage.tooDark] at hd ⊢
      linarith
    simp only [AutoAdjustImage.bright, hb, ↓reduceIte]

/-- C15 at a sample input: target 130, brightness 140, exposure 30 and gain 0 are left
as they are. -/
theorem AutoAdjustImage_within_band_witness :
    (AutoAdjustImage goodEnv steadyLight
      { bootDevice with AveragePix := 140 }).cameraImageExposure = 30 ∧
    (AutoAdjustImage goodEnv steadyLight { bootDevice with AveragePix := 140 }).cameraImageGain
      = 0 :=
  (AutoAdjustImage_within_band goodEnv steadyLight { bootDevice with AveragePix := 140 }).1
    (by decide!) (by decide!) (by decide!) (by decide!) (by decide!) (by decide!)
@[simp] theorem run_emit_trace (e : Event) (k : Device) :
    (Device.run (emit e) k).trace = k.trace ++ [e] := rfl

@[simp] theorem run_millis_trace (env : Env) (k : Device) :
    (Device.run (millis env) k).trace = k.trace := rfl

@[simp] theorem captureStill_trace (env : Env) (light : Light) (k : Device) :
    (captureStill env light k).trace = k.trace ++ [.capture_still (env.stillOk k.asked)] := rfl

theorem sensorSettings_append (a b : List Event) :
    sensorSettings (a ++ b) = sensorSettings a ++ sensorSettings b := by
  simp [sensorSettings]

/-- C16. In a maintenance tick of `loop` with `targetBrightness == 0`, whether the periodic
tasks are due or not and whatever the brightness measured, `cameraImageExposure` and
`cameraImageGain` are unchanged, no call of `cameraImageSettings` is made, and the frame is
not committed; the tick leaves `targetBrightness` at 0. -/
theorem loopMaintenance_controller_off (env : Env) (light : Light) (k : Device)
    (h : k.targetBrightness = 0) :
    (loopMaintenance env light k).cameraImageExposure = k.cameraImageExposure ∧
    (loopMaintenance env light k).cameraImageGain = k.cameraImageGain ∧
    sensorSettings (loopMaintenance env light k).trace = sensorSettings k.trace ∧
    frameCommits (loopMaintenance env light k).trace = frameCommits k.trace ∧
    (loopMaintenance env light k).targetBrightness = 0 := by
  unfold loopMaintenance loopMaintenance.body
  by_cases hdue : maintenanceDue ((Device.run (millis env) k).clock % U32)
      (Device.run (millis env) k)
  · simp only [hdue, ↓reduceIte]
    by_cases h0 : k.DetectionEnabled = 0
    · have hne : ¬ (Device.run (millis env) k).DetectionEnabled ≠ 0 := by
        simpa [Device.run, millis, Res.state] using h0
      simp [hne, Device.run, captureStill, millis, emit, modifyState, capture_still, Res.state,
        h, h0, sensorSettings, frameCommits]
    · have hne : (Device.run (millis env) k).DetectionEnabled ≠ 0 := by
        simpa [Device.run, millis, Res.state] using h0
      simp [hne, Device.run, captureStill, millis, emit, modifyState, capture_still, Res.state,
        h, h0, sensorSettings, frameCommits]
  · simp only [hdue, ↓reduceIte]
    exact ⟨rfl, rfl, rfl, rfl, h⟩

/-- C16 at a sample input: the periodic tasks are due 7 seconds after boot, detection is
disabled so that a frame is captured, the target brightness is 0. -/
theorem loopMaintenance_controller_off_witness :
    maintenanceDue 7000 { bootDevice with targetBrightness := 0, DetectionEnabled := 0 } ∧
    (loopMaintenance slowEnv steadyLight
      { bootDevice with targetBrightness := 0, DetectionEnabled := 0 }).trace
      = [.WIFIcheck, .illuminationLed false, .capture_still true] ∧
    (loopMaintenance slowEnv steadyLight
      { bootDevice with targetBrightness := 0, DetectionEnabled := 0 }).cameraImageExposure
      = 30 :=
  ⟨by decide!, by decide!,
   (loopMaintenance_controller_off slowEnv steadyLight
      { bootDevice with targetBrightness := 0, DetectionEnabled := 0 } rfl).1⟩

/-! ### The settings procedures -/

theorem illuminatorButton_weak (env : Env) : Keeps Weak (illuminatorButton env) := by
  unfold illuminatorButton
  repeat' (first
    | with_reducible apply Keeps.bind
    | with_reducible apply Keeps.ite
    | with_reducible exact Keeps.pure _
    | with_reducible exact Keeps.getState
    | with_reducible exact checkCameraIsFree_keeps Weak_of_plumb Weak.setDetection _
    | with_reducible exact pauseDetection_keeps Weak.setDetection
    | with_reducible exact resumeDetection_keeps Weak.setDetection
    | with_reducible exact Keeps.weak_of_plumb (Keeps.setReqLEDStatus_plumb _)
    | with_reducible exact Keeps.weak_of_plumb (Keeps.resetTRIGGERtimer_plumb _)
    | (with_reducible refine Keeps.weak_of_plumb (Keeps.emit_plumb _ ?_ ?_)) <;> rfl
    | (with_reducible refine Keeps.weak_of_plumb (Keeps.log_plumb _ ?_)) <;> rfl
    | intro _)

theorem SameMask_trans {a b c : Device} (h1 : SameMask a b) (h2 : SameMask b c) :
    SameMask a c := ⟨h2.1.trans h1.1, h2.2.trans h1.2⟩

theorem SameGrid_trans {a b c : Device} (h1 : SameGrid a b) (h2 : SameGrid b c) :
    SameGrid a c := ⟨h2.1.trans h1.1, h2.2.1.trans h1.2.1, h2.2.2.trans h1.2.2⟩

theorem SameGrid.mask {a b : Device} (h : SameGrid a b) : SameMask a b := ⟨h.1, h.2.1⟩

theorem SaveSettingsSpiffs_grid (g : MotionH) (env : Env) (k : Device) :
    SameGrid k (SaveSettingsSpiffs g env k) := by
  simp only [SaveSettingsSpiffs]
  split_ifs <;> exact ⟨rfl, rfl, rfl⟩

@[simp] theorem SaveSettingsSpiffs_mask_frame (g : MotionH) (env : Env) (k : Device) :
    (SaveSettingsSpiffs g env k).mask_frame = k.mask_frame := (SaveSettingsSpiffs_grid g env k).1

@[simp] theorem SaveSettingsSpiffs_mask_active (g : MotionH) (env : Env) (k : Device) :
    (SaveSettingsSpiffs g env k).mask_active = k.mask_active :=
  (SaveSettingsSpiffs_grid g env k).2.1

@[simp] theorem SaveSettingsSpiffs_Image_thresholdH (g : MotionH) (env : Env) (k : Device) :
    (SaveSettingsSpiffs g env k).Image_thresholdH = k.Image_thresholdH :=
  (SaveSettingsSpiffs_grid g env k).2.2

@[simp] theorem logText_mask_frame (text : String) (k : Device) :
    (logText text k).mask_frame = k.mask_frame := rfl

@[simp] theorem logText_mask_active (text : String) (k : Device) :
    (logText text k).mask_active = k.mask_active := rfl

@[simp] theorem logText_Image_thresholdH (text : String) (k : Device) :
    (logText text k).Image_thresholdH = k.Image_thresholdH := rfl

@[simp] theorem log_state_mask_frame (msg : String) (state : Bool) (k : Device) :
    (log_state msg state k).mask_frame = k.mask_frame := rfl

@[simp] theorem log_state_mask_active (msg : String) (state : Bool) (k : Device) :
    (log_state msg state k).mask_active = k.mask_active := rfl

@[simp] theorem log_state_Image_thresholdH (msg : String) (state : Bool) (k : Device) :
    (log_state msg state k).Image_thresholdH = k.Image_thresholdH := rfl

@[simp] theorem run_mask_frame {α : Type} (m : M α) (k : Device) :
    (Device.run m k).mask_frame = k.mask_frame := rfl

@[simp] theorem run_mask_active {α : Type} (m : M α) (k : Device) :
    (Device.run m k).mask_active = k.mask_active := rfl

@[simp] theorem run_resetTRIGGERtimer_Image_thresholdH (env : Env) (k : Device) :
    (Device.run (resetTRIGGERtimer env) k).Image_thresholdH = k.Image_thresholdH := rfl

@[simp] theorem run_emit_Image_thresholdH (e : Event) (k : Device) :
    (Device.run (emit e) k).Image_thresholdH = k.Image_thresholdH := rfl

@[simp] theorem run_log_Image_thresholdH (m : Msg) (k : Device) :
    (Device.run (log_system_message m) k).Image_thresholdH = k.Image_thresholdH := rfl

@[simp] theorem run_illuminatorButton_Image_thresholdH (env : Env) (k : Device) :
    (Device.run (illuminatorButton env) k).Image_thresholdH = k.Image_thresholdH :=
  (illuminatorButton_weak env k.toState).2.2.2.2.2.2.1

theorem rootButtons.email_grid (g : MotionH) (env : Env) (req : Request) (k : Device) :
    SameGrid k (rootButtons.email g env req k) := by
  simp only [rootButtons.email, SameGrid]
  split_ifs <;> simp

theorem rootButtons.ftp_grid (g : MotionH) (env : Env) (req : Request) (k : Device) :
    SameGrid k (rootButtons.ftp g env req k) := by
  simp only [rootButtons.ftp, SameGrid]
  split_ifs <;> simp

theorem rootButtons.post_grid (g : MotionH) (env : Env) (req : Request) (k : Device) :
    SameGrid k (rootButtons.post g env req k) := by
  simp only [rootButtons.post, SameGrid]
  split_ifs <;> simp

theorem rootButtons.wipeS_grid (g : MotionH) (env : Env) (req : Request) (k : Device) :
    SameGrid k (rootButtons.wipeS g env req k) := by
  simp only [rootButtons.wipeS, SameGrid]
  split_ifs <;> simp

theorem rootButtons.daynight_grid (g : MotionH) (env : Env) (req : Request) (k : Device) :
    SameGrid k (rootButtons.daynight g env req k) := by
  simp only [rootButtons.daynight, SameGrid]
  split_ifs <;> simp

theorem rootButtons.dblockt_grid (g : MotionH) (env : Env) (req : Request) (k : Device) :
    SameGrid k (rootButtons.dblockt g env req k) := by
  simp only [rootButtons.dblockt, SameGrid]
  split_ifs <;> simp

theorem rootButtons.dimagetl_grid (g : MotionH) (env : Env) (req : Request) (k : Device) :
    SameGrid k (rootButtons.dimagetl g env req k) := by
  simp only [rootButtons.dimagetl, SameGrid]
  split_ifs <;> simp

theorem rootButtons.dimageth_mask (g : MotionH) (env : Env) (req : Request) (k : Device) :
    SameMask k (rootButtons.dimageth g env req k) := by
  simp only [rootButtons.dimageth, SameMask]
  split_ifs <;> simp

theorem rootButtons.exp_grid (g : MotionH) (env : Env) (req : Request) (k : Device) :
    SameGrid k (rootButtons.exp g env req k) := by
  simp only [rootButtons.exp, SameGrid]
  split_ifs <;> simp

theorem rootButtons.gain_grid (g : MotionH) (env : Env) (req : Request) (k : Device) :
    SameGrid k (rootButtons.gain g env req k) := by
  simp only [rootButtons.gain, SameGrid]
  split_ifs <;> simp

theorem rootButtons.refreshRate_grid (g : MotionH) (env : Env) (req : Request)
    (k : Device) : SameGrid k (rootButtons.refreshRate g env req k) := by
  simp only [rootButtons.refreshRate, SameGrid]
  split_ifs <;> simp

theorem rootButtons.invert_grid (g : MotionH) (env : Env) (req : Request) (k : Device) :
    SameGrid k (rootButtons.invert g env req k) := by
  simp only [rootButtons.invert, SameGrid]
  split_ifs <;> simp

theorem rootButtons.emailtime_grid (g : MotionH) (env : Env) (req : Request) (k : Device) :
    SameGrid k (rootButtons.emailtime g env req k) := by
  simp only [rootButtons.emailtime, SameGrid]
  split_ifs <;> simp

theorem rootButtons.triggertime_grid (g : MotionH) (env : Env) (req : Request)
    (k : Device) : SameGrid k (rootButtons.triggertime g env req k) := by
  simp only [rootButtons.triggertime, SameGrid]
  split_ifs <;> simp

theorem rootButtons.consec_grid (g : MotionH) (env : Env) (req : Request) (k : Device) :
    SameGrid k (rootButtons.consec g env req k) := by
  simp only [rootButtons.consec, SameGrid]
  split_ifs <;> simp

theorem rootButtons.illuminator_grid (env : Env) (req : Request) (k : Device) :
    SameGrid k (rootButtons.illuminator env req k) := by
  simp only [rootButtons.illuminator, SameGrid]
  split_ifs <;> simp

theorem rootButtons.flash_grid (g : MotionH) (env : Env) (req : Request) (k : Device) :
    SameGrid k (rootButtons.flash g env req k) := by
  simp only [rootButtons.flash, SameGrid]
  split_ifs <;> simp

theorem rootButtons.detection_grid (g : MotionH) (env : Env) (req : Request) (k : Device) :
    SameGrid k (rootButtons.detection g env req k) := by
  simp only [rootButtons.detection, SameGrid]
  split_ifs <;> simp
theorem rootButtons_fold_cells (req : Request) (cs : List (Nat × Nat))
    (st : rootButtons.Grid) :
    (cs.foldl (rootButtons.cell req) st).mask_active
      = st.mask_active + cs.countP (fun c => req.cell c.1 c.2) ∧
    (∀ x y, (cs.foldl (rootButtons.cell req) st).mask_frame x y
      = if (x, y) ∈ cs then req.cell x y else st.mask_frame x y) ∧
    ((cs.foldl (rootButtons.cell req) st).maskChanged = true
      ↔ st.maskChanged = true ∨ ∃ c ∈ cs, req.cell c.1 c.2 ≠ st.mask_frame c.1 c.2) := by
  induction cs generalizing st with
  | nil => simp
  | cons c cs ih =>
    obtain ⟨h1, h2, h3⟩ := ih (rootButtons.cell req st c)
    simp only [List.foldl_cons]
    have hframe : ∀ x y, (rootButtons.cell req st c).mask_frame x y
        = if (x, y) = c then req.cell x y else st.mask_frame x y := by
      intro x y
      simp only [rootButtons.cell]
      by_cases hc : (x, y) = c
      · subst hc
        by_cases hq : req.cell x y = true <;> simp [hq, setCell]
      · have hc' : ¬ (x = c.1 ∧ y = c.2) := fun h => hc (Prod.ext h.1 h.2)
        by_cases hq : req.cell c.1 c.2 = true <;> simp [hq, setCell, hc, hc']
    have hchanged : (rootButtons.cell req st c).maskChanged = true
        ↔ st.maskChanged = true ∨ req.cell c.1 c.2 ≠ st.mask_frame c.1 c.2 := by
      simp only [rootButtons.cell]
      by_cases hq : req.cell c.1 c.2 = true
      · by_cases hm : st.mask_frame c.1 c.2 = true <;> simp [hq, hm]
      · by_cases hm : st.mask_frame c.1 c.2 = true <;> simp [hq, hm]
    have hactive : (rootButtons.cell req st c).mask_active
        = st.mask_active + if req.cell c.1 c.2 then 1 else 0 := by
      simp only [rootButtons.cell]
      by_cases hq : req.cell c.1 c.2 = true <;> simp [hq]
    refine ⟨?_, ?_, ?_⟩
    · rw [h1, hactive, List.countP_cons]
      by_cases hq : req.cell c.1 c.2 = true
      · simp [hq]; omega
      · simp [hq]
    · intro x y
      rw [h2, hframe]
      by_cases hm : (x, y) ∈ cs
      · simp [hm]
      · by_cases hc : (x, y) = c
        · simp [hc]
        · simp [hm, hc]
    · rw [h3, hchanged]
      constructor
      · rintro (h | ⟨c', hc', hne⟩)
        · rcases h with h | h
          · exact Or.inl h
          · exact Or.inr ⟨c, List.mem_cons_self _ _, h⟩
        · rw [hframe] at hne
          by_cases hcc : (c'.1, c'.2) = c
          · simp [hcc] at hne
          · simp only [hcc, ↓reduceIte] at hne
            exact Or.inr ⟨c', List.mem_cons_of_mem _ hc', hne⟩
      · rintro (h | ⟨c', hc', hne⟩)
        · exact Or.inl (Or.inl h)
        · rcases List.mem_cons.mp hc' with rfl | hmem
          · exact Or.inl (Or.inr hne)
          · by_cases hcc : (c'.1, c'.2) = c
            · refine Or.inl (Or.inr ?_)
              rw [← hcc]
              exact hne
            · refine Or.inr ⟨c', hmem, ?_⟩
              rw [hframe]
              simpa [hcc] using hne

theorem mem_maskCells (g : MotionH) (x y : Nat) :
    (x, y) ∈ maskCells g ↔ x < g.mask_columns ∧ y < g.mask_rows := by
  simp only [maskCells, List.mem_flatMap, List.mem_range, List.mem_map, Prod.mk.injEq]
  constructor
  · rintro ⟨y', hy, x', hx, rfl, rfl⟩
    exact ⟨hx, hy⟩
  · rintro ⟨hx, hy⟩
    exact ⟨y, hy, x, hx, rfl, rfl⟩

theorem rootButtons.scan_spec (g : MotionH) (req : Request) (k : Device) :
    (rootButtons.scan g req k).mask_active
      = (maskCells g).countP (fun c => req.cell c.1 c.2) ∧
    (∀ x y, (rootButtons.scan g req k).mask_frame x y
      = if x < g.mask_columns ∧ y < g.mask_rows then req.cell x y else k.mask_frame x y) ∧
    ((rootButtons.scan g req k).maskChanged = true
      ↔ ∃ x y, x < g.mask_columns ∧ y < g.mask_rows ∧ req.cell x y ≠ k.mask_frame x y) := by
  obtain ⟨h1, h2, h3⟩ := rootButtons_fold_cells req (maskCells g)
    { mask_frame := k.mask_frame, mask_active := 0, maskChanged := false }
  refine ⟨by simpa [rootButtons.scan] using h1, ?_, ?_⟩
  · intro x y
    have := h2 x y
    simp only [mem_maskCells] at this
    exact this
  · simp only [rootButtons.scan]
    rw [h3]
    simp only [Bool.false_eq_true, false_or]
    constructor
    · rintro ⟨⟨x, y⟩, hc, hne⟩
      exact ⟨x, y, ((mem_maskCells g x y).mp hc).1, ((mem_maskCells g x y).mp hc).2, hne⟩
    · rintro ⟨x, y, hx, hy, hne⟩
      exact ⟨(x, y), (mem_maskCells g x y).mpr ⟨hx, hy⟩, hne⟩
theorem rootButtons.beforeMask_mask (g : MotionH) (env : Env) (req : Request) (k : Device) :
    SameMask k (rootButtons.beforeMask g env req k) := by
  unfold rootButtons.beforeMask
  refine SameMask_trans (rootButtons.email_grid g env req _).mask ?_
  refine SameMask_trans (rootButtons.ftp_grid g env req _).mask ?_
  refine SameMask_trans (rootButtons.post_grid g env req _).mask ?_
  refine SameMask_trans (rootButtons.wipeS_grid g env req _).mask ?_
  refine SameMask_trans (rootButtons.daynight_grid g env req _).mask ?_
  refine SameMask_trans (rootButtons.dblockt_grid g env req _).mask ?_
  refine SameMask_trans (rootButtons.dimagetl_grid g env req _).mask ?_
  refine SameMask_trans (rootButtons.dimageth_mask g env req _) ?_
  refine SameMask_trans (rootButtons.exp_grid g env req _).mask ?_
  refine SameMask_trans (rootButtons.gain_grid g env req _).mask ?_
  refine SameMask_trans (rootButtons.refreshRate_grid g env req _).mask ?_
  exact (rootButtons.invert_grid g env req _).mask

theorem rootButtons.afterMask_grid (g : MotionH) (env : Env) (req : Request) (k : Device) :
    SameGrid (rootButtons.mask g env req (rootButtons.beforeMask g env req k))
      (rootButtons g env req k) := by
  unfold rootButtons rootButtons.beforeMask
  refine SameGrid_trans (rootButtons.emailtime_grid g env req _) ?_
  refine SameGrid_trans (rootButtons.triggertime_grid g env req _) ?_
  refine SameGrid_trans (rootButtons.consec_grid g env req _) ?_
  refine SameGrid_trans (rootButtons.illuminator_grid env req _) ?_
  refine SameGrid_trans (rootButtons.flash_grid g env req _) ?_
  exact rootButtons.detection_grid g env req _

theorem rootButtons.mask_changed (g : MotionH) (env : Env) (req : Request) (k : Device)
    (hs : req.submit = true) (hc : (rootButtons.scan g req k).maskChanged = true) :
    (rootButtons.mask g env req k).mask_frame = (rootButtons.scan g req k).mask_frame ∧
    (rootButtons.mask g env req k).mask_active = (rootButtons.scan g req k).mask_active ∧
    (rootButtons.mask g env req k).Image_thresholdH
      = (rootButtons.scan g req k).mask_active * g.blocksPerMaskUnit := by
  simp [rootButtons.mask, hs, hc]

theorem rootButtons.mask_unchanged (g : MotionH) (env : Env) (req : Request) (k : Device)
    (hs : req.submit = true) (hc : (rootButtons.scan g req k).maskChanged = false) :
    (rootButtons.mask g env req k).mask_frame = (rootButtons.scan g req k).mask_frame ∧
    (rootButtons.mask g env req k).mask_active = (rootButtons.scan g req k).mask_active ∧
    (rootButtons.mask g env req k).Image_thresholdH = k.Image_thresholdH := by
  simp [rootButtons.mask, hs, hc]

/-- C18, counterexample. The high threshold is 50 and all 12 cells of the mask are set;
a submit that clears cell `(0, 0)` leaves 11 cells, a capacity of 176 blocks, and a high
threshold of 176, not `min(50, 176) = 50`. -/
theorem rootButtons_raises_high_threshold :
    uncheckFirst.submit = true ∧
    uncheckFirst.cell 0 0 ≠ bootDevice.mask_frame 0 0 ∧
    (rootButtons sampleH goodEnv uncheckFirst
      { bootDevice with Image_thresholdH := 50 }).mask_active = 11 ∧
    (rootButtons sampleH goodEnv uncheckFirst
      { bootDevice with Image_thresholdH := 50 }).Image_thresholdH = 176 ∧
    min 50 (11 * sampleH.blocksPerMaskUnit) ≠ 176 := by
  decide!

/-- C18, amended. When a `rootButtons` submit changes the mask (the check box of some cell
differs from the cell), the new `Image_thresholdH` equals `mask_active * blocksPerMaskUnit`
with the new `mask_active`, whatever the high threshold was or was set to by the same
request: the threshold is reset to the new capacity, also when it was below it. The new
`mask_active` is the number of check boxes ticked and the new mask is the one of the check
boxes. -/
theorem rootButtons_mask_change_resets_high_threshold (g : MotionH) (env : Env)
    (req : Request) (k : Device) (hs : req.submit = true)
    (hc : ∃ x y, x < g.mask_columns ∧ y < g.mask_rows ∧ req.cell x y ≠ k.mask_frame x y) :
    (rootButtons g env req k).Image_thresholdH
      = (rootButtons g env req k).mask_active * g.blocksPerMaskUnit ∧
    (rootButtons g env req k).mask_active
      = (maskCells g).countP (fun c => req.cell c.1 c.2) ∧
    (∀ x y, x < g.mask_columns → y < g.mask_rows →
      (rootButtons g env req k).mask_frame x y = req.cell x y) := by
  have hE := rootButtons.beforeMask_mask g env req k
  have hL := rootButtons.afterMask_grid g env req k
  obtain ⟨s1, s2, s3⟩ := rootButtons.scan_spec g req (rootButtons.beforeMask g env req k)
  have hchanged : (rootButtons.scan g req (rootButtons.beforeMask g env req k)).maskChanged
      = true := by
    rw [s3, hE.1]
    exact hc
  obtain ⟨m1, m2, m3⟩ := rootButtons.mask_changed g env req _ hs hchanged
  refine ⟨?_, ?_, ?_⟩
  · rw [hL.2.2, hL.2.1, m3, m2]
  · rw [hL.2.1, m2, s1]
  · intro x y hx hy
    rw [hL.1, m1, s2]
    simp [hx, hy]

/-- C18 (amended) at a sample input: all 12 cells set, the submit clears cell `(0, 0)`. -/
theorem rootButtons_mask_change_resets_high_threshold_witness :
    (rootButtons sampleH goodEnv uncheckFirst bootDevice).Image_thresholdH
      = (rootButtons sampleH goodEnv uncheckFirst bootDevice).mask_active
          * sampleH.blocksPerMaskUnit ∧
    (rootButtons sampleH goodEnv uncheckFirst bootDevice).mask_active = 11 :=
  ⟨(rootButtons_mask_change_resets_high_threshold sampleH goodEnv uncheckFirst bootDevice rfl
      ⟨0, 0, by decide, by decide, by decide⟩).1,
   by decide!⟩
/-- C17, at the failing input. From the settings of `handleDefault` two requests for the
root page are made: a submit that clears cell `(0, 0)`, which leaves 11 cells and sets
the high threshold to the capacity 176, and a submit of the same mask with 192 entered as
the high threshold. `rootButtons` accepts 192 and saves it; `handleRoot` then lowers the
value in memory to 176, but the file keeps 192. When `LoadSettingsSpiffs` reads that file
(on the next boot) it ends with `mask_active == 11` and `Image_thresholdH == 192`, above
the capacity `11 * 16 = 176`. -/
theorem LoadSettingsSpiffs_high_threshold_above_capacity :
    (handleRoot sampleH goodEnv uncheckFirst bootDevice).Image_thresholdH = 176 ∧
    (handleRoot sampleH goodEnv uncheckFirst bootDevice).mask_active = 11 ∧
    (handleRoot sampleH goodEnv uncheckFirstHigh192
      (handleRoot sampleH goodEnv uncheckFirst bootDevice)).Image_thresholdH = 176 ∧
    (LoadSettingsSpiffs sampleH
      { bootDevice with settingsFile := fileAfterRequests }).mask_active = 11 ∧
    (LoadSettingsSpiffs sampleH
      { bootDevice with settingsFile := fileAfterRequests }).Image_thresholdH = 192 ∧
    maskCapacity sampleH (LoadSettingsSpiffs sampleH
      { bootDevice with settingsFile := fileAfterRequests }) = 176 ∧
    ¬ (LoadSettingsSpiffs sampleH
        { bootDevice with settingsFile := fileAfterRequests }).Image_thresholdH
      ≤ maskCapacity sampleH (LoadSettingsSpiffs sampleH
        { bootDevice with settingsFile := fileAfterRequests }) := by
  decide!

/-- C19, at the failing input. From the settings of `handleDefault`, a submit of the root
page with only the four check boxes of row 0 ticked and 150 entered as the low threshold:
`rootButtons` accepts 150 (it is below 192), and after `rootButtons`, as after
`handleRoot`, `Image_thresholdL == 150` while the capacity is `4 * 16 = 64`. Likewise
`LoadSettingsSpiffs` accepts 255 on the line of the low threshold, above the capacity 192
of the full mask. -/
theorem low_threshold_above_capacity :
    (rootButtons sampleH goodEnv topRowLow150 bootDevice).Image_thresholdL = 150 ∧
    maskCapacity sampleH (rootButtons sampleH goodEnv topRowLow150 bootDevice) = 64 ∧
    (handleRoot sampleH goodEnv topRowLow150 bootDevice).Image_thresholdL = 150 ∧
    maskCapacity sampleH (handleRoot sampleH goodEnv topRowLow150 bootDevice) = 64 ∧
    (LoadSettingsSpiffs sampleH
      { bootDevice with settingsFile := fileWith 2 (.number 255) }).Image_thresholdL = 255 ∧
    maskCapacity sampleH (LoadSettingsSpiffs sampleH
      { bootDevice with settingsFile := fileWith 2 (.number 255) }) = 192 := by
  decide!

/-- C20, at the failing input. `ReadLineSpiffs` stores `toInt()` of the line in a
`uint16_t`, so the range tests see the number modulo 65536. With `Block_threshold == 7`
before, a settings file whose Block_threshold line reads 65537, or -65535, makes
`LoadSettingsSpiffs` set `Block_threshold` to 1, although neither number lies in 1..255;
a line that reads 300 or -1 is refused and leaves 7, and the other settings are loaded as
written in every case. -/
theorem LoadSettingsSpiffs_accepts_out_of_range :
    bootDevice.Block_threshold = 7 ∧
    (LoadSettingsSpiffs sampleH
      { bootDevice with settingsFile := fileWith 1 (.number 65537) }).Block_threshold = 1 ∧
    (LoadSettingsSpiffs sampleH
      { bootDevice with settingsFile := fileWith 1 (.number (-65535)) }).Block_threshold = 1 ∧
    (LoadSettingsSpiffs sampleH
      { bootDevice with settingsFile := fileWith 1 (.number 300) }).Block_threshold = 7 ∧
    (LoadSettingsSpiffs sampleH
      { bootDevice with settingsFile := fileWith 1 (.number (-1)) }).Block_threshold = 7 ∧
    (LoadSettingsSpiffs sampleH
      { bootDevice with settingsFile := fileWith 1 (.number 65537) }).Image_thresholdL = 15 ∧
    (LoadSettingsSpiffs sampleH
      { bootDevice with settingsFile := fileWith 6 (.number 65537) }).TriggerLimitTime = 1 := by
  decide!

/-- C21, at the failing input. With exposure 30 and gain 0, both in range, the argument
`gain=31` of `rootButtons` is accepted (the test is `val <= 31`) and leaves
`cameraImageGain == 31`; `LoadSettingsSpiffs` likewise accepts 31 on the line of the gain
(its test is `tnum > 31`). -/
theorem gain_31_is_accepted :
    bootDevice.cameraImageExposure = 30 ∧ bootDevice.cameraImageGain = 0 ∧
    (rootButtons sampleH goodEnv { noRequest with gain := .value 31 } bootDevice).cameraImageGain
      = 31 ∧
    (LoadSettingsSpiffs sampleH
      { bootDevice with settingsFile := fileWith 12 (.number 31) }).cameraImageGain = 31 ∧
    ¬ (31 : ℚ) ≤ 30 := by
  decide!

/-- C28, at the failing input. The argument `consec=50` of `rootButtons` is accepted (1 to
100) and saved; `LoadSettingsSpiffs` refuses a number of consecutive detections above 31,
so that loading the file just saved leaves `tCounterTrigger` at the value it had, here 1,
instead of 50. -/
theorem saved_consecutive_detections_not_restored :
    (rootButtons sampleH goodEnv { noRequest with consec := .value 50 }
      bootDevice).tCounterTrigger = 50 ∧
    (rootButtons sampleH goodEnv { noRequest with consec := .value 50 }
      bootDevice).DetectionEnabled = 1 ∧
    (LoadSettingsSpiffs sampleH
      { bootDevice with
        settingsFile := (rootButtons sampleH goodEnv { noRequest with consec := .value 50 }
          bootDevice).settingsFile }).tCounterTrigger = 1 ∧
    (LoadSettingsSpiffs sampleH
      { bootDevice with
        settingsFile := .lines (SaveSettingsSpiffs.lines sampleH
          { bootDevice with tCounterTrigger := 50 }) }).tCounterTrigger = 1 := by
  decide!

/-- C29, at the failing input. All 12 cells of the mask are set and the settings file has
5 on the line of cell `(0, 0)`: `LoadSettingsSpiffs` leaves that cell set but does not
count it, and ends with `mask_active == 11` while 12 cells have `mask_frame[x][y] == 1`. -/
theorem LoadSettingsSpiffs_miscounts_mask :
    bootDevice.mask_frame 0 0 = true ∧
    (LoadSettingsSpiffs sampleH
      { bootDevice with settingsFile := fileWith 18 (.number 5) }).mask_frame 0 0 = true ∧
    (LoadSettingsSpiffs sampleH
      { bootDevice with settingsFile := fileWith 18 (.number 5) }).mask_active = 11 ∧
    activeCells sampleH (LoadSettingsSpiffs sampleH
      { bootDevice with settingsFile := fileWith 18 (.number 5) }).mask_frame = 12 := by
  decide!
theorem resetTRIGGERtimer_timer (env : Env) (s s' : State)
    (h : resetTRIGGERtimer env s = .ok () s') : s'.TRIGGERtimer = s'.clock % U32 := by
  simp only [resetTRIGGERtimer, bind_apply, M.bind, millis, modifyState_apply,
    Res.ok.injEq, true_and] at h
  subst h
  rfl

theorem RestartCamera_timer (env : Env) (fuel : Nat) (format : pixformat_t) (s s' : State)
    (h : RestartCamera env fuel format s = .ok () s') :
    s'.TRIGGERtimer = s'.clock % U32 := by
  cases fuel with
  | zero => simp [RestartCamera, outOfFuel] at h
  | succ n =>
    unfold RestartCamera at h
    obtain ⟨_, s1, -, h⟩ := bind_eq_ok h
    obtain ⟨_, s2, -, h⟩ := bind_eq_ok h
    obtain ⟨ok, s3, -, h⟩ := bind_eq_ok h
    dsimp only at h
    split at h
    · obtain ⟨_, s4, -, h⟩ := bind_eq_ok h
      exact resetTRIGGERtimer_timer env _ _ h
    · obtain ⟨_, s4, -, h⟩ := bind_eq_ok h
      obtain ⟨_, s5, -, h⟩ := bind_eq_ok h
      obtain ⟨ok2, s6, -, h⟩ := bind_eq_ok h
      split at h
      · obtain ⟨_, s7, -, h⟩ := bind_eq_ok h
        exact resetTRIGGERtimer_timer env _ _ h
      · obtain ⟨_, s7, -, h⟩ := bind_eq_ok h
        obtain ⟨_, s8, -, h⟩ := bind_eq_ok h
        exact resetTRIGGERtimer_timer env _ _ h

theorem not_ratePermits_of_recent (env : Env) (s : State) (c : Nat) (hc : c ≤ s.clock)
    (ht : s.TRIGGERtimer = c % U32)
    (hsoon : s.clock + env.elapsed s.asked < c + s.TriggerLimitTime * 1000) :
    ¬ ratePermits env s := by
  have hle := sinceTrigger_le (s.clock + env.elapsed s.asked) c (by omega)
  simp only [ratePermits, ht]
  omega

theorem loopDecision_no_invocation (env : Env) (fuel changes : Nat) (s : State)
    (hr : ¬ ratePermits env s) :
    (loopDecision env fuel changes s).returned = true ∧
    motionTimes (loopDecision env fuel changes s).state.trace = motionTimes s.trace := by
  rcases loopDecision_marks env fuel changes s with ⟨hc, -, -⟩ | ⟨hc, hn, -, -⟩
      | ⟨hc, hn, -, -, -⟩ | ⟨-, -, hr', -⟩ | ⟨-, -, hr', -⟩
  · rw [loopDecision_not_candidate env fuel changes s hc]
    exact ⟨rfl, rfl⟩
  · rw [loopDecision_not_enough env fuel changes s hc hn]
    exact ⟨rfl, by simp [Res.state, motionTimes]⟩
  · rw [loopDecision_too_soon env fuel changes s hc hn hr]
    exact ⟨rfl, by simp [Res.state, motionTimes]⟩
  · exact absurd hr' hr
  · exact absurd hr' hr

/-- C23. When `RestartCamera` returns, for either pixel format and whichever attempt
succeeded, `TRIGGERtimer` holds the reading of the clock taken as its last statement (the
clock at its return, modulo 2^32). As long as nothing else writes `TRIGGERtimer`, a
detection tick whose reading of the clock is less than `TriggerLimitTime * 1000` ms after
that does not invoke `MotionDetected`. With a working camera `RestartCamera` returns, given
a step budget of at least 1. -/
theorem RestartCamera_resets_TRIGGERtimer (env : Env) (fuel : Nat) (format : pixformat_t)
    (s : State) :
    (Healthy env → 1 ≤ fuel → (RestartCamera env fuel format s).returned = true) ∧
    (∀ s', RestartCamera env fuel format s = .ok () s' →
      s'.TRIGGERtimer = s'.clock % U32 ∧
      ∀ (env2 : Env) (fuel2 changes : Nat) (s2 : State),
        s2.TRIGGERtimer = s'.TRIGGERtimer → s'.clock ≤ s2.clock →
        s2.clock + env2.elapsed s2.asked < s'.clock + s2.TriggerLimitTime * 1000 →
        (loopDecision env2 fuel2 changes s2).returned = true ∧
        motionTimes (loopDecision env2 fuel2 changes s2).state.trace
          = motionTimes s2.trace) := by
  constructor
  · intro hh h1
    obtain ⟨n, rfl⟩ : ∃ n, fuel = n + 1 := ⟨fuel - 1, by omega⟩
    obtain ⟨a, s', hr, -⟩ := returns_RestartCamera env hh n format s
    rw [hr]
    rfl
  · intro s' h
    have ht := RestartCamera_timer env fuel format s s' h
    refine ⟨ht, ?_⟩
    intro env2 fuel2 changes s2 hsame hclock hsoon
    exact loopDecision_no_invocation env2 fuel2 changes s2
      (not_ratePermits_of_recent env2 s2 s'.clock hclock (hsame.trans ht) hsoon)

/-- C23 at a sample input: a switch to JPEG mode that starts at boot with a working
camera ends with the clock and `TRIGGERtimer` at 40. -/
theorem RestartCamera_resets_TRIGGERtimer_witness :
    (RestartCamera goodEnv 1 .PIXFORMAT_JPEG bootState).returned = true ∧
    (RestartCamera goodEnv 1 .PIXFORMAT_JPEG bootState).state.clock = 40 ∧
    (RestartCamera goodEnv 1 .PIXFORMAT_JPEG bootState).state.TRIGGERtimer = 40 :=
  ⟨(RestartCamera_resets_TRIGGERtimer goodEnv 1 .PIXFORMAT_JPEG bootState).1
      healthy_goodEnv (by decide),
   by decide!, by decide!⟩

/-! ### The decision of the detection cycle when a trigger is refused -/

/-- C30. In a detection tick with a candidate frame and `tCounter >= tCounterTrigger`, the
decision of `loop` leaves `tCounter` at 0 however it goes on. When the rate limit refuses
(the elapsed time computed is below `TriggerLimitTime * 1000`), `MotionDetected` is not
invoked and `TRIGGERtimer` is unchanged. When the rate limit permits and the I/O gate
refuses (`ioRequiredHighToTrigger` set and `SensorStatus` low), `MotionDetected` is not
invoked and `TRIGGERtimer` holds a new reading of the clock, the clock at the return. -/
theorem loopDecision_refusals (env : Env) (fuel changes : Nat) (s : State)
    (hc : isCandidate s changes = true) (hn : s.tCounterTrigger ≤ s.tCounter) :
    (loopDecision env fuel changes s).state.tCounter = 0 ∧
    (sinceTrigger ((s.clock + env.elapsed s.asked) % U32) s.TRIGGERtimer
        < s.TriggerLimitTime * 1000 →
      loopDecision env fuel changes s
        = .ok () { atRateCheck env s with trace := s.trace ++ [.log .tooSoon] } ∧
      (loopDecision env fuel changes s).state.TRIGGERtimer = s.TRIGGERtimer ∧
      motionTimes (loopDecision env fuel changes s).state.trace = motionTimes s.trace) ∧
    (sinceTrigger ((s.clock + env.elapsed s.asked) % U32) s.TRIGGERtimer
        ≥ s.TriggerLimitTime * 1000 →
      s.ioRequiredHighToTrigger = true → s.SensorStatus = false →
      loopDecision env fuel changes s
        = .ok () { atGate env s with trace := s.trace ++ [.log .ioLowIgnored] } ∧
      (loopDecision env fuel changes s).state.TRIGGERtimer
        = (loopDecision env fuel changes s).state.clock % U32 ∧
      (loopDecision env fuel changes s).state.clock
        = s.clock + env.elapsed s.asked + env.elapsed (s.asked + 1) ∧
      motionTimes (loopDecision env fuel changes s).state.trace = motionTimes s.trace) := by
  refine ⟨?_, ?_, ?_⟩
  · rcases loopDecision_marks env fuel changes s with ⟨hc', -, -⟩ | ⟨-, hn', -, -⟩
        | ⟨-, -, -, -, h0⟩ | ⟨-, -, -, -, -, h0⟩ | ⟨-, -, -, -, -, h0⟩
    · rw [hc] at hc'
      cases hc'
    · omega
    · exact h0
    · exact h0
    · exact h0
  · intro hsoon
    have hr : ¬ ratePermits env s := by
      simp only [ratePermits]
      omega
    rw [loopDecision_too_soon env fuel changes s hc hn hr]
    exact ⟨rfl, rfl, by simp [Res.state, motionTimes]⟩
  · intro hlate hio hlow
    have hr : ratePermits env s := hlate
    have hg : ¬ gatePermits s := by
      simp [gatePermits, hio, hlow]
    rw [loopDecision_io_low env fuel changes s hc hn hr hg]
    exact ⟨rfl, rfl, rfl, by simp [Res.state, motionTimes]⟩

/-- C30 at sample inputs: one second after a trigger the rate limit of 20 seconds refuses;
30 seconds after boot the rate limit permits and the I/O gate refuses. -/
theorem loopDecision_refusals_witness :
    ((loopDecision goodEnv 4 20 justTriggeredState).state.tCounter = 0 ∧
      (loopDecision goodEnv 4 20 justTriggeredState).state.TRIGGERtimer = 1000) ∧
    ((loopDecision goodEnv 4 20 inputLowState).state.tCounter = 0 ∧
      (loopDecision goodEnv 4 20 inputLowState).state.TRIGGERtimer = 30080) :=
  ⟨⟨(loopDecision_refusals goodEnv 4 20 justTriggeredState (by decide) (by decide)).1,
    ((loopDecision_refusals goodEnv 4 20 justTriggeredState (by decide) (by decide)).2.1
      (by decide)).2.1⟩,
   ⟨(loopDecision_refusals goodEnv 4 20 inputLowState (by decide) (by decide)).1,
    by decide!⟩⟩

/-! ### The check of a stored photo -/

/-- C25, at the failing input. `checkPhoto` stores the size of the file in a `uint16_t`
before it compares it with 100, so it sees the size modulo 65536: a stored file of 65600
bytes is taken for one of 64 bytes and `checkPhoto` returns false, and with such files
`capturePhotoSaveSpiffs` makes its three attempts and reports failure. -/
theorem checkPhoto_size_wraps :
    (∀ n, checkPhotoSize n = decide (n % 65536 > 100)) ∧
    (65600 > 100 ∧ checkPhotoSize 65600 = false) ∧
    (checkPhoto largeFileEnv bootState).value = some false ∧
    (capturePhotoSaveSpiffs largeFileEnv 4 false bootState).value = some false ∧
    photoMarks (capturePhotoSaveSpiffs largeFileEnv 4 false bootState).state.trace
      = attemptMarks false [65600, 65600, 65600] := by
  refine ⟨fun n => rfl, by decide, by decide!, by decide!, by decide!⟩

/-! ### Commits of the frame while detection is disabled -/

theorem frameCommits_append (a b : List Event) :
    frameCommits (a ++ b) = frameCommits a + frameCommits b := by
  simp [frameCommits]

theorem AutoAdjustImage.adjust_trace (k : Device) :
    (AutoAdjustImage.adjust k).trace = k.trace := by
  simp only [AutoAdjustImage.adjust, AutoAdjustImage.limitGain, AutoAdjustImage.limitExposure,
    AutoAdjustImage.dark, AutoAdjustImage.bright]
  split_ifs <;> rfl

theorem AutoAdjustImage_commits (env : Env) (light : Light) (k : Device) :
    frameCommits (AutoAdjustImage env light k).trace
      = frameCommits k.trace + (if k.cfsize = .FRAME_SIZE_MOTION then 1 else 0) := by
  by_cases hs : k.cfsize = .FRAME_SIZE_MOTION
  · simp only [AutoAdjustImage, hs, ne_eq, not_true_eq_false, ↓reduceIte,
      AutoAdjustImage.apply, run_emit_trace, captureStill_trace, frameCommits_append,
      AutoAdjustImage.adjust_trace]
    simp [frameCommits]
  · simp [AutoAdjustImage, hs]

theorem loopMaintenance.body_commits (env : Env) (light : Light) (k : Device)
    (h0 : k.DetectionEnabled = 0) :
    frameCommits (loopMaintenance.body env light k).trace
      = frameCommits k.trace +
        (if k.targetBrightness > 0 ∧ k.cfsize = .FRAME_SIZE_MOTION then 1 else 0) := by
  have hne : ¬ k.DetectionEnabled ≠ 0 := by simp [h0]
  simp only [loopMaintenance.body, hne, ↓reduceIte]
  have hd : (Device.run (emit (.illuminationLed (Device.run (millis env)
      (Device.run (emit .WIFIcheck) k)).ReqLEDStatus))
      { Device.run (millis env) (Device.run (emit .WIFIcheck) k) with
        MaintTiming := (Device.run (millis env) (Device.run (emit .WIFIcheck) k)).clock % U32 }
      ).DetectionEnabled = 0 := h0
  simp only [hd, ↓reduceIte]
  by_cases ht : k.targetBrightness > 0
  · have ht2 : (captureStill env light (Device.run (emit (.illuminationLed (Device.run (millis env)
      (Device.run (emit .WIFIcheck) k)).ReqLEDStatus))
      { Device.run (millis env) (Device.run (emit .WIFIcheck) k) with
        MaintTiming := (Device.run (millis env) (Device.run (emit .WIFIcheck) k)).clock % U32 }
      )).targetBrightness > 0 := ht
    rw [if_pos ht2, AutoAdjustImage_commits]
    simp only [captureStill_trace, run_emit_trace, frameCommits_append, ht, true_and]
    have hc : (captureStill env light (Device.run (emit (.illuminationLed (Device.run (millis env)
      (Device.run (emit .WIFIcheck) k)).ReqLEDStatus))
      { Device.run (millis env) (Device.run (emit .WIFIcheck) k) with
        MaintTiming := (Device.run (millis env) (Device.run (emit .WIFIcheck) k)).clock % U32 }
      )).cfsize = k.cfsize := rfl
    rw [hc]
    have ht3 : ({ Device.run (millis env) (Device.run (emit .WIFIcheck) k) with
        MaintTiming := (Device.run (millis env) (Device.run (emit .WIFIcheck) k)).clock % U32 }
        : Device).trace = k.trace ++ [.WIFIcheck] := rfl
    rw [ht3, frameCommits_append]
    simp [frameCommits]
  · have ht2 : ¬ (captureStill env light (Device.run (emit (.illuminationLed (Device.run (millis env)
      (Device.run (emit .WIFIcheck) k)).ReqLEDStatus))
      { Device.run (millis env) (Device.run (emit .WIFIcheck) k) with
        MaintTiming := (Device.run (millis env) (Device.run (emit .WIFIcheck) k)).clock % U32 }
      )).targetBrightness > 0 := ht
    rw [if_neg ht2]
    simp only [captureStill_trace, run_emit_trace, frameCommits_append, ht, false_and, ↓reduceIte]
    have ht3 : ({ Device.run (millis env) (Device.run (emit .WIFIcheck) k) with
        MaintTiming := (Device.run (millis env) (Device.run (emit .WIFIcheck) k)).clock % U32 }
        : Device).trace = k.trace ++ [.WIFIcheck] := rfl
    rw [ht3, frameCommits_append]
    simp [frameCommits]

/-- C24, counterexample. Detection is disabled, the target brightness is 130 and the
periodic tasks are due: the maintenance section of the `loop` tick calls
`AutoAdjustImage`, which ends with `update_frame()`, so the frame is committed in a tick
with `DetectionEnabled == 0` without any request for the raw image page. -/
theorem loopMaintenance_commits_while_disabled :
    ({ bootDevice with DetectionEnabled := 0 } : Device).DetectionEnabled = 0 ∧
    (loopMaintenance slowEnv steadyLight { bootDevice with DetectionEnabled := 0 }).trace
      = [.WIFIcheck, .illuminationLed false, .capture_still true,
         .cameraImageSettings 30 0, .capture_still true, .update_frame] ∧
    frameCommits
      (loopMaintenance slowEnv steadyLight { bootDevice with DetectionEnabled := 0 }).trace
      = 1 := by
  decide!

/-- C24, amended. In a `loop` tick with `DetectionEnabled == 0` the detection section
does nothing, so it does not call `update_frame()`; the maintenance section calls it
once, through `AutoAdjustImage`, exactly when the periodic tasks are due,
`targetBrightness > 0` and the frame size is the one of motion detection, and not
otherwise. The request for the raw image page (`handleImagedata`) calls it once. -/
theorem commits_while_disabled (env : Env) (light : Light) (fuel : Nat) (k : Device)
    (h0 : k.DetectionEnabled = 0) :
    loopDetection env fuel k.toState = .ok () k.toState ∧
    frameCommits (loopMaintenance env light k).trace
      = frameCommits k.trace +
        (if maintenanceDue ((k.clock + env.elapsed k.asked) % U32) k ∧ k.targetBrightness > 0 ∧
            k.cfsize = .FRAME_SIZE_MOTION then 1 else 0) ∧
    frameCommits (handleImagedata env light k).trace = frameCommits k.trace + 1 := by
  refine ⟨loopDetection_disabled env fuel k.toState (by rw [h0]; decide), ?_, ?_⟩
  · unfold loopMaintenance
    have hdue : maintenanceDue ((Device.run (millis env) k).clock % U32)
        (Device.run (millis env) k)
        ↔ maintenanceDue ((k.clock + env.elapsed k.asked) % U32) k := Iff.rfl
    by_cases hd : maintenanceDue ((k.clock + env.elapsed k.asked) % U32) k
    · simp only [hdue, hd, ↓reduceIte, true_and]
      exact loopMaintenance.body_commits env light (Device.run (millis env) k) h0
    · simp only [hdue, hd, ↓reduceIte, false_and, add_zero, run_millis_trace]
  · have hd : (Device.run (delay 3) (captureStill env light
        (logText "Raw date page requested from: " k))).DetectionEnabled = 0 := h0
    simp only [handleImagedata, hd, ↓reduceIte, run_emit_trace, frameCommits_append]
    have ht : (Device.run (delay 3) (captureStill env light
        (logText "Raw date page requested from: " k))).trace
        = k.trace ++ [.log (.text "Raw date page requested from: ")]
          ++ [.capture_still (env.stillOk k.asked)] ++ [.delay 3] := rfl
    rw [ht]
    simp [frameCommits]

/-- C24 (amended) at a sample input: detection disabled, the periodic tasks due and the
target brightness 0: no commit. -/
theorem commits_while_disabled_witness :
    frameCommits (loopMaintenance slowEnv steadyLight
      { bootDevice with DetectionEnabled := 0, targetBrightness := 0 }).trace = 0 ∧
    frameCommits (handleImagedata slowEnv steadyLight
      { bootDevice with DetectionEnabled := 0, targetBrightness := 0 }).trace = 1 :=
  ⟨((commits_while_disabled slowEnv steadyLight 4
      { bootDevice with DetectionEnabled := 0, targetBrightness := 0 } rfl).2.1).trans
      (by decide!),
   ((commits_while_disabled slowEnv steadyLight 4
      { bootDevice with DetectionEnabled := 0, targetBrightness := 0 } rfl).2.2).trans
      (by decide!)⟩

/-! ### The request of postImage -/

theorem clientWrite_length (mem : Nat → Nat) (fbBuf len : Nat) :
    (clientWrite mem fbBuf len).length = len := by
  simp [clientWrite]

theorem clientWrite_zero (mem : Nat → Nat) (fbBuf : Nat) : clientWrite mem fbBuf 0 = [] := rfl

theorem clientWrite_append (mem : Nat → Nat) (fbBuf a b : Nat) :
    clientWrite mem fbBuf a ++ clientWrite mem (fbBuf + a) b = clientWrite mem fbBuf (a + b) := by
  simp [clientWrite, List.range_add, List.map_map, Function.comp_def, Nat.add_assoc]

theorem postImage.loop_done (mem : Nat → Nat) (fbLen iterations n fbBuf : Nat)
    (h : fbLen ≤ n) : postImage.loop mem fbLen iterations n fbBuf = [] := by
  cases iterations with
  | zero => rfl
  | succ i => simp [postImage.loop, Nat.not_lt.mpr h]

theorem postImage.loop_writes (mem : Nat → Nat) (fbLen : Nat) :
    ∀ (iterations n fbBuf : Nat), 1024 ∣ n → fbLen < n + 1024 * iterations →
      postImage.loop mem fbLen iterations n fbBuf
        = clientWrite mem fbBuf ((if fbLen % 1024 = 0 then fbLen - 1024 else fbLen) - n) := by
  intro iterations
  induction iterations with
  | zero =>
    intro n fbBuf _ hlt
    have h0 : (if fbLen % 1024 = 0 then fbLen - 1024 else fbLen) - n = 0 := by
      split_ifs <;> omega
    rw [h0]; rfl
  | succ i ih =>
    intro n fbBuf hdvd hlt
    obtain ⟨q, rfl⟩ := hdvd
    by_cases h1 : 1024 * q < fbLen
    · by_cases h2 : 1024 * q + 1024 < fbLen
      · simp only [postImage.loop, h1, h2, ↓reduceIte]
        have e := ih (1024 * q + 1024) (fbBuf + 1024) ⟨q + 1, by ring⟩ (by omega)
        have a := clientWrite_append mem fbBuf 1024
          ((if fbLen % 1024 = 0 then fbLen - 1024 else fbLen) - (1024 * q + 1024))
        have hs : 1024 + ((if fbLen % 1024 = 0 then fbLen - 1024 else fbLen) - (1024 * q + 1024))
            = (if fbLen % 1024 = 0 then fbLen - 1024 else fbLen) - 1024 * q := by
          split_ifs <;> omega
        rw [e, a, hs]
      · by_cases h3 : fbLen % 1024 > 0
        · simp only [postImage.loop, h1, h2, h3, ↓reduceIte]
          rw [postImage.loop_done mem fbLen i (1024 * q + 1024) fbBuf (by omega),
            List.append_nil]
          congr 1
          have : ¬ fbLen % 1024 = 0 := by omega
          rw [if_neg this]
          omega
        · simp only [postImage.loop, h1, h2, h3, ↓reduceIte]
          rw [postImage.loop_done mem fbLen i (1024 * q + 1024) fbBuf (by omega)]
          have : fbLen % 1024 = 0 := by omega
          rw [if_pos this]
          have h0 : fbLen - 1024 - 1024 * q = 0 := by omega
          rw [h0]; rfl
    · simp only [postImage.loop, h1, ↓reduceIte]
      have h0 : (if fbLen % 1024 = 0 then fbLen - 1024 else fbLen) - 1024 * q = 0 := by
        split_ifs <;> omega
      rw [h0]; rfl

/-- C26. For an image whose length is a multiple of 1024 (and not 0) the loop of
`postImage` does not write the last 1024 bytes: in its last round `n + 1024 < fbLen` is
false and `fbLen % 1024 > 0` is false, so nothing is written. For every length the bytes
written are the first `fbLen` bytes of the buffer when `fbLen` is not a multiple of 1024,
and the first `fbLen - 1024` bytes when it is. An image of 2048 bytes is sent as 1024
bytes, an image of 1024 bytes as none. -/
theorem postImage_drops_last_chunk (mem : Nat → Nat) (fbBuf fbLen : Nat) :
    postImage.sendImage mem fbBuf fbLen
      = clientWrite mem fbBuf (if fbLen % 1024 = 0 then fbLen - 1024 else fbLen) ∧
    (postImage.sendImage mem fbBuf fbLen).length
      = (if fbLen % 1024 = 0 then fbLen - 1024 else fbLen) ∧
    postImage.sendImage mem fbBuf 2048 = clientWrite mem fbBuf 1024 ∧
    (postImage.sendImage mem fbBuf 2048).length ≠ 2048 ∧
    postImage.sendImage mem fbBuf 1024 = [] := by
  have h : ∀ L, postImage.sendImage mem fbBuf L
      = clientWrite mem fbBuf (if L % 1024 = 0 then L - 1024 else L) := by
    intro L
    have := postImage.loop_writes mem L (L / 1024 + 1) 0 fbBuf (dvd_zero _) (by omega)
    simpa [postImage.sendImage] using this
  refine ⟨h fbLen, ?_, ?_, ?_, ?_⟩
  · rw [h fbLen, clientWrite_length]
  · exact h 2048
  · rw [h 2048, clientWrite_length]; decide
  · rw [h 1024]; rfl

/-- C27. The `Content-Length` that `postImage` sends is computed in `uint16_t`: it is the
sum `head.length() + fbLen + tail.length()` modulo 65536, and equals the sum only when the
sum is below 65536. For the file name `cwm` (a head of 120 bytes, the tail has 30) and an
image of 70000 bytes the request announces 4614 bytes where 70150 was meant. -/
theorem postImage_content_length_wraps (fName : String) (fbLen : Nat) :
    postImage.totalLen fName fbLen
      = ((postImage.head fName).length + fbLen + postImage.tail.length) % 65536 ∧
    (postImage.totalLen fName fbLen
        = (postImage.head fName).length + fbLen + postImage.tail.length
      ↔ (postImage.head fName).length + fbLen + postImage.tail.length < 65536) ∧
    (postImage.head "cwm").length = 120 ∧ postImage.tail.length = 30 ∧
    postImage.totalLen "cwm" 70000 = 4614 ∧
    postImage.totalLen "cwm" 70000
      ≠ (postImage.head "cwm").length + 70000 + postImage.tail.length := by
  have h : postImage.totalLen fName fbLen
      = ((postImage.head fName).length + fbLen + postImage.tail.length) % 65536 := by
    simp only [postImage.totalLen]
    omega
  refine ⟨h, ?_, by decide, by decide, by decide, by decide⟩
  rw [h]
  constructor
  · intro he
    by_contra hc
    have := Nat.mod_lt ((postImage.head fName).length + fbLen + postImage.tail.length)
      (by decide : 65536 > 0)
    omega
  · intro hl
    exact Nat.mod_eq_of_lt hl

end SecurityCamera
